import Mathlib

/-!
# Robinhood policy engine: the HSM-lite backend, the scrubber and the list manager

A shallow embedding of `src/backend_ext/backend_basic.c` (path mapping, status
determination, archive, recovery) and of the helpers of `src/common/RobinhoodMisc.c`
it calls (`relative_path`, `escape_shell_arg`, `execute_shell_command`,
`PosixStat2EntryAttr`) with `gcd`, of the scrubbing array of
`src/robinhood/cmd_helpers.c` (`add_id_list`, `rbh_scrub`), of the request builder of
`src/list_mgr/listmgr_iterators.c` (`append_dir_req`, `ListMgr_Iterator`) and of the
stripe updates of `src/list_mgr/listmgr_stripe.c` (`update_stripe_info`,
`insert_stripe_info`).  The id constraint manager, of which `src/` holds the
declarations only (`entry_proc_tools.h`), is modelled from the specification.

Conventions of the embedding.

* A C string is a `List Char`; one `Char` stands for one byte, bytes above 127
  being the non-ASCII ones.  Buffers are taken large enough (`RBH_PATH_MAX`).
* `int` return codes, `time_t` values and the time attributes are `Int`; sizes and
  counters are `Nat`.  Where the code narrows a `time_t` to `int` (the result of
  `entry_is_archiving`) the conversion is explicit (`to_int`).  A failed system call
  yields `Except.error errno` with `errno > 0`; the code turns it into the return
  code `-errno`.
* The filesystem (backend tree and source filesystem share one path name space)
  is a state `World`, threaded through the operations.
* The file is compiled without `HAVE_SHOOK` (the shook library is not part of
  the repository), hence without `HAVE_PURGE_POLICY`.  The two alternatives
  of `#ifdef _HAVE_FID` are both embedded: they are selected by the representation
  of the entry id (`entry_id_t.fid` or `entry_id_t.posix`).  `backend_basic.c` itself
  compiles with `_HAVE_FID` only (its other alternative reads `p_attrs` in
  `rbhext_get_status`, where no such variable is declared), so that the entries of the
  backend are identified by fids; the scrubber and the list manager take both.
* `DisplayLog` calls have no effect on the result and are left out.
-/

namespace Robinhood

/-! ## Strings -/

/-- C strings (without the final NUL). -/
abbrev CStr := List Char

/-- String literal as a C string. -/
def cs (s : String) : CStr := s.toList

/-- C library `isascii`. -/
def isascii (c : Char) : Bool := decide (c.toNat < 128)

/-- C library `isspace` in the C locale: space, `\t`, `\n`, `\v`, `\f`, `\r`. -/
def isspace (c : Char) : Bool :=
  decide (c.toNat = 32) || (decide (9 ≤ c.toNat) && decide (c.toNat ≤ 13))

/-- C library `tolower` in the C locale. -/
def tolower (c : Char) : Char :=
  if 65 ≤ c.toNat ∧ c.toNat ≤ 90 then Char.ofNat (c.toNat + 32) else c

/-- The test `strcasecmp(a, b) == 0`. -/
def strcasecmp_eq (a b : CStr) : Bool := decide (a.map tolower = b.map tolower)

/-- The test `strncmp(a, b, strlen(a)) == 0`: `a` is an initial segment of `b`. -/
def strncmp_eq (a b : CStr) : Bool := decide (b.take a.length = a)

/-- The string `specials` of `is_shell_special`. -/
def specials : CStr := cs "`#$*?!|;&<>[]\x7b\x7d'\"\\"

/-- Source: `is_shell_special` (backend_basic.c). -/
def is_shell_special (c : Char) : Bool := specials.elem c

/-- Source: macro `is_allowed_char` (backend_basic.c). -/
def is_allowed_char (c : Char) : Bool :=
  isascii c && !isspace c && !is_shell_special c

/-- Source: `clean_bad_chars` (backend_basic.c): every character that is not allowed is
overwritten by an underscore. -/
def clean_bad_chars (path : CStr) : CStr :=
  path.map (fun c => if is_allowed_char c then c else '_')

/-! ## Error numbers -/

/-- The error numbers that the system calls of the backend can set (Linux values). -/
inductive errno_t where
  | EPERM | ENOENT | EINTR | EACCES | EEXIST | EXDEV | ENOTDIR | EISDIR | EINVAL
  | ENOSPC | EROFS | ENAMETOOLONG | ENOTEMPTY | ELOOP | ENOTSUP | EALREADY | ESTALE
  deriving DecidableEq, Repr

/-- Value of an error number. -/
def errno_t.code : errno_t → Int
  | .EPERM => 1 | .ENOENT => 2 | .EINTR => 4 | .EACCES => 13 | .EEXIST => 17
  | .EXDEV => 18 | .ENOTDIR => 20 | .EISDIR => 21 | .EINVAL => 22 | .ENOSPC => 28
  | .EROFS => 30 | .ENAMETOOLONG => 36 | .ENOTEMPTY => 39 | .ELOOP => 40 | .ENOTSUP => 95
  | .EALREADY => 114 | .ESTALE => 116

def ENOENT : Int := 2
def EINTR : Int := 4
def EACCES : Int := 13
def EEXIST : Int := 17
def ENOTDIR : Int := 20
def EISDIR : Int := 21
def EINVAL : Int := 22
def ENOTSUP : Int := 95
def EALREADY : Int := 114
def ESTALE : Int := 116

deriving instance DecidableEq for Except

/-! ## Entry ids and their printed form -/

/-- Entry id: a Lustre fid when `_HAVE_FID` is defined, else the triple
`(inode, device, validator)`. -/
inductive entry_id_t where
  | fid (f_seq f_oid f_ver : Nat)
  | posix (inode device validator : Nat)
  deriving DecidableEq, Repr

/-- Hexadecimal digit of a value below 16. -/
def hexdigit (upper : Bool) (d : Nat) : Char :=
  if d < 10 then Char.ofNat (48 + d)
  else if upper then Char.ofNat (55 + d) else Char.ofNat (87 + d)

/-- Digits of `n` in base 16, most significant first, pushed in front of `acc`. -/
def hexAux (upper : Bool) : Nat → Nat → CStr → CStr
  | 0, _, acc => acc
  | fuel + 1, n, acc =>
    if n < 16 then hexdigit upper n :: acc
    else hexAux upper fuel (n / 16) (hexdigit upper (n % 16) :: acc)

/-- The conversions `%x` and `%X` of printf. -/
def hex (upper : Bool) (n : Nat) : CStr := hexAux upper (n + 1) n []

/-- The conversions `%#llx` and `%#LX` of printf: zero prints as `0`, any other
value with the `0x` (`0X`) mark. -/
def hex_alt (upper : Bool) (n : Nat) : CStr :=
  if n = 0 then ['0'] else '0' :: (if upper then 'X' else 'x') :: hex upper n

/-- What `entry2backend_path` prints after the two underscores: with `_HAVE_FID`,
`DFID_NOBRACE` applied to `PFID(p_id)`, which is `"%#llx:0x%x:0x%x"` on
`f_seq, f_oid, f_ver`; otherwise `"%#LX:%#LX"` on device and inode. -/
def id_suffix : entry_id_t → CStr
  | .fid f_seq f_oid f_ver =>
    hex_alt false f_seq ++ cs ":0x" ++ hex false f_oid ++ cs ":0x" ++ hex false f_ver
  | .posix inode device _ =>
    hex_alt true device ++ cs ":" ++ hex_alt true inode

/-! ## Attribute sets -/

/-- Entry status (`file_status_t`). -/
inductive file_status_t where
  | STATUS_UNKNOWN | STATUS_NEW | STATUS_MODIFIED | STATUS_RESTORE_RUNNING
  | STATUS_ARCHIVE_RUNNING | STATUS_SYNCHRO | STATUS_RELEASED
  | STATUS_RELEASE_PENDING | STATUS_REMOVED
  deriving DecidableEq, Repr

export file_status_t (STATUS_UNKNOWN STATUS_NEW STATUS_MODIFIED STATUS_RESTORE_RUNNING
  STATUS_ARCHIVE_RUNNING STATUS_SYNCHRO STATUS_RELEASED STATUS_RELEASE_PENDING STATUS_REMOVED)

/-- Policy object types (`obj_type_t`). -/
inductive obj_type_t where
  | TYPE_NONE | TYPE_LINK | TYPE_DIR | TYPE_FILE | TYPE_CHR | TYPE_BLK | TYPE_FIFO | TYPE_SOCK
  deriving DecidableEq, Repr

export obj_type_t (TYPE_NONE TYPE_LINK TYPE_DIR TYPE_FILE TYPE_CHR TYPE_BLK TYPE_FIFO TYPE_SOCK)

def STR_TYPE_LINK : CStr := cs "symlink"
def STR_TYPE_DIR : CStr := cs "dir"
def STR_TYPE_FILE : CStr := cs "file"
def STR_TYPE_CHR : CStr := cs "chr"
def STR_TYPE_BLK : CStr := cs "blk"
def STR_TYPE_FIFO : CStr := cs "fifo"
def STR_TYPE_SOCK : CStr := cs "sock"

/-- The fields of `stripe_info_t`. -/
structure stripe_info_t where
  stripe_count : Nat := 0
  stripe_size : Nat := 0
  pool_name : CStr := []
  deriving DecidableEq, Repr

/-- The fields of `stripe_item_t`: the storage unit that holds one stripe, and the
object on it. -/
structure stripe_item_t where
  ost_idx : Nat := 0
  ost_gen : Nat := 0
  obj_id : Nat := 0
  obj_seq : Nat := 0
  deriving DecidableEq, Repr

/-- The bits of `attr_mask` the backend reads or writes. -/
structure attr_mask_t where
  fullpath : Bool := false
  name : Bool := false
  type : Bool := false
  owner : Bool := false
  gr_name : Bool := false
  size : Bool := false
  blocks : Bool := false
  blksize : Bool := false
  nlink : Bool := false
  last_access : Bool := false
  last_mod : Bool := false
  creation_time : Bool := false
  status : Bool := false
  backendpath : Bool := false
  last_archive : Bool := false
  parent_id : Bool := false
  stripe_info : Bool := false
  stripe_items : Bool := false
  deriving DecidableEq, Repr

/-- The value fields of `attr_values`; a field holds a value whether or not its mask
bit is set. -/
structure attr_values_t where
  fullpath : CStr := []
  name : CStr := []
  type : CStr := []
  owner : CStr := []
  gr_name : CStr := []
  size : Nat := 0
  blocks : Nat := 0
  blksize : Nat := 0
  nlink : Nat := 0
  last_access : Int := 0
  last_mod : Int := 0
  creation_time : Int := 0
  status : file_status_t := STATUS_UNKNOWN
  backendpath : CStr := []
  last_archive : Int := 0
  parent_id : entry_id_t := .posix 0 0 0
  stripe_info : stripe_info_t := {}
  stripe_items : List stripe_item_t := []
  deriving DecidableEq, Repr

/-- The partial record `attr_set_t`: a mask beside a struct of values. -/
structure attr_set_t where
  attr_mask : attr_mask_t := {}
  attr_values : attr_values_t := {}
  deriving DecidableEq, Repr

/-! ## Configuration -/

/-- The fields of `backend_config_t` used by the basic backend. -/
structure backend_config_t where
  root : CStr
  check_mounted : Bool := true
  copy_timeout : Nat := 0
  action_cmd : CStr := []
  deriving DecidableEq, Repr

/-- The field of `global_config` used by the backend. -/
structure global_config_t where
  fs_path : CStr
  deriving DecidableEq, Repr

/-! ## Path mapping -/

/-- Source: `relative_path` (RobinhoodMisc.c).  Returns the return code and the
content of `rel_path` (written only on success). -/
def relative_path (fullpath root : CStr) : Int × CStr :=
  let rootcopy : CStr :=
    if root.length > 1 ∧ root.getLast? ≠ some '/' then root ++ ['/'] else root
  if strncmp_eq rootcopy fullpath then (0, fullpath.drop rootcopy.length)
  else (-EINVAL, [])

inductive what_for_e where
  | FOR_LOOKUP | FOR_NEW_COPY
  deriving DecidableEq, Repr

export what_for_e (FOR_LOOKUP FOR_NEW_COPY)

def UNK_PATH : CStr := cs "__unknown_path"
def UNK_NAME : CStr := cs "__unknown_name"
def COPY_EXT : CStr := cs "xfer"
def TRASH_DIR : CStr := cs ".orphans"

/-- The path that both branches of `entry2backend_path` print before cleaning:
`<root>/<rel_path>` when the full path is known and under the filesystem root, else
`<root>/__unknown_path/<name>`; the root `/` is not repeated. -/
def raw_backend_path (config : backend_config_t) (global_config : global_config_t)
    (p_attrs_in : attr_set_t) : CStr :=
  if p_attrs_in.attr_mask.fullpath ∧
      (relative_path p_attrs_in.attr_values.fullpath global_config.fs_path).1 = 0 then
    let rel_path := (relative_path p_attrs_in.attr_values.fullpath global_config.fs_path).2
    if config.root = cs "/" then cs "/" ++ rel_path
    else config.root ++ cs "/" ++ rel_path
  else
    let fname := if p_attrs_in.attr_mask.name then p_attrs_in.attr_values.name else UNK_NAME
    if config.root = cs "/" then cs "/" ++ UNK_PATH ++ cs "/" ++ fname
    else config.root ++ cs "/" ++ UNK_PATH ++ cs "/" ++ fname

/-- Source: `entry2backend_path` (backend_basic.c).  Returns the return code and the
content of `backend_path`. -/
def entry2backend_path (config : backend_config_t) (global_config : global_config_t)
    (p_id : entry_id_t) (p_attrs_in : attr_set_t) (what_for : what_for_e) : Int × CStr :=
  let raw := raw_backend_path config global_config p_attrs_in
  let lookup_or_scratch : Int × CStr :=
    if what_for = FOR_LOOKUP ∧ p_attrs_in.attr_mask.backendpath then
      -- for lookup, if there is a previous path in the backend, use it
      (0, p_attrs_in.attr_values.backendpath)
    else
      -- in any other case, build a path from scratch and add __<id> after the name
      (0, clean_bad_chars raw ++ cs "__" ++ id_suffix p_id)
  if p_attrs_in.attr_mask.backendpath then
    -- only a debug message
    lookup_or_scratch
  else if p_attrs_in.attr_mask.type ∧
      strcasecmp_eq p_attrs_in.attr_values.type STR_TYPE_DIR then
    (0, clean_bad_chars raw)
  else
    lookup_or_scratch

/-! ## The filesystem

The state is a flat map from path names to objects: a path names an object as written,
without resolution of `.`, `..`, repeated separators or symbolic links in the middle
of a path, and creating an object does not require its parent directory.  A
system call on a path can also fail with an injected error number (`fault`), which
stands for permission, I/O and stale-handle errors; error numbers are positive. -/

/-- The file type part of `st_mode`. -/
inductive file_kind where
  | S_IFREG | S_IFDIR | S_IFLNK | S_IFCHR | S_IFBLK | S_IFIFO | S_IFSOCK
  deriving DecidableEq, Repr

export file_kind (S_IFREG S_IFDIR S_IFLNK S_IFCHR S_IFBLK S_IFIFO S_IFSOCK)

/-- The fields of `struct stat`; `st_kind` and `st_perm` are the two parts of `st_mode`
(`st_perm` is `st_mode & 07777`). -/
structure stat_t where
  st_kind : file_kind := S_IFREG
  st_perm : Nat := 0
  st_uid : Nat := 0
  st_gid : Nat := 0
  st_size : Nat := 0
  st_blocks : Nat := 0
  st_blksize : Nat := 0
  st_nlink : Nat := 1
  st_atime : Int := 0
  st_mtime : Int := 0
  st_ctime : Int := 0
  st_dev : Nat := 0
  st_ino : Nat := 0
  deriving DecidableEq, Repr

/-- An object of the filesystem: its metadata and, for a symbolic link, its target. -/
structure Node where
  st : stat_t := {}
  link : CStr := []
  deriving DecidableEq, Repr

/-- The system calls of the backend. -/
inductive syscall_t where
  | sys_lstat | sys_unlink | sys_rename | sys_mkdir | sys_lchown | sys_utime
  | sys_readlink | sys_symlink | sys_creat | sys_chmod
  deriving DecidableEq, Repr

open syscall_t

/-- State of the filesystem, with the clock read by `time(NULL)`. -/
structure World where
  files : CStr → Option Node
  fault : syscall_t → CStr → Option errno_t := fun _ _ => none
  now : Int := 0
  /-- The value that earlier calls left in `errno`; it is read where the code reads
  `errno` after a call that succeeded. -/
  errno : Int := 0

/-- The same world with the object `n` (or nothing) at path `p`. -/
def World.put (w : World) (p : CStr) (n : Option Node) : World :=
  { w with files := fun q => if q = p then n else w.files q }

/-- System call `lstat`. -/
def lstat (w : World) (p : CStr) : Except Int stat_t :=
  match w.fault sys_lstat p with
  | some e => .error e.code
  | none =>
    match w.files p with
    | none => .error ENOENT
    | some n => .ok n.st

/-- System call `unlink`. -/
def unlink (w : World) (p : CStr) : Except Int World :=
  match w.fault sys_unlink p with
  | some e => .error e.code
  | none =>
    match w.files p with
    | none => .error ENOENT
    | some n => if n.st.st_kind = S_IFDIR then .error EISDIR else .ok (w.put p none)

/-- System call `rename`: the object moves to the new name and replaces what was
there.  A non-directory cannot replace a directory (`EISDIR`) and a directory cannot
replace a non-directory (`ENOTDIR`).  A directory replaces a directory that is empty;
the flat map has no notion of the content of a directory, so that a target directory
that is not empty is an injected `ENOTEMPTY`. -/
def rename (w : World) (oldp newp : CStr) : Except Int World :=
  match w.fault sys_rename oldp with
  | some e => .error e.code
  | none =>
    match w.files oldp with
    | none => .error ENOENT
    | some n =>
      match w.files newp with
      | some m =>
        if m.st.st_kind = S_IFDIR ∧ n.st.st_kind ≠ S_IFDIR then .error EISDIR
        else if n.st.st_kind = S_IFDIR ∧ m.st.st_kind ≠ S_IFDIR then .error ENOTDIR
        else if oldp = newp then .ok w
        else .ok ((w.put newp (some n)).put oldp none)
      | none => .ok ((w.put newp (some n)).put oldp none)

/-- System call `mkdir`. -/
def mkdir (w : World) (p : CStr) (mode : Nat) : Except Int World :=
  match w.fault sys_mkdir p with
  | some e => .error e.code
  | none =>
    match w.files p with
    | some _ => .error EEXIST
    | none =>
      .ok (w.put p (some { st := { st_kind := S_IFDIR, st_perm := mode, st_nlink := 2,
                                   st_atime := w.now, st_mtime := w.now,
                                   st_ctime := w.now } }))

/-- System call `lchown`. -/
def lchown (w : World) (p : CStr) (uid gid : Nat) : Except Int World :=
  match w.fault sys_lchown p with
  | some e => .error e.code
  | none =>
    match w.files p with
    | none => .error ENOENT
    | some n => .ok (w.put p (some { n with st := { n.st with st_uid := uid, st_gid := gid,
                                                              st_ctime := w.now } }))

/-- System call `utime`. -/
def utime (w : World) (p : CStr) (actime modtime : Int) : Except Int World :=
  match w.fault sys_utime p with
  | some e => .error e.code
  | none =>
    match w.files p with
    | none => .error ENOENT
    | some n => .ok (w.put p (some { n with st := { n.st with st_atime := actime,
                                                              st_mtime := modtime,
                                                              st_ctime := w.now } }))

/-- System call `readlink`. -/
def readlink (w : World) (p : CStr) : Except Int CStr :=
  match w.fault sys_readlink p with
  | some e => .error e.code
  | none =>
    match w.files p with
    | none => .error ENOENT
    | some n => if n.st.st_kind = S_IFLNK then .ok n.link else .error EINVAL

/-- System call `symlink`. -/
def symlink (w : World) (target p : CStr) : Except Int World :=
  match w.fault sys_symlink p with
  | some e => .error e.code
  | none =>
    match w.files p with
    | some _ => .error EEXIST
    | none =>
      .ok (w.put p (some { st := { st_kind := S_IFLNK, st_perm := 511,
                                   st_size := target.length, st_atime := w.now,
                                   st_mtime := w.now, st_ctime := w.now },
                           link := target }))

/-- C library `basename` (POSIX version of `libgen.h`). -/
def basename (path : CStr) : CStr :=
  if path = [] then cs "."
  else
    let stripped := (path.reverse.dropWhile (fun c => c = '/')).reverse
    if stripped = [] then cs "/"
    else (stripped.reverse.takeWhile (fun c => c ≠ '/')).reverse

/-- C library `dirname` (POSIX version of `libgen.h`). -/
def dirname (path : CStr) : CStr :=
  let stripped := (path.reverse.dropWhile (fun c => c = '/')).reverse
  if stripped = [] then (if path = [] then cs "." else cs "/")
  else if '/' ∉ stripped then cs "."
  else
    let dir := ((stripped.reverse.dropWhile (fun c => c ≠ '/')).dropWhile
      (fun c => c = '/')).reverse
    if dir = [] then cs "/" else dir

/-- The environment of the backend: its configuration, and the functions of the
program and of the system that are outside `src/`. -/
structure Env where
  config : backend_config_t
  global_config : global_config_t
  /-- Function `ListMgr2PolicyType`: the policy type named by a type string. -/
  ListMgr2PolicyType : CStr → obj_type_t
  /-- Function `BuildFidPath`: the path that opens an entry by its fid. -/
  BuildFidPath : entry_id_t → CStr
  /-- C library `system`: the command line is run on the world and gives a wait
  status. -/
  system : CStr → World → Int × World
  /-- Function `uid2str`: the user name of a uid. -/
  uid2str : Nat → CStr
  /-- Function `gid2str`: the group name of a gid. -/
  gid2str : Nat → CStr

/-! ## Helpers of RobinhoodMisc.c -/

/-- Macro `MAX3`. -/
def MAX3 (a b c : Int) : Int := max (max a b) c

/-- Attribute setters: `ATTR_MASK_SET` followed by the assignment of the value. -/
def attr_set_t.set_status (a : attr_set_t) (v : file_status_t) : attr_set_t :=
  { attr_mask := { a.attr_mask with status := true },
    attr_values := { a.attr_values with status := v } }

def attr_set_t.set_backendpath (a : attr_set_t) (v : CStr) : attr_set_t :=
  { attr_mask := { a.attr_mask with backendpath := true },
    attr_values := { a.attr_values with backendpath := v } }

def attr_set_t.set_last_archive (a : attr_set_t) (v : Int) : attr_set_t :=
  { attr_mask := { a.attr_mask with last_archive := true },
    attr_values := { a.attr_values with last_archive := v } }

/-- The type string that `PosixStat2EntryAttr` stores for a file kind. -/
def type_string : file_kind → CStr
  | S_IFREG => STR_TYPE_FILE
  | S_IFDIR => STR_TYPE_DIR
  | S_IFCHR => STR_TYPE_CHR
  | S_IFBLK => STR_TYPE_BLK
  | S_IFIFO => STR_TYPE_FIFO
  | S_IFLNK => STR_TYPE_LINK
  | S_IFSOCK => STR_TYPE_SOCK

/-- Source: `PosixStat2EntryAttr` (RobinhoodMisc.c), compiled with `_HSM_LITE` (the
modification time is `st_mtime`) and with the attributes `blksize`, `creation_time`,
`type` and `nlink`. -/
def PosixStat2EntryAttr (uid2str gid2str : Nat → CStr) (p_inode : stat_t)
    (p_attr_set : attr_set_t) (size_info : Bool) : attr_set_t :=
  let m := p_attr_set.attr_mask
  let v := p_attr_set.attr_values
  { attr_mask :=
      { m with
        owner := true, gr_name := true,
        size := if size_info then true else m.size,
        blocks := if size_info then true else m.blocks,
        blksize := if size_info then true else m.blksize,
        last_access := true, last_mod := true, creation_time := true,
        type := true, nlink := true },
    attr_values :=
      { v with
        owner := uid2str p_inode.st_uid, gr_name := gid2str p_inode.st_gid,
        size := if size_info then p_inode.st_size else v.size,
        blocks := if size_info then p_inode.st_blocks else v.blocks,
        blksize := if size_info then p_inode.st_blksize else v.blksize,
        last_access := MAX3 p_inode.st_atime p_inode.st_mtime p_inode.st_ctime,
        last_mod := p_inode.st_mtime,
        creation_time :=
          if m.creation_time then
            -- creation time is always <= ctime
            (if p_inode.st_ctime < v.creation_time then p_inode.st_ctime
             else v.creation_time)
          else p_inode.st_ctime,
        type := type_string p_inode.st_kind,
        nlink := p_inode.st_nlink } }

/-- Source: `escape_shell_arg` (RobinhoodMisc.c). -/
def escape_shell_arg (arg : CStr) : CStr :=
  '"' :: (arg.flatMap (fun c => if c ≠ '"' then [c] else ['\\', '"'])) ++ ['"']

/-- The command line that `execute_shell_command` gives to `system`. -/
def shell_cmdline (cmd : CStr) (args : List CStr) : CStr :=
  cmd ++ args.flatMap (fun a => cs " " ++ escape_shell_arg a)
    ++ cs " " ++ cs " >/dev/null 2>/dev/null"

/-- The 32 bits of an `int` in two's complement, as a natural number. -/
def int_bits (rc : Int) : Nat := (rc % 4294967296).toNat

/-- Conversion to `signed char`. -/
def to_signed_char (x : Int) : Int := (x + 128) % 256 - 128

/-- Macro `WTERMSIG` of the C library: `status & 0x7f`. -/
def WTERMSIG (rc : Int) : Nat := int_bits rc &&& 0x7f

/-- Macro `WIFEXITED` of the C library: `WTERMSIG(status) == 0`. -/
def WIFEXITED (rc : Int) : Bool := decide (WTERMSIG rc = 0)

/-- Macro `WEXITSTATUS` of the C library: `(status & 0xff00) >> 8`. -/
def WEXITSTATUS (rc : Int) : Int := (((int_bits rc &&& 0xff00) >>> 8 : Nat) : Int)

/-- Macro `WIFSIGNALED` of the C library:
`((signed char) ((status & 0x7f) + 1) >> 1) > 0`. -/
def WIFSIGNALED (rc : Int) : Bool :=
  decide (to_signed_char ((WTERMSIG rc : Int) + 1) >>> 1 > 0)

/-- The ways a call of `system` ends (`system(3)`): the command exits with a status
below 256 (status 127 when the shell cannot be executed), it is killed by a signal,
with or without a core dump, or no child process can be created or waited for. -/
inductive command_end where
  | exited (status : Nat)
  | killed (sig : Nat) (core : Bool)
  | not_run
  deriving DecidableEq, Repr

/-- The value that `system` returns for each ending: the wait status of the child
(`wait(2)`: the exit status in the bits 8 to 15, or the signal number in the bits 0
to 6 and the core flag in the bit 7), or -1 when no child ran. -/
def wait_status : command_end → Int
  | .exited status => (status : Int) * 256
  | .killed sig core => (sig : Int) + (if core then 128 else 0)
  | .not_run => -1

/-- The endings that exist: an exit status is below 256 and a signal number is between
1 and 126. -/
def command_end.valid : command_end → Prop
  | .exited status => status < 256
  | .killed sig _ => 0 < sig ∧ sig < 127
  | .not_run => True

/-- Source: `execute_shell_command` (RobinhoodMisc.c). -/
def execute_shell_command (system : CStr → World → Int × World) (w : World)
    (cmd : CStr) (args : List CStr) : Int × World :=
  let (rc, w1) := system (shell_cmdline cmd args) w
  if WIFEXITED rc then
    let exrc := WEXITSTATUS rc
    if exrc = 0 then (0, w1) else (-exrc, w1)
  else if WIFSIGNALED rc then (-EINTR, w1)
  else (rc, w1)

/-! ## Status determination (backend_basic.c) -/

/-- The name of the temporary copy: `<backend_path>.xfer`. -/
def xfer_path (backend_path : CStr) : CStr := backend_path ++ cs "." ++ COPY_EXT

/-- Conversion of a `time_t` value to the 32-bit `int` that a function declared `int`
returns: the value modulo `2 ^ 32`, taken between `-2 ^ 31` and `2 ^ 31 - 1`. -/
def to_int (x : Int) : Int := (x + 2147483648) % 4294967296 - 2147483648

/-- Source: `entry_is_archiving` (backend_basic.c): 0 when no copy is in flight, a
negative error code, or the time of the last action on the temporary copy.  The
function is declared `int`: the `time_t` value of `MAX3` is converted on return. -/
def entry_is_archiving (w : World) (backend_path : CStr) : Int :=
  match lstat w (xfer_path backend_path) with
  | .error e => if -e = -ENOENT ∨ -e = -ESTALE then 0 else -e
  | .ok cp_md => to_int (MAX3 cp_md.st_mtime cp_md.st_ctime cp_md.st_atime)

/-- Source: `transfer_cleanup` (backend_basic.c). -/
def transfer_cleanup (w : World) (backend_path : CStr) : Int × World :=
  match unlink w (xfer_path backend_path) with
  | .error e => (-e, w)
  | .ok w1 => (0, w1)

/-- Source: `move_orphan` (backend_basic.c). -/
def move_orphan (config : backend_config_t) (w : World) (path : CStr) : Int × World :=
  let dest := config.root ++ cs "/" ++ TRASH_DIR
  let made : Except Int World :=
    match mkdir w dest 488 with
    | .ok w1 => .ok w1
    | .error e => if e ≠ EEXIST then .error e else .ok w
  match made with
  | .error e => (-e, w)
  | .ok w1 =>
    let fname := basename path
    if fname = cs "/" ∨ fname = [] then (-EINVAL, w1)
    else
      match rename w1 path (config.root ++ cs "/" ++ TRASH_DIR ++ cs "/" ++ fname) with
      | .error e => (-e, w1)
      | .ok w2 => (0, w2)

/-- Source: `check_running_copy` (backend_basic.c): negative on error, 0 if no copy is
running, 1 if a copy is already running. -/
def check_running_copy (config : backend_config_t) (w : World) (bkpath : CStr) :
    Int × World :=
  let rc := entry_is_archiving w bkpath
  if rc < 0 then (rc, w)
  else if rc > 0 then
    if config.copy_timeout ≠ 0 ∧ w.now - rc > (config.copy_timeout : Int) then
      -- previous copy timed out: clean it
      (0, (transfer_cleanup w bkpath).2)
    else (1, w)
  else (0, w)

/-- The path of the entry in the filesystem: the fid path with `_HAVE_FID`, else the
full path, which is then mandatory. -/
def entry_fspath (env : Env) (p_id : entry_id_t) (p_attrs : attr_set_t) : Except Int CStr :=
  match p_id with
  | .fid _ _ _ => .ok (env.BuildFidPath p_id)
  | .posix _ _ _ =>
    if p_attrs.attr_mask.fullpath then .ok p_attrs.attr_values.fullpath
    else .error EINVAL

/-- Source: `rbhext_get_status` (backend_basic.c), the part that compares a symbolic
link of the backend with the one of the filesystem. -/
def get_status_link (env : Env) (w : World) (p_id : entry_id_t) (p_attrs_in : attr_set_t)
    (p_attrs_changed : attr_set_t) (bkpath : CStr) (bkmd : stat_t) :
    Int × attr_set_t × World :=
  if bkmd.st_kind ≠ S_IFLNK then
    let (rc, w1) := move_orphan env.config w bkpath
    if rc ≠ 0 then (rc, p_attrs_changed, w1)
    else (0, p_attrs_changed.set_status STATUS_NEW, w1)
  else
    match entry_fspath env p_id p_attrs_in with
    | .error e => (-e, p_attrs_changed, w)
    | .ok fspath =>
      match readlink w bkpath with
      | .error e =>
        -- the code compares the negated errno with ENOENT
        if -e = ENOENT then (0, p_attrs_changed.set_status STATUS_NEW, w)
        else (-e, p_attrs_changed, w)
      | .ok lnk1 =>
        match readlink w fspath with
        | .error e => (-e, p_attrs_changed, w)
        | .ok lnk2 =>
          if lnk1 ≠ lnk2 then
            (0, (p_attrs_changed.set_status STATUS_MODIFIED).set_backendpath bkpath, w)
          else
            (0, (p_attrs_changed.set_status STATUS_SYNCHRO).set_backendpath bkpath, w)

/-- Source: `rbhext_get_status` (backend_basic.c).  Returns the return code, the
content of `p_attrs_changed` and the filesystem after the call. -/
def rbhext_get_status (env : Env) (w : World) (p_id : entry_id_t) (p_attrs_in : attr_set_t)
    (p_attrs_changed : attr_set_t) : Int × attr_set_t × World :=
  if ¬ p_attrs_in.attr_mask.last_mod ∨ ¬ p_attrs_in.attr_mask.type then
    (-EINVAL, p_attrs_changed, w)
  else
    let (rc, bkpath) :=
      entry2backend_path env.config env.global_config p_id p_attrs_in FOR_LOOKUP
    if rc ≠ 0 then (rc, p_attrs_changed, w)
    else
      let entry_type := env.ListMgr2PolicyType p_attrs_in.attr_values.type
      if entry_type ≠ TYPE_FILE ∧ entry_type ≠ TYPE_LINK then (-ENOTSUP, p_attrs_changed, w)
      else
        -- is a copy running for this entry?
        let (rc, w1) :=
          if entry_type = TYPE_FILE then check_running_copy env.config w bkpath else (0, w)
        if rc < 0 then (rc, p_attrs_changed, w1)
        else if rc > 0 then (0, p_attrs_changed.set_status STATUS_ARCHIVE_RUNNING, w1)
        else
          match lstat w1 bkpath with
          | .error e =>
            if -e ≠ -ENOENT ∧ -e ≠ -ESTALE then (-e, p_attrs_changed, w1)
            else (0, p_attrs_changed.set_status STATUS_NEW, w1)
          | .ok bkmd =>
            if entry_type = TYPE_FILE then
              if bkmd.st_kind ≠ S_IFREG then
                let (rc, w2) := move_orphan env.config w1 bkpath
                if rc ≠ 0 then (rc, p_attrs_changed, w2)
                else (0, p_attrs_changed.set_status STATUS_NEW, w2)
              else if p_attrs_in.attr_values.last_mod ≠ bkmd.st_mtime
                  ∨ p_attrs_in.attr_values.size ≠ bkmd.st_size then
                (0, (p_attrs_changed.set_status STATUS_MODIFIED).set_backendpath bkpath, w1)
              else
                (0, (p_attrs_changed.set_status STATUS_SYNCHRO).set_backendpath bkpath, w1)
            else
              get_status_link env w1 p_id p_attrs_in p_attrs_changed bkpath bkmd

/-! ## Archive (backend_basic.c) -/

inductive target_e where
  | TO_FS | TO_BACKEND
  deriving DecidableEq, Repr

export target_e (TO_FS TO_BACKEND)

/-- Source: `get_orig_dir_md` (backend_basic.c): metadata of the directory that the
target directory mirrors. -/
def get_orig_dir_md (env : Env) (w : World) (target_dir : CStr) (target : target_e) :
    Except Int stat_t :=
  let dest_root := if target = TO_BACKEND then env.config.root else env.global_config.fs_path
  let src_root := if target = TO_BACKEND then env.global_config.fs_path else env.config.root
  let (rc, rel_path) := relative_path target_dir dest_root
  if rc ≠ 0 then .error (-rc)
  else lstat w (src_root ++ cs "/" ++ rel_path)

/-- Source: `mkdir_recurse` (backend_basic.c), creation of one directory: the mode and
the owner come from the mirrored directory when it exists; an existing directory is
not an error. -/
def mkdir_create (env : Env) (target : target_e) (default_mode : Nat) (w : World)
    (path : CStr) : Int × World :=
  let orig := get_orig_dir_md env w path target
  let mode := match orig with
    | .ok st => st.st_perm
    | .error _ => default_mode
  let made : Except Int World :=
    match mkdir w path mode with
    | .ok w1 => .ok w1
    | .error e => if e ≠ EEXIST then .error e else .ok w
  match made with
  | .error e => (-e, w)
  | .ok w1 =>
    match orig with
    | .ok st =>
      -- set owner and group, errors are only logged
      match lchown w1 path st.st_uid st.st_gid with
      | .ok w2 => (0, w2)
      | .error _ => (0, w1)
    | .error _ => (0, w1)

/-- Source: `mkdir_recurse` (backend_basic.c), body of the loop for the intermediate
directory `path_copy`. -/
def mkdir_step (env : Env) (target : target_e) (default_mode : Nat) (w : World)
    (path_copy : CStr) : Int × World :=
  match lstat w path_copy with
  | .error e =>
    if -e ≠ -ENOENT then (-e, w)
    else mkdir_create env target default_mode w path_copy
  | .ok st => if st.st_kind ≠ S_IFDIR then (-ENOTDIR, w) else (0, w)

/-- Source: `mkdir_recurse` (backend_basic.c), the loop over the separators of the
path: `done` is the part of `full_path` before the current character. -/
def mkdir_loop (env : Env) (target : target_e) (default_mode : Nat) :
    CStr → CStr → World → Int × World
  | _, [], w => (0, w)
  | done, c :: rest, w =>
    if c = '/' then
      let (rc, w1) := mkdir_step env target default_mode w done
      if rc ≠ 0 then (rc, w1)
      else mkdir_loop env target default_mode (done ++ [c]) rest w1
    else mkdir_loop env target default_mode (done ++ [c]) rest w

/-- Source: `mkdir_recurse` (backend_basic.c). -/
def mkdir_recurse (env : Env) (w : World) (full_path : CStr) (default_mode : Nat)
    (target : target_e) : Int × World :=
  let root := if target = TO_BACKEND then env.config.root else env.global_config.fs_path
  if ¬ strncmp_eq root full_path then (-EINVAL, w)
  else
    match full_path.drop root.length with
    | [] => (0, w)
    | c :: rest =>
      if c ≠ '/' then (-EINVAL, w)
      else
        let (rc, w1) := mkdir_loop env target default_mode (root ++ [c]) rest w
        if rc ≠ 0 then (rc, w1)
        else mkdir_create env target default_mode w1 full_path

inductive rbhext_arch_meth where
  | RBHEXT_SYNC | RBHEXT_ASYNC
  deriving DecidableEq, Repr

export rbhext_arch_meth (RBHEXT_SYNC RBHEXT_ASYNC)

/-- What `rbhext_archive` has computed when it starts the copy. -/
structure archive_ctx where
  p_attrs : attr_set_t
  w : World
  bkpath : CStr
  fspath : CStr
  check_moved : Bool
  entry_type : obj_type_t

/-- Source: `rbhext_archive` (backend_basic.c), the check of the status of the entry:
an error code, or the value of `check_moved` and the filesystem. -/
def archive_check_status (env : Env) (w : World) (p_attrs : attr_set_t) (bkpath : CStr) :
    Except (Int × World) (Bool × World) :=
  if p_attrs.attr_values.status = STATUS_NEW then
    -- check the entry does not already exist
    match lstat w bkpath with
    | .ok _ => .error (-w.errno, w)
    | .error e => if e ≠ ENOENT then .error (-e, w) else .ok (false, w)
  else if p_attrs.attr_values.status = STATUS_MODIFIED
      ∨ p_attrs.attr_values.status = STATUS_ARCHIVE_RUNNING then
    -- check if somebody else is about to copy
    let (rc, w1) := check_running_copy env.config w bkpath
    if rc < 0 then .error (rc, w1)
    else if rc > 0 then .error (-EALREADY, w1)
    else .ok (p_attrs.attr_mask.backendpath, w1)
  else .error (-EINVAL, w)

/-- Source: `rbhext_archive` (backend_basic.c), from its first line to the creation of
the directory of the copy: the result of the call when it ends there, else what the
copy needs. -/
def archive_prepare (env : Env) (w : World) (arch_meth : rbhext_arch_meth)
    (p_id : entry_id_t) (p_attrs : attr_set_t) :
    Except (Int × attr_set_t × World) archive_ctx :=
  if arch_meth ≠ RBHEXT_SYNC then .error (-ENOTSUP, p_attrs, w)
  else
    -- if status is not determined, retrieve it
    let (rc, p_attrs, w) :=
      if ¬ p_attrs.attr_mask.status then rbhext_get_status env w p_id p_attrs p_attrs
      else (0, p_attrs, w)
    if rc ≠ 0 then .error (rc, p_attrs, w)
    else if ¬ p_attrs.attr_mask.type then .error (-EINVAL, p_attrs, w)
    else
      let entry_type := env.ListMgr2PolicyType p_attrs.attr_values.type
      if entry_type ≠ TYPE_FILE ∧ entry_type ≠ TYPE_LINK then .error (-ENOTSUP, p_attrs, w)
      else
        let (rc, bkpath) :=
          entry2backend_path env.config env.global_config p_id p_attrs FOR_NEW_COPY
        if rc ≠ 0 then .error (rc, p_attrs, w)
        else
          match archive_check_status env w p_attrs bkpath with
          | .error (rc, w1) => .error (rc, p_attrs, w1)
          | .ok (check_moved, w1) =>
            match entry_fspath env p_id p_attrs with
            | .error e => .error (-e, p_attrs, w1)
            | .ok fspath =>
              let (rc, w2) := mkdir_recurse env w1 (dirname bkpath) 488 TO_BACKEND
              if rc ≠ 0 then .error (rc, p_attrs, w2)
              else .ok { p_attrs := p_attrs, w := w2, bkpath := bkpath, fspath := fspath,
                         check_moved := check_moved, entry_type := entry_type }

/-- The world after a system call whose failure is ignored. -/
def ignore_failure (w : World) (r : Except Int World) : World :=
  match r with
  | .ok w1 => w1
  | .error _ => w

/-- Source: `rbhext_archive` (backend_basic.c), the removal of the previous copy when
the entry was renamed since the last copy; an error of `unlink` is ignored. -/
def archive_remove_previous (c : archive_ctx) (w : World) : World :=
  if c.check_moved ∧ c.bkpath ≠ c.p_attrs.attr_values.backendpath then
    ignore_failure w (unlink w c.p_attrs.attr_values.backendpath)
  else w

/-- Source: `rbhext_archive` (backend_basic.c), what follows the renaming of the
temporary copy to its final name. -/
def archive_file_commit (env : Env) (c : archive_ctx) (w : World) :
    Int × attr_set_t × World :=
  let w1 := archive_remove_previous c w
  let a := ((c.p_attrs.set_status STATUS_SYNCHRO).set_backendpath c.bkpath).set_last_archive
    w1.now
  match lstat w1 c.fspath with
  | .error _ => (0, a.set_status STATUS_UNKNOWN, w1)
  | .ok info =>
    let a1 :=
      if info.st_mtime ≠ a.attr_values.last_mod ∨ info.st_size ≠ a.attr_values.size then
        a.set_status STATUS_MODIFIED
      else a
    (0, PosixStat2EntryAttr env.uid2str env.gid2str info a1 true, w1)

/-- Source: `rbhext_archive` (backend_basic.c), the arguments of the archive command:
the action, the path in the filesystem, the temporary copy and the optional hints. -/
def archive_args (c : archive_ctx) (hints : Option CStr) : List CStr :=
  match hints with
  | some h => [cs "ARCHIVE", c.fspath, xfer_path c.bkpath, h]
  | none => [cs "ARCHIVE", c.fspath, xfer_path c.bkpath]

/-- Source: `rbhext_archive` (backend_basic.c), the reset of the initial mtime on the
temporary copy; an error of `utime` is ignored. -/
def archive_stamp (c : archive_ctx) (w : World) : World :=
  if c.p_attrs.attr_mask.last_mod then
    ignore_failure w (utime w (xfer_path c.bkpath) w.now c.p_attrs.attr_values.last_mod)
  else w

/-- Source: `rbhext_archive` (backend_basic.c), archiving of a regular file. -/
def archive_file (env : Env) (c : archive_ctx) (hints : Option CStr) :
    Int × attr_set_t × World :=
  let tmp := xfer_path c.bkpath
  let (rc, w1) :=
    execute_shell_command env.system c.w env.config.action_cmd (archive_args c hints)
  if rc ≠ 0 then
    -- cleanup tmp copy; the transfer failed, still needs to be archived
    (rc, c.p_attrs.set_status STATUS_MODIFIED, ignore_failure w1 (unlink w1 tmp))
  else
    -- move entry to final path
    match rename (archive_stamp c w1) tmp c.bkpath with
    | .error e => (-e, c.p_attrs.set_status STATUS_MODIFIED, archive_stamp c w1)
    | .ok w3 => archive_file_commit env c w3

/-- Source: `rbhext_archive` (backend_basic.c), archiving of a symbolic link. -/
def archive_link (c : archive_ctx) : Int × attr_set_t × World :=
  match readlink c.w c.fspath with
  | .error e => (-e, c.p_attrs, c.w)
  | .ok link =>
    match symlink c.w link c.bkpath with
    | .error e => (-e, c.p_attrs, c.w)
    | .ok w1 =>
      let a := c.p_attrs.set_status STATUS_SYNCHRO
      let (a1, w2) :=
        match lstat w1 c.fspath with
        | .error _ => (a.set_status STATUS_UNKNOWN, w1)
        | .ok info => (a, ignore_failure w1 (lchown w1 c.bkpath info.st_uid info.st_gid))
      (0, (a1.set_backendpath c.bkpath).set_last_archive w2.now, w2)

/-- Source: `rbhext_archive` (backend_basic.c).  Returns the return code, the content
of `p_attrs` and the filesystem after the call. -/
def rbhext_archive (env : Env) (w : World) (arch_meth : rbhext_arch_meth)
    (p_id : entry_id_t) (p_attrs : attr_set_t) (hints : Option CStr) :
    Int × attr_set_t × World :=
  match archive_prepare env w arch_meth p_id p_attrs with
  | .error r => r
  | .ok c =>
    if c.entry_type = TYPE_FILE then archive_file env c hints
    else archive_link c

/-! ## Statement helpers (the words of the specification) -/

/-- A root directory written with exactly one separator at its end. -/
def with_trailing_slash (r : CStr) : CStr :=
  if r.getLast? = some '/' then r else r ++ ['/']

/-- The specification of path cleaning: a character that is non-ASCII, whitespace
(space, tab, line feed, vertical tab, form feed, carriage return) or special for a
shell becomes an underscore, every other character is kept. -/
def spec_sanitize (path : CStr) : CStr :=
  path.map (fun c =>
    if 128 ≤ c.toNat ∨ c ∈ [' ', '\t', '\n', '\x0b', '\x0c', '\r'] ∨
        c ∈ ['\x60', '#', '$', '*', '?', '!', '|', ';', '&', '<', '>', '[', ']',
              '\x7b', '\x7d', '\x27', '\x22', '\x5c']
    then '_' else c)

/-- The entry is not known to be a directory: its type, when supplied, is not `dir`. -/
def not_directory (p_attrs_in : attr_set_t) : Prop :=
  p_attrs_in.attr_mask.type = true →
    strcasecmp_eq p_attrs_in.attr_values.type STR_TYPE_DIR = false

/-- The entry is a directory: its type is supplied and is `dir`. -/
def is_directory (p_attrs_in : attr_set_t) : Prop :=
  p_attrs_in.attr_mask.type = true ∧
    strcasecmp_eq p_attrs_in.attr_values.type STR_TYPE_DIR = true

/-- The full path is supplied and lies under the filesystem root, `rel` being what
follows the root and its separator. -/
def under_fs_root (global_config : global_config_t) (p_attrs_in : attr_set_t)
    (rel : CStr) : Prop :=
  p_attrs_in.attr_mask.fullpath = true ∧
    p_attrs_in.attr_values.fullpath = with_trailing_slash global_config.fs_path ++ rel

/-- The backend root followed by one separator (the root `/` is its own separator). -/
def backend_root_slash (config : backend_config_t) : CStr :=
  if config.root = cs "/" then cs "/" else config.root ++ cs "/"

/-- Value of a hexadecimal digit. -/
def digit_value (c : Char) : Nat :=
  if c.toNat ≤ 57 then c.toNat - 48
  else if c.toNat ≤ 70 then c.toNat - 55 else c.toNat - 87

/-- Value of a string of hexadecimal digits. -/
def unhex (l : CStr) : Nat := l.foldl (fun v c => 16 * v + digit_value c) 0

/-- The part of an entry id that a backend path shows: the whole fid, or the device and
the inode of a legacy id (its validator is not printed). -/
def printed_id : entry_id_t → entry_id_t
  | .fid f_seq f_oid f_ver => .fid f_seq f_oid f_ver
  | .posix inode device _ => .posix inode device 0

/-- The entry id is a Lustre fid. -/
def entry_id_t.is_fid : entry_id_t → Bool
  | .fid _ _ _ => true
  | .posix _ _ _ => false

/-- The number that a hexadecimal field shows, written with or without the mark `0x`
(as `strtoull` reads it in base 16). -/
def read_hex_field : CStr → Nat
  | '0' :: 'x' :: r => unhex r
  | '0' :: 'X' :: r => unhex r
  | r => unhex r

/-- The text before the first colon. -/
def first_field (t : CStr) : CStr := t.takeWhile (fun c => c ≠ ':')

/-- The text after the first colon. -/
def next_fields (t : CStr) : CStr := (t.dropWhile (fun c => c ≠ ':')).drop 1

/-- The fid that a text shows: three hexadecimal fields `seq:oid:ver` separated by two
colons. -/
def read_fid (t : CStr) : Option entry_id_t :=
  if t.count ':' = 2 then
    some (.fid (read_hex_field (first_field t))
      (read_hex_field (first_field (next_fields t)))
      (read_hex_field (next_fields (next_fields t))))
  else none

/-- The text that follows the last underscore of a path. -/
def after_last_underscore (path : CStr) : CStr :=
  (path.reverse.takeWhile (fun c => c ≠ '_')).reverse

/-- The call of `entry2backend_path` builds the path of a non-directory from scratch:
it is for a new copy, or no previous backend path is cataloged. -/
def builds_from_scratch (p_attrs_in : attr_set_t) (what_for : what_for_e) : Prop :=
  not_directory p_attrs_in ∧
    (what_for = FOR_NEW_COPY ∨ p_attrs_in.attr_mask.backendpath = false)

/-- The backend path that `rbhext_get_status` looks up. -/
def lookup_path (env : Env) (p_id : entry_id_t) (p_attrs_in : attr_set_t) : CStr :=
  (entry2backend_path env.config env.global_config p_id p_attrs_in FOR_LOOKUP).2

/-- The backend path that `rbhext_archive` writes. -/
def new_copy_path (env : Env) (p_id : entry_id_t) (p_attrs : attr_set_t) : CStr :=
  (entry2backend_path env.config env.global_config p_id p_attrs FOR_NEW_COPY).2

/-- The last activity of the temporary copy: the maximum of its three times (the value
that `entry_is_archiving` returns, narrowed to `int`). -/
def last_activity (md : stat_t) : Int := MAX3 md.st_mtime md.st_ctime md.st_atime

/-- The archive of a regular file succeeds: the checks and the creation of the
directory pass with the context `c`, the archive command exits with status 0 and the
temporary copy is renamed to the backend path. -/
def archived_successfully (env : Env) (w : World) (p_id : entry_id_t) (p_attrs : attr_set_t)
    (hints : Option CStr) (c : archive_ctx) : Prop :=
  archive_prepare env w RBHEXT_SYNC p_id p_attrs = .ok c ∧ c.entry_type = TYPE_FILE ∧
  ∃ w1 w3,
    execute_shell_command env.system c.w env.config.action_cmd (archive_args c hints)
      = (0, w1) ∧
    rename (archive_stamp c w1) (xfer_path c.bkpath) c.bkpath = .ok w3

/-! ## Sample inputs -/

/-- A backend rooted at `/backend`, with a copy timeout of 100 seconds. -/
def sample_config : backend_config_t :=
  { root := cs "/backend", copy_timeout := 100, action_cmd := cs "/usr/sbin/rbhext_tool" }

/-- A filesystem mounted on `/mnt/lustre`. -/
def sample_global_config : global_config_t := { fs_path := cs "/mnt/lustre" }

/-- The file `A/b.dat` of the filesystem, size 1024, modified at time 5000. -/
def sample_file : attr_set_t :=
  { attr_mask := { fullpath := true, type := true, size := true, last_mod := true },
    attr_values := { fullpath := cs "/mnt/lustre/A/b.dat", type := cs "file",
                     size := 1024, last_mod := 5000 } }

/-- The directory `A` of the filesystem, with no backend path cataloged. -/
def sample_dir : attr_set_t :=
  { attr_mask := { fullpath := true, type := true },
    attr_values := { fullpath := cs "/mnt/lustre/A", type := cs "dir" } }

/-- The directory `A` of the filesystem, with a backend path cataloged. -/
def sample_dir_cataloged : attr_set_t :=
  { attr_mask := { fullpath := true, type := true, backendpath := true },
    attr_values := { fullpath := cs "/mnt/lustre/A", type := cs "dir",
                     backendpath := cs "/backend/old" } }

/-- A Lustre fid. -/
def sample_fid : entry_id_t := .fid 8589935616 1 0

/-- A type function in the manner of the program: the type strings are compared
without regard to case. -/
def sample_ListMgr2PolicyType (t : CStr) : obj_type_t :=
  if strcasecmp_eq t STR_TYPE_LINK then TYPE_LINK
  else if strcasecmp_eq t STR_TYPE_DIR then TYPE_DIR
  else if strcasecmp_eq t STR_TYPE_FILE then TYPE_FILE
  else if strcasecmp_eq t STR_TYPE_CHR then TYPE_CHR
  else if strcasecmp_eq t STR_TYPE_BLK then TYPE_BLK
  else if strcasecmp_eq t STR_TYPE_FIFO then TYPE_FIFO
  else if strcasecmp_eq t STR_TYPE_SOCK then TYPE_SOCK
  else TYPE_NONE

/-- The backend path of `sample_file` under `sample_fid`. -/
def sample_bkpath : CStr := cs "/backend/A/b.dat__0x200000400:0x1:0x0"

/-- The temporary copy of `sample_file`. -/
def sample_xfer : CStr := cs "/backend/A/b.dat__0x200000400:0x1:0x0.xfer"

/-- The path that opens `sample_fid`. -/
def sample_fidpath : CStr := cs "/mnt/lustre/.lustre/fid/0x200000400:0x1:0x0"

/-- A regular file of size 1024 whose three times are `t`. -/
def sample_node (t : Int) : Node :=
  { st := { st_kind := S_IFREG, st_perm := 420, st_size := 1024,
            st_atime := t, st_mtime := t, st_ctime := t } }

/-- An archive command that writes the temporary copy of `sample_file` and exits
with status 0. -/
def sample_system (_ : CStr) (w : World) : Int × World :=
  (0, w.put sample_xfer (some (sample_node w.now)))

/-- An environment with a backend `/backend` and a copy timeout of 100 seconds. -/
def sample_env : Env :=
  { config := sample_config, global_config := sample_global_config,
    ListMgr2PolicyType := sample_ListMgr2PolicyType,
    BuildFidPath := fun p_id => cs "/mnt/lustre/.lustre/fid/" ++ id_suffix p_id,
    system := sample_system,
    uid2str := fun _ => cs "user", gid2str := fun _ => cs "group" }

/-- The filesystem holds `A/b.dat` (modified at 5000) and the backend is empty; the
clock shows 6000. -/
def world_new : World :=
  { files := fun p => if p = sample_fidpath then some (sample_node 5000) else none,
    now := 6000 }

/-- The backend holds the copy of `A/b.dat`, with the modification time `t`. -/
def world_archived (t : Int) : World := world_new.put sample_bkpath (some (sample_node t))

/-- The backend holds nothing but a temporary copy last touched at time `t`. -/
def world_marker (t : Int) : World := world_new.put sample_xfer (some (sample_node t))

/-- A configuration without copy timeout. -/
def sample_env_no_timeout : Env :=
  { sample_env with config := { sample_config with copy_timeout := 0 } }

/-- The symbolic link `L` of the filesystem, modified at 5000. -/
def sample_link : attr_set_t :=
  { attr_mask := { fullpath := true, type := true, size := true, last_mod := true },
    attr_values := { fullpath := cs "/mnt/lustre/L", type := cs "symlink",
                     size := 6, last_mod := 5000 } }

/-- The backend path of `sample_link` under `sample_fid`. -/
def sample_link_bkpath : CStr := cs "/backend/L__0x200000400:0x1:0x0"

/-- A symbolic link to `target` whose three times are `t`. -/
def sample_symlink (target : CStr) (t : Int) : Node :=
  { st := { st_kind := S_IFLNK, st_perm := 511, st_size := target.length,
            st_atime := t, st_mtime := t, st_ctime := t },
    link := target }

/-- The filesystem holds the link `L` to `/tmp/x`, modified at 5000; the backend holds
a link to `target` created at 7000. -/
def world_link (target : CStr) : World :=
  { files := fun p =>
      if p = sample_fidpath then some (sample_symlink (cs "/tmp/x") 5000)
      else if p = sample_link_bkpath then some (sample_symlink target 7000)
      else none,
    now := 8000 }

/-- The file `A/b.dat` with the status `st` supplied. -/
def sample_file_status (st : file_status_t) : attr_set_t := sample_file.set_status st

/-- The filesystem holds `A/b.dat` as `node`, the backend is empty, the clock shows
6000. -/
def world_source (node : Node) : World :=
  { files := fun p => if p = sample_fidpath then some node else none, now := 6000 }

/-- The context of the archive of `A/b.dat` in the world `w`, once the directory
`/backend/A` is made. -/
def sample_ctx (w : World) : archive_ctx :=
  { p_attrs := sample_file_status STATUS_NEW,
    w := (mkdir_recurse sample_env w (cs "/backend/A") 488 TO_BACKEND).2,
    bkpath := sample_bkpath, fspath := sample_fidpath, check_moved := false,
    entry_type := TYPE_FILE }

/-- The backend holds a directory at the backend path of `A/b.dat`. -/
def world_blocked : World :=
  world_new.put sample_bkpath (some { st := { st_kind := S_IFDIR, st_perm := 488 } })

/-- An archive command that writes a part of the temporary copy of `sample_file` and
exits with status 1. -/
def failing_system (_ : CStr) (w : World) : Int × World :=
  (256, w.put sample_xfer (some (sample_node w.now)))

/-- The environment `sample_env` with the failing archive command. -/
def sample_env_failing : Env := { sample_env with system := failing_system }

/-- The file `A/b.dat` cataloged without its modification time. -/
def sample_file_no_mtime : attr_set_t :=
  { attr_mask := { fullpath := true, type := true, size := true },
    attr_values := { fullpath := cs "/mnt/lustre/A/b.dat", type := cs "file",
                     size := 1024 } }

/-- The place of an orphan: `<backend_root>/.orphans/<basename of the path>`. -/
def orphan_path (config : backend_config_t) (path : CStr) : CStr :=
  config.root ++ cs "/" ++ TRASH_DIR ++ cs "/" ++ basename path

/-- The backend holds a directory at the backend path of `A/b.dat` and a temporary copy
last touched at time `t`. -/
def world_blocked_marker (t : Int) : World :=
  world_blocked.put sample_xfer (some (sample_node t))

/-- The backend holds a directory at the backend path of `A/b.dat`, and a regular
file already has its name in the orphan directory. -/
def world_blocked_orphan : World :=
  (world_blocked.put (cs "/backend/.orphans")
    (some { st := { st_kind := S_IFDIR, st_perm := 488 } })).put
    (cs "/backend/.orphans/b.dat__0x200000400:0x1:0x0") (some (sample_node 3000))

/-- The link `L` was archived when it pointed to `/tmp/x` and now points to `/tmp/y`. -/
def world_retargeted : World :=
  { files := fun p =>
      if p = sample_fidpath then some (sample_symlink (cs "/tmp/y") 7500)
      else if p = sample_link_bkpath then some (sample_symlink (cs "/tmp/x") 7000)
      else none,
    now := 8000 }

/-- The attributes of the link `L` after the status probe in `world_retargeted`. -/
def sample_link_probed : attr_set_t :=
  (rbhext_get_status sample_env world_retargeted sample_fid sample_link sample_link).2.1

/-! ## Scrubber (cmd_helpers.c)

The scrubbing array is a block of cells (`none` for the `NULL` pointer) with its length
and the two indexes; a block is a function from indexes to entry ids, and a block
returned by `MemAlloc` holds arbitrary ids.  A list of ids given to `add_id_list` stands
for the pointer and its count.  Lengths and indexes are taken in the range of
`unsigned int`, with `array_first ≤ array_next`. -/

def ENOMEM : Int := 12

def LS_CHUNK : Nat := 50

/-- Source: `what_2_power` (cmd_helpers.c), the loop: `c` is doubled while it is less
than `s`. -/
def what_2_power_loop (s : Nat) : Nat → Nat → Nat
  | 0, c => c
  | fuel + 1, c => if c < s then what_2_power_loop s fuel (2 * c) else c

/-- Source: `what_2_power` (cmd_helpers.c); `s` doublings are enough to reach `s`. -/
def what_2_power (s : Nat) : Nat := what_2_power_loop s s 1

/-- The static variables of the scrubber. -/
structure scrub_array where
  dir_array : Option (Nat → entry_id_t) := none
  array_len : Nat := 0
  array_first : Nat := 0
  array_next : Nat := 0

/-- Macro `array_used`. -/
def array_used (s : scrub_array) : Int := (s.array_next : Int) - (s.array_first : Int)

/-- C library `memcpy` of the ids of `list` to the cells of `dst` from index `off`. -/
def memcpy_list (dst : Nat → entry_id_t) (off : Nat) (list : List entry_id_t) :
    Nat → entry_id_t :=
  fun i => if off ≤ i ∧ i < off + list.length then list.getD (i - off) (dst i) else dst i

/-- C library `memcpy` of `n` cells of `src` from index `from_idx` to the cells of `dst`
from index `off`. -/
def memcpy_cells (dst : Nat → entry_id_t) (off : Nat) (src : Nat → entry_id_t)
    (from_idx n : Nat) : Nat → entry_id_t :=
  fun i => if off ≤ i ∧ i < off + n then src (from_idx + (i - off)) else dst i

/-- Source: `add_id_list` (cmd_helpers.c).  Returns the return code and the static
variables after the call. -/
def add_id_list (MemAlloc : Nat → Option (Nat → entry_id_t)) (s : scrub_array)
    (list : List entry_id_t) : Int × scrub_array :=
  let count := list.length
  if count ≤ s.array_first then
    -- copy it just before 'first'
    (0, { s with
          dir_array := s.dir_array.map (fun a => memcpy_list a (s.array_first - count) list),
          array_first := s.array_first - count })
  else if array_used s = 0 ∧ count ≤ s.array_len then
    -- copy from the beginning
    (0, { s with
          dir_array := s.dir_array.map (fun a => memcpy_list a 0 list),
          array_first := 0, array_next := count })
  else
    -- increase array size
    let new_len := what_2_power (s.array_len + count)
    match MemAlloc new_len with
    | none => (-ENOMEM, s)
    | some dir_array_new =>
      -- first copy new ids
      let a1 := memcpy_list dir_array_new 0 list
      -- then copy current ids
      let a2 :=
        match s.dir_array with
        | some old =>
          if array_used s > 0 then
            memcpy_cells a1 (count + 1) old s.array_first (array_used s).toNat
          else a1
        | none => a1
      (0, { dir_array := some a2, array_next := (array_used s + count).toNat,
            array_first := 0, array_len := new_len })

/-- Source: `rbh_scrub_release_list` (cmd_helpers.c). -/
def rbh_scrub_release_list (s : scrub_array) (_first count : Nat) : scrub_array :=
  { s with array_first := s.array_first + count }

/-- The pending ids: the cells `dir_array[array_first .. array_next)`. -/
def pending (s : scrub_array) : List entry_id_t :=
  match s.dir_array with
  | none => []
  | some a => (List.range (s.array_next - s.array_first)).map (fun i => a (s.array_first + i))

/-- The functions that `rbh_scrub` calls: the allocator, `ListMgr_GetChild` on the
catalog (the given filter and the parents give a return code, the ids and the
attributes of the children) and the callback of the caller; `σ` is the state that the
catalog and the callback work on. -/
structure scrub_env (σ : Type) where
  MemAlloc : Nat → Option (Nat → entry_id_t)
  ListMgr_GetChild : σ → List entry_id_t → Int × List entry_id_t × List attr_set_t × σ
  cb_func : σ → List entry_id_t → List attr_set_t → Int × σ

/-- A call made by `rbh_scrub`. -/
inductive scrub_call where
  | get_child (parents : List entry_id_t)
  | callback (ids : List entry_id_t)
  deriving DecidableEq, Repr

/-- The state of a run of `rbh_scrub`: the array, the outer state, the calls made so
far and the variable `last_err`. -/
structure scrub_run (σ : Type) where
  arr : scrub_array
  db : σ
  calls : List scrub_call := []
  last_err : Int := 0

/-- Source: `rbh_scrub` (cmd_helpers.c), one turn of the loop; the boolean tells
whether the loop goes on (`false` after the `break`). -/
def scrub_turn {σ : Type} (e : scrub_env σ) (r : scrub_run σ) : Bool × scrub_run σ :=
  let count := if array_used r.arr < (LS_CHUNK : Int) then (array_used r.arr).toNat else LS_CHUNK
  let curr_array := (pending r.arr).take count
  let (rc, child_ids, child_attrs, db1) := e.ListMgr_GetChild r.db curr_array
  let calls1 := r.calls ++ [scrub_call.get_child curr_array]
  if rc ≠ 0 then (false, { r with db := db1, calls := calls1 })
  else
    let (rc2, db2) := e.cb_func db1 child_ids child_attrs
    let last_err := if rc2 ≠ 0 then rc2 else r.last_err
    let arr1 := rbh_scrub_release_list r.arr r.arr.array_first count
    -- the return code of add_id_list is not read
    let arr2 := (add_id_list e.MemAlloc arr1 child_ids).2
    (true, { arr := arr2, db := db2, calls := calls1 ++ [scrub_call.callback child_ids],
             last_err := last_err })

/-- Source: `rbh_scrub` (cmd_helpers.c), the loop `while (array_used > 0)`, with at
most `fuel` turns (`none` when the fuel runs out). -/
def scrub_loop {σ : Type} (e : scrub_env σ) : Nat → scrub_run σ → Option (scrub_run σ)
  | 0, r => if array_used r.arr > 0 then none else some r
  | fuel + 1, r =>
    if array_used r.arr > 0 then
      let (go_on, r1) := scrub_turn e r
      if go_on then scrub_loop e fuel r1 else some r1
    else some r

/-- Source: `rbh_scrub` (cmd_helpers.c).  Returns the return code and the state of the
run at the return. -/
def rbh_scrub {σ : Type} (e : scrub_env σ) (fuel : Nat) (arr : scrub_array) (db : σ)
    (id_list : List entry_id_t) : Option (Int × scrub_run σ) :=
  let (rc, arr1) := add_id_list e.MemAlloc arr id_list
  if rc ≠ 0 then some (rc, { arr := arr1, db := db })
  else (scrub_loop e fuel { arr := arr1, db := db }).map (fun r => (r.last_err, r))

/-- An allocator whose blocks hold the id `0X0:0X0` in every cell. -/
def sample_MemAlloc (_ : Nat) : Option (Nat → entry_id_t) := some (fun _ => .posix 0 0 0)

/-- The directory of inode `n`. -/
def dir_id (n : Nat) : entry_id_t := .posix n 1 0

/-- The 51 directories given to the scrubber: the inodes 1 to 51. -/
def sample_roots : List entry_id_t := (List.range 51).map (fun i => dir_id (i + 1))

/-- The 51 directories found in the first 50 of them: the inodes 101 to 151. -/
def sample_children : List entry_id_t := (List.range 51).map (fun i => dir_id (i + 101))

/-- The array in the first turn of `rbh_scrub` on the 51 directories, when the chunk of
the first 50 is released: the directory 51 is pending. -/
def sample_array : scrub_array :=
  rbh_scrub_release_list (add_id_list sample_MemAlloc {} sample_roots).2 0 50

/-- A catalog where the first chunk of directories holds the 51 directories
`sample_children` and no other directory has a child; the state counts the calls of
`ListMgr_GetChild`. -/
def sample_tree_env : scrub_env Nat :=
  { MemAlloc := sample_MemAlloc,
    ListMgr_GetChild := fun n _ => (0, if n = 0 then sample_children else [], [], n + 1),
    cb_func := fun n _ _ => (0, n) }

/-- A catalog without directories and a callback that accepts everything; the state
counts the calls. -/
def sample_scrub_env : scrub_env Nat :=
  { MemAlloc := sample_MemAlloc,
    ListMgr_GetChild := fun n _ => (0, [], [], n + 1),
    cb_func := fun n _ _ => (0, n + 1) }

/-! ## Recovery (backend_basic.c)

The build is the one of the archive: without `HAVE_PURGE_POLICY`, so a file is
restored with its data by the action command. -/

/-- Result of a recovery (`recov_status_t`). -/
inductive recov_status_t where
  | RS_OK | RS_DELTA | RS_NOBACKUP | RS_ERROR
  deriving DecidableEq, Repr

export recov_status_t (RS_OK RS_DELTA RS_NOBACKUP RS_ERROR)

/-- System call `creat` followed by `close`: an existing file is truncated. -/
def creat (w : World) (p : CStr) (mode : Nat) : Except Int World :=
  match w.fault sys_creat p with
  | some e => .error e.code
  | none =>
    match w.files p with
    | some n =>
      if n.st.st_kind = S_IFDIR then .error EISDIR
      else .ok (w.put p (some { n with st := { n.st with st_size := 0, st_mtime := w.now,
                                                          st_ctime := w.now } }))
    | none =>
      .ok (w.put p (some { st := { st_kind := S_IFREG, st_perm := mode,
                                   st_atime := w.now, st_mtime := w.now,
                                   st_ctime := w.now } }))

/-- System call `chmod`. -/
def chmod (w : World) (p : CStr) (mode : Nat) : Except Int World :=
  match w.fault sys_chmod p with
  | some e => .error e.code
  | none =>
    match w.files p with
    | none => .error ENOENT
    | some n => .ok (w.put p (some { n with st := { n.st with st_perm := mode,
                                                              st_ctime := w.now } }))

/-- System call `lchown` where the id `-1` (here `none`) leaves the owner or the group
as it is. -/
def lchown_keep (w : World) (p : CStr) (uid gid : Option Nat) : Except Int World :=
  match w.files p with
  | none => lchown w p 0 0
  | some n => lchown w p (uid.getD n.st.st_uid) (gid.getD n.st.st_gid)

/-- What `rbhext_recover` reads outside `src/`, beside the environment of the
backend. -/
structure recover_env where
  /-- Static variable `backend_dev`: the device of the backend root. -/
  backend_dev : Nat
  /-- Function `ListMgr_MergeAttrSets`: the target set, the source set and the flag
  `update` give the target set after the merge. -/
  ListMgr_MergeAttrSets : attr_set_t → attr_set_t → Bool → attr_set_t
  /-- Function `Lustre_GetFidFromPath`: the fid of a path, or a non-zero code. -/
  Lustre_GetFidFromPath : World → CStr → Except Int entry_id_t
  /-- C library `getpwnam_r`: the uid of a user name, or a non-zero code. -/
  getpwnam_r : CStr → Except Int Nat
  /-- C library `getgrnam_r`: the gid of a group name, or a non-zero code. -/
  getgrnam_r : CStr → Except Int Nat
  /-- Whether the build defines `_LUSTRE`. -/
  lustre : Bool
  /-- Function `File_CreateSetStripe`: creates the file with the given striping. -/
  File_CreateSetStripe : CStr → stripe_info_t → World → World
  /-- Function `File_GetStripeByPath`: the return code and what it stores in the two
  stripe attributes. -/
  File_GetStripeByPath : World → CStr → Int × stripe_info_t × List stripe_item_t
  /-- The content of the local variable `attr_bk` before it is written. -/
  attr_bk_values : attr_values_t

/-- The variables of `rbhext_recover` once the entry is restored in the filesystem:
`p_attrs_old` as the call left it, the two paths, the parent id, and the
filesystem. -/
structure recover_ctx where
  attrs_old : attr_set_t
  backend_path : CStr
  fspath : CStr
  parent_id : entry_id_t
  w : World

/-- What `rbhext_recover` leaves at its return in `p_attrs_old`, `p_new_id` and
`p_attrs_new`, and the filesystem. -/
structure recover_out where
  attrs_old : attr_set_t
  new_id : entry_id_t
  attrs_new : attr_set_t
  w : World

/-- Source: `rbhext_recover` (backend_basic.c), "retrieve parent fid": with
`_HAVE_FID` by `Lustre_GetFidFromPath`, else from `lstat` of the directory. -/
def recover_parent_id (renv : recover_env) (p_old_id : entry_id_t) (w : World)
    (destdir : CStr) : Option entry_id_t :=
  match p_old_id with
  | .fid _ _ _ =>
    match renv.Lustre_GetFidFromPath w destdir with
    | .ok parent_id => some parent_id
    | .error _ => none
  | .posix _ _ _ =>
    match lstat w destdir with
    | .ok parent_stat =>
      some (.posix parent_stat.st_ino parent_stat.st_dev parent_stat.st_ctime.toNat)
    | .error _ => none

/-- The pointer `backend_path`: the local buffer that holds the guessed path
(`some`), or the field `backendpath` of `p_attrs_old`. -/
def recover_backend_path (guess : Option CStr) (p_attrs_old : attr_set_t) : CStr :=
  match guess with
  | some bkpath => bkpath
  | none => p_attrs_old.attr_values.backendpath

/-- Source: `rbhext_recover` (backend_basic.c), the branch of a directory. -/
def recover_dir (env : Env) (renv : recover_env) (w : World) (p_old_id : entry_id_t)
    (p_attrs_old : attr_set_t) (guess : Option CStr) (bkinfo : Option stat_t) :
    Except (recov_status_t × attr_set_t × World) recover_ctx :=
  let fspath := p_attrs_old.attr_values.fullpath
  let (rc, w1) := mkdir_recurse env w fspath 488 TO_FS
  if rc ≠ 0 then .error (RS_ERROR, p_attrs_old, w1)
  else
    -- set the same mode as in the backend; a failure is only logged
    let w2 := match bkinfo with
      | some bk => ignore_failure w1 (chmod w1 fspath bk.st_perm)
      | none => w1
    match recover_parent_id renv p_old_id w2 (dirname fspath) with
    | none => .error (RS_ERROR, p_attrs_old, w2)
    | some parent_id =>
      .ok { attrs_old := p_attrs_old,
            backend_path := recover_backend_path guess p_attrs_old,
            fspath := fspath, parent_id := parent_id, w := w2 }

/-- Source: `rbhext_recover` (backend_basic.c), "restore FILE entry" and "restore
symlink"; the error value is the filesystem at the `return RS_ERROR`. -/
def recover_content (env : Env) (renv : recover_env) (w : World) (p_attrs_old : attr_set_t)
    (st_bk : stat_t) (backend_path fspath : CStr) : Except World World :=
  if st_bk.st_kind = S_IFREG then
    let created : Except Int World :=
      if renv.lustre ∧ p_attrs_old.attr_mask.stripe_info then
        -- restripe the file in Lustre; the return code is not read
        .ok (renv.File_CreateSetStripe fspath p_attrs_old.attr_values.stripe_info w)
      else creat w fspath st_bk.st_perm
    match created with
    | .error _ => .error w
    | .ok w1 =>
      -- full restore (even data)
      let (rc, w2) := execute_shell_command env.system w1 env.config.action_cmd
        [cs "RESTORE", backend_path, fspath]
      if rc ≠ 0 then .error w2
      else
        -- same mode and same times as in the backend; failures are only logged
        let w3 := ignore_failure w2 (chmod w2 fspath st_bk.st_perm)
        .ok (ignore_failure w3 (utime w3 fspath st_bk.st_atime st_bk.st_mtime))
  else if st_bk.st_kind = S_IFLNK then
    match readlink w backend_path with
    | .error _ => .error w
    | .ok link =>
      match symlink w link fspath with
      | .error _ => .error w
      | .ok w1 => .ok w1
  else .ok w

/-- Source: `rbhext_recover` (backend_basic.c), the branch of a non-directory.  The
pointers `fspath` and `backend_path` point into `p_attrs_old`, so they are read again
after the merge. -/
def recover_nondir (env : Env) (renv : recover_env) (w : World) (p_old_id : entry_id_t)
    (p_attrs_old : attr_set_t) (guess : Option CStr) (bkinfo : Option stat_t) :
    Except (recov_status_t × attr_set_t × World) recover_ctx :=
  -- test if this copy exists
  let found : Except Int stat_t :=
    match bkinfo with
    | some bk => .ok bk
    | none => lstat w (recover_backend_path guess p_attrs_old)
  match found with
  | .error e =>
    if -e = -ENOENT then .error (RS_NOBACKUP, p_attrs_old, w)
    else .error (RS_ERROR, p_attrs_old, w)
  | .ok st_bk =>
    -- merge missing posix attrs to p_attrs_old
    let attr_bk := PosixStat2EntryAttr env.uid2str env.gid2str st_bk
      { attr_mask := {}, attr_values := renv.attr_bk_values } true
    -- leave attrs unchanged if they are already set in p_attrs_old
    let merged := renv.ListMgr_MergeAttrSets p_attrs_old attr_bk false
    let fspath := merged.attr_values.fullpath
    let backend_path := recover_backend_path guess merged
    -- test if the target does not already exist
    match lstat w merged.attr_values.fullpath with
    | .ok _ => .error (RS_ERROR, merged, w)
    | .error e =>
      if -e ≠ -ENOENT then .error (RS_ERROR, merged, w)
      else if env.config.check_mounted ∧ renv.backend_dev ≠ st_bk.st_dev then
        .error (RS_ERROR, merged, w)
      else
        -- recursively create the parent directory
        let destdir := dirname fspath
        let (rc, w1) := mkdir_recurse env w destdir 488 TO_FS
        if rc ≠ 0 then .error (RS_ERROR, merged, w1)
        else
          match recover_parent_id renv p_old_id w1 destdir with
          | none => .error (RS_ERROR, merged, w1)
          | some parent_id =>
            match recover_content env renv w1 merged st_bk backend_path fspath with
            | .error w2 => .error (RS_ERROR, merged, w2)
            | .ok w2 =>
              .ok { attrs_old := merged, backend_path := backend_path, fspath := fspath,
                    parent_id := parent_id, w := w2 }

/-- Source: `rbhext_recover` (backend_basic.c), "set owner, group"; a failure of
`lchown` is only logged. -/
def recover_owner (renv : recover_env) (c : recover_ctx) : recover_ctx :=
  let a := c.attrs_old
  if a.attr_mask.owner ∨ a.attr_mask.gr_name then
    let uid : Option Nat :=
      if a.attr_mask.owner then
        match renv.getpwnam_r a.attr_values.owner with
        | .ok u => some u
        | .error _ => none
      else none
    let gid : Option Nat :=
      if a.attr_mask.gr_name then
        match renv.getgrnam_r a.attr_values.gr_name with
        | .ok g => some g
        | .error _ => none
      else none
    { c with w := ignore_failure c.w (lchown_keep c.w c.fspath uid gid) }
  else c

/-- Source: `rbhext_recover` (backend_basic.c), from its start to the setting of owner
and group: the entry is restored in the filesystem, or the call returns with a status. -/
def recover_restore (env : Env) (renv : recover_env) (w : World) (p_old_id : entry_id_t)
    (p_attrs_old : attr_set_t) (bkinfo : Option stat_t) :
    Except (recov_status_t × attr_set_t × World) recover_ctx :=
  if ¬ p_attrs_old.attr_mask.fullpath then .error (RS_ERROR, p_attrs_old, w)
  else
    -- if there is no backend path, try to guess
    let (rc, bkpath) :=
      entry2backend_path env.config env.global_config p_old_id p_attrs_old FOR_LOOKUP
    if ¬ p_attrs_old.attr_mask.backendpath ∧ rc ≠ 0 then .error (RS_ERROR, p_attrs_old, w)
    else
      let guess : Option CStr :=
        if ¬ p_attrs_old.attr_mask.backendpath then some bkpath else none
      let restored :=
        if p_attrs_old.attr_mask.type ∧
            strcasecmp_eq p_attrs_old.attr_values.type STR_TYPE_DIR then
          recover_dir env renv w p_old_id p_attrs_old guess bkinfo
        else
          recover_nondir env renv w p_old_id p_attrs_old guess bkinfo
      match restored with
      | .error r => .error r
      | .ok c => .ok (recover_owner renv c)

/-- Source: `rbhext_recover` (backend_basic.c), the variable `delta`: the comparison of
the restored size (not for directories) and of the restored mtime (only for files)
with the ones of `p_attrs_old`. -/
def recover_delta (p_attrs_old : attr_set_t) (st_dest : stat_t) : Bool :=
  let delta_size := decide (st_dest.st_kind ≠ S_IFDIR ∧ p_attrs_old.attr_mask.size = true ∧
    st_dest.st_size ≠ p_attrs_old.attr_values.size)
  let delta_mtime := decide (st_dest.st_kind = S_IFREG ∧ p_attrs_old.attr_mask.last_mod = true ∧
    st_dest.st_mtime ≠ p_attrs_old.attr_values.last_mod)
  delta_size || delta_mtime

/-- Source: `rbhext_recover` (backend_basic.c), from "set the new attributes" to the
renaming of the entry in the backend.  The boolean is false where the code returns
`RS_ERROR`. -/
def recover_new_entry (env : Env) (renv : recover_env) (c : recover_ctx) (st_dest : stat_t)
    (p_old_id p_new_id : entry_id_t) (p_attrs_new : attr_set_t) : Bool × recover_out :=
  -- set the new attributes
  let a0 := PosixStat2EntryAttr env.uid2str env.gid2str st_dest
    { p_attrs_new with attr_mask := {} } true
  let a1 : attr_set_t :=
    { attr_mask := { a0.attr_mask with fullpath := true },
      attr_values := { a0.attr_values with fullpath := c.fspath } }
  -- status is always synchro after a recovery
  let a2 := a1.set_status STATUS_SYNCHRO
  let got_id : Option entry_id_t :=
    match p_old_id with
    | .fid _ _ _ =>
      match renv.Lustre_GetFidFromPath c.w c.fspath with
      | .ok new_id => some new_id
      | .error _ => none
    | .posix _ _ _ => some (.posix st_dest.st_ino st_dest.st_dev st_dest.st_ctime.toNat)
  match got_id with
  | none => (false, { attrs_old := c.attrs_old, new_id := p_new_id, attrs_new := a2, w := c.w })
  | some new_id =>
    -- set parent id
    let a3 : attr_set_t :=
      { attr_mask := { a2.attr_mask with parent_id := true },
        attr_values := { a2.attr_values with parent_id := c.parent_id } }
    let a4 : attr_set_t :=
      if renv.lustre ∧ (¬ a3.attr_mask.type ∨ a3.attr_values.type = STR_TYPE_FILE) then
        -- get the new stripe info
        let (rc, info, items) := renv.File_GetStripeByPath c.w c.fspath
        { attr_mask := if rc = 0 then { a3.attr_mask with stripe_info := true,
                                                          stripe_items := true }
                       else a3.attr_mask,
          attr_values := { a3.attr_values with stripe_info := info, stripe_items := items } }
      else a3
    if st_dest.st_kind ≠ S_IFDIR then
      -- set the new entry path in backend, according to the new fid
      let (rc, bkpath) :=
        entry2backend_path env.config env.global_config new_id a4 FOR_NEW_COPY
      let a5 : attr_set_t := { a4 with attr_values := { a4.attr_values with backendpath := bkpath } }
      if rc ≠ 0 then
        (false, { attrs_old := c.attrs_old, new_id := new_id, attrs_new := a5, w := c.w })
      else
        let a6 : attr_set_t := { a5 with attr_mask := { a5.attr_mask with backendpath := true } }
        -- recursively create the parent directory
        let (rc, w1) := mkdir_recurse env c.w (dirname bkpath) 488 TO_BACKEND
        if rc ≠ 0 then
          (false, { attrs_old := c.attrs_old, new_id := new_id, attrs_new := a6, w := w1 })
        else if bkpath ≠ c.backend_path then
          -- rename the entry in backend
          match rename w1 c.backend_path bkpath with
          | .error _ =>
            -- keep the old path
            (true, { attrs_old := c.attrs_old, new_id := new_id,
                     attrs_new := { a6 with attr_values :=
                       { a6.attr_values with backendpath := c.backend_path } },
                     w := w1 })
          | .ok w2 => (true, { attrs_old := c.attrs_old, new_id := new_id, attrs_new := a6, w := w2 })
        else (true, { attrs_old := c.attrs_old, new_id := new_id, attrs_new := a6, w := w1 })
    else (true, { attrs_old := c.attrs_old, new_id := new_id, attrs_new := a4, w := c.w })

/-- Source: `rbhext_recover` (backend_basic.c), from the `lstat` of the restored entry
to the return. -/
def recover_finish (env : Env) (renv : recover_env) (c : recover_ctx)
    (p_old_id p_new_id : entry_id_t) (p_attrs_new : attr_set_t) :
    recov_status_t × recover_out :=
  match lstat c.w c.fspath with
  | .error _ =>
    (RS_ERROR, { attrs_old := c.attrs_old, new_id := p_new_id, attrs_new := p_attrs_new,
                 w := c.w })
  | .ok st_dest =>
    let delta := recover_delta c.attrs_old st_dest
    let (done, out) := recover_new_entry env renv c st_dest p_old_id p_new_id p_attrs_new
    if ¬ done then (RS_ERROR, out)
    else if delta then (RS_DELTA, out)
    else (RS_OK, out)

/-- Source: `rbhext_recover` (backend_basic.c).  Returns the status and the content of
the pointers at the return. -/
def rbhext_recover (env : Env) (renv : recover_env) (w : World) (p_old_id : entry_id_t)
    (p_attrs_old : attr_set_t) (p_new_id : entry_id_t) (p_attrs_new : attr_set_t)
    (bkinfo : Option stat_t) : recov_status_t × recover_out :=
  match recover_restore env renv w p_old_id p_attrs_old bkinfo with
  | .error (rs, a, w1) =>
    (rs, { attrs_old := a, new_id := p_new_id, attrs_new := p_attrs_new, w := w1 })
  | .ok c => recover_finish env renv c p_old_id p_new_id p_attrs_new

/-- The `struct stat` of the entry that `rbhext_recover` restored in the filesystem,
as its `lstat` of the restored entry reads it. -/
def restored_stat (env : Env) (renv : recover_env) (w : World) (p_old_id : entry_id_t)
    (p_attrs_old : attr_set_t) (bkinfo : Option stat_t) : Option stat_t :=
  match recover_restore env renv w p_old_id p_attrs_old bkinfo with
  | .error _ => none
  | .ok c =>
    match lstat c.w c.fspath with
    | .ok st_dest => some st_dest
    | .error _ => none

/-- What the call of `ListMgr_MergeAttrSets` with `update` false is used for in
`rbhext_recover` ("leave attrs unchanged if they are already set"), for the size and
the modification time. -/
def merge_keeps_set (merge : attr_set_t → attr_set_t → Bool → attr_set_t) : Prop :=
  ∀ tgt src : attr_set_t,
    (tgt.attr_mask.size = true →
      (merge tgt src false).attr_mask.size = true ∧
      (merge tgt src false).attr_values.size = tgt.attr_values.size) ∧
    (tgt.attr_mask.last_mod = true →
      (merge tgt src false).attr_mask.last_mod = true ∧
      (merge tgt src false).attr_values.last_mod = tgt.attr_values.last_mod)

/-- A merge that copies the POSIX attributes missing in the target. -/
def sample_merge (tgt src : attr_set_t) (_update : Bool) : attr_set_t :=
  let m := tgt.attr_mask
  let v := tgt.attr_values
  let sm := src.attr_mask
  let sv := src.attr_values
  { attr_mask :=
      { m with
        owner := m.owner || sm.owner, gr_name := m.gr_name || sm.gr_name,
        size := m.size || sm.size, last_mod := m.last_mod || sm.last_mod,
        last_access := m.last_access || sm.last_access, type := m.type || sm.type },
    attr_values :=
      { v with
        owner := if m.owner then v.owner else sv.owner,
        gr_name := if m.gr_name then v.gr_name else sv.gr_name,
        size := if m.size then v.size else sv.size,
        last_mod := if m.last_mod then v.last_mod else sv.last_mod,
        last_access := if m.last_access then v.last_access else sv.last_access,
        type := if m.type then v.type else sv.type } }

/-- A restore command that writes the data of the backend copy of `A/b.dat` (1024
bytes) to its path in the filesystem and exits with status 0. -/
def restore_system (_ : CStr) (w : World) : Int × World :=
  (0, w.put (cs "/mnt/lustre/A/b.dat") (some (sample_node w.now)))

def sample_env_restore : Env := { sample_env with system := restore_system }

/-- The functions of a Lustre build: every path has the fid `0x200000400:0x2:0x0`. -/
def sample_recover_env : recover_env :=
  { backend_dev := 0,
    ListMgr_MergeAttrSets := sample_merge,
    Lustre_GetFidFromPath := fun _ _ => .ok (.fid 8589935616 2 0),
    getpwnam_r := fun _ => .ok 1000,
    getgrnam_r := fun _ => .ok 100,
    lustre := true,
    File_CreateSetStripe := fun _ _ w => w,
    File_GetStripeByPath := fun _ _ => (0, {}, []),
    attr_bk_values := {} }

/-- The filesystem was lost: only the backend copy of `A/b.dat` is left, with the
modification time `t`. -/
def world_lost (t : Int) : World :=
  { files := fun p => if p = sample_bkpath then some (sample_node t) else none, now := 9000 }

/-- The restored `A/b.dat`: the mode and the times of the backend copy, the owner and
the group that the names of the backend copy resolve to. -/
def sample_restored_stat : stat_t :=
  { (sample_node 4000).st with st_uid := 1000, st_gid := 100, st_ctime := 9000 }

/-! ## Iterators of the list manager (listmgr_iterators.c)

The request is the text that `ListMgr_Iterator` gives to `db_exec_sql`.  The names of
the tables (macros of the database layer) and the functions of the list manager that
print a filter are outside `src/`: they are fields of the environment, and a filter
(`lmgr_filter_t`) is a value of a type `φ` that only these functions read. -/

/-- The conversion `%u` of printf, digits pushed in front of `acc`. -/
def decAux : Nat → Nat → CStr → CStr
  | 0, _, acc => acc
  | fuel + 1, n, acc =>
    if n < 10 then Char.ofNat (48 + n) :: acc
    else decAux fuel (n / 10) (Char.ofNat (48 + n % 10) :: acc)

/-- The conversion `%u` of printf. -/
def dec (n : Nat) : CStr := decAux (n + 1) n []

/-- The kinds of filter on a directory attribute (`filter_dir_e`); `FILTERDIR_invalid`
stands for any other value of the C enum. -/
inductive filter_dir_e where
  | FILTERDIR_NONE | FILTERDIR_EMPTY | FILTERDIR_OTHER
  | FILTERDIR_invalid (v : Nat)
  deriving DecidableEq, Repr

export filter_dir_e (FILTERDIR_NONE FILTERDIR_EMPTY FILTERDIR_OTHER)

/-- The tables of the database (`table_enum`). -/
inductive table_enum where
  | T_NONE | T_MAIN | T_ANNEX | T_STRIPE_INFO | T_STRIPE_ITEMS
  deriving DecidableEq, Repr

export table_enum (T_NONE T_MAIN T_ANNEX T_STRIPE_INFO T_STRIPE_ITEMS)

/-- The field `db_type` of `field_infos`, as far as the iterator tests it. -/
inductive db_type_t where
  | DB_STRIPE_INFO | DB_STRIPE_ITEMS | DB_OTHER
  deriving DecidableEq, Repr

export db_type_t (DB_STRIPE_INFO DB_STRIPE_ITEMS DB_OTHER)

/-- The sort orders (`sort_order_t`). -/
inductive sort_order_t where
  | SORT_NONE | SORT_ASC | SORT_DESC
  deriving DecidableEq, Repr

export sort_order_t (SORT_NONE SORT_ASC SORT_DESC)

/-- The fields of `lmgr_sort_type_t`. -/
structure lmgr_sort_type_t where
  attr_index : Nat
  order : sort_order_t
  deriving DecidableEq, Repr

/-- The field of `lmgr_iter_opt_t` that the iterator reads. -/
structure lmgr_iter_opt_t where
  list_count_max : Nat := 0
  deriving DecidableEq, Repr

/-- What `ListMgr_Iterator` uses outside `src/`. -/
structure listmgr_env (φ : Type) where
  /-- Macros `MAIN_TABLE`, `ANNEX_TABLE`, `STRIPE_INFO_TABLE` and `STRIPE_ITEMS_TABLE`. -/
  MAIN_TABLE : CStr
  ANNEX_TABLE : CStr
  STRIPE_INFO_TABLE : CStr
  STRIPE_ITEMS_TABLE : CStr
  /-- Global variable `annex_table`. -/
  annex_table : Bool
  is_main_field : Nat → Bool
  is_annex_field : Nat → Bool
  /-- The field `db_type` of `field_infos[i]`. -/
  db_type : Nat → db_type_t
  /-- The field `field_name` of `field_infos[i]`. -/
  field_name : Nat → CStr
  is_dirattr : Nat → Bool
  /-- Function `dirattr2str`: the SQL expression of a directory attribute. -/
  dirattr2str : Nat → CStr
  /-- Function `dir_filter`: the kind of filter on a directory attribute, and what it
  leaves in `filter_dir_str` and `filter_dir_index`. -/
  dir_filter : φ → filter_dir_e × CStr × Nat
  /-- Function `filter2str`: for a filter, a table and the flags `leading_and` and
  `prefix_table`, the returned count and the text left in the buffer. -/
  filter2str : φ → table_enum → Bool → Bool → Int × CStr
  /-- Function `db_exec_sql`: the return code of the request. -/
  db_exec_sql : CStr → Int
  /-- The content of a local array that was never written. -/
  uninit : CStr

/-- The text `<req_start> LEFT JOIN (SELECT parent_id, <columns> FROM ENTRIES GROUP BY
parent_id) as da ON id=da.parent_id` is written by the format strings of
`append_dir_req`; this is the case `FILTERDIR_NONE`, which the `default` case calls
again. -/
def append_dir_req_none (req_start : CStr) (table_filter sort_dirattr_str : Option CStr) :
    CStr :=
  match sort_dirattr_str with
  | none =>
    -- no dirattr involved
    req_start ++
      (match table_filter with
       | some tf => cs " WHERE " ++ tf
       | none => [])
  | some sort_str =>
    -- left join with dirattr_sort
    req_start ++ cs " LEFT JOIN (SELECT parent_id, " ++ sort_str ++ cs " as dirattr_sort " ++
      cs "FROM ENTRIES GROUP BY parent_id) as da ON id=da.parent_id" ++
      (match table_filter with
       | some tf => cs " WHERE " ++ tf
       | none => [])

/-- Source: `append_dir_req` (listmgr_iterators.c).  Returns the content of `outstr`. -/
def append_dir_req {φ : Type} (e : listmgr_env φ) (req_start : CStr)
    (table_filter sort_dirattr_str : Option CStr) (filter_dir : filter_dir_e)
    (filter_dir_str : CStr) (filter_dir_index : Nat) : CStr :=
  let and_filter : CStr :=
    match table_filter with
    | some tf => cs " AND " ++ tf
    | none => []
  match sort_dirattr_str with
  | none =>
    match filter_dir with
    | FILTERDIR_NONE => append_dir_req_none req_start table_filter none
    | FILTERDIR_EMPTY =>
      -- only empty dir filter is to be appended
      req_start ++ cs " WHERE " ++ filter_dir_str ++ and_filter
    | FILTERDIR_OTHER =>
      -- must join on dirattr_filter
      req_start ++ cs " LEFT JOIN (SELECT parent_id, " ++ e.dirattr2str filter_dir_index ++
        cs " as dirattr from ENTRIES " ++ cs "GROUP BY parent_id) as da ON id=da.parent_id " ++
        cs "WHERE " ++ filter_dir_str ++ and_filter
    | .FILTERDIR_invalid _ =>
      -- ignore dir filter
      append_dir_req_none req_start table_filter none
  | some sort_str =>
    -- sort on 1 dirattr, possibly needs a second for filter
    match filter_dir with
    | FILTERDIR_NONE => append_dir_req_none req_start table_filter (some sort_str)
    | FILTERDIR_EMPTY =>
      -- left join with dirattr_sort + add empty dir filter
      req_start ++ cs " LEFT JOIN (SELECT parent_id, " ++ sort_str ++ cs " as dirattr_sort " ++
        cs "FROM ENTRIES GROUP BY parent_id) as da ON id=da.parent_id " ++
        cs "WHERE " ++ filter_dir_str ++ and_filter
    | FILTERDIR_OTHER =>
      -- must join on dirattr_filter
      req_start ++ cs " LEFT JOIN (SELECT parent_id, " ++ e.dirattr2str filter_dir_index ++
        cs " as dirattr, " ++ sort_str ++ cs " as dirattr_sort FROM ENTRIES GROUP BY parent_id) " ++
        cs "as da ON id=da.parent_id WHERE " ++ filter_dir_str ++ and_filter
    | .FILTERDIR_invalid _ =>
      -- ignore dir filter
      append_dir_req_none req_start table_filter (some sort_str)

/-- Source: `ListMgr_Iterator` (listmgr_iterators.c), the variable `do_sort`. -/
def iterator_do_sort (p_sort_type : Option lmgr_sort_type_t) : Bool :=
  match p_sort_type with
  | some s => decide (s.order ≠ SORT_NONE)
  | none => false

/-- The field `attr_index` read through the pointer `p_sort_type`, which is not null
where the code reads it. -/
def sort_attr_index (p_sort_type : Option lmgr_sort_type_t) : Nat :=
  match p_sort_type with
  | some s => s.attr_index
  | none => 0

/-- Source: `ListMgr_Iterator` (listmgr_iterators.c), "check sort order": the variables
`sort_table` and `sort_dirattr`, or `none` where the function returns `NULL`. -/
def iterator_sort_location {φ : Type} (e : listmgr_env φ)
    (p_sort_type : Option lmgr_sort_type_t) : Option (table_enum × Bool) :=
  if iterator_do_sort p_sort_type then
    let i := sort_attr_index p_sort_type
    if e.is_main_field i then some (T_MAIN, false)
    else if e.is_annex_field i then some (T_ANNEX, false)
    else if e.db_type i = DB_STRIPE_INFO then some (T_STRIPE_INFO, false)
    else if e.db_type i = DB_STRIPE_ITEMS then some (T_STRIPE_ITEMS, false)
    else if e.is_dirattr i then some (T_NONE, true)
    else none
  else some (T_NONE, false)

/-- The variables that "check the location of filters" sets. -/
structure iterator_filters where
  filter_dir_type : filter_dir_e
  filter_dir_str : CStr
  filter_dir_index : Nat
  filter_main : Int
  filter_str_main : CStr
  filter_annex : Int
  filter_str_annex : CStr
  filter_stripe_info : Int
  filter_str_stripe_info : CStr
  filter_stripe_items : Int
  filter_str_stripe_items : CStr
  deriving DecidableEq, Repr

/-- Source: `ListMgr_Iterator` (listmgr_iterators.c), "1) check the location of
filters": the calls of `dir_filter` and `filter2str`. -/
def iterator_locate_filters {φ : Type} (e : listmgr_env φ) (p_filter : φ) :
    iterator_filters :=
  let (filter_dir_type, filter_dir_str, filter_dir_index) := e.dir_filter p_filter
  let (filter_main, filter_str_main) := e.filter2str p_filter T_MAIN false true
  let (filter_annex, filter_str_annex) :=
    if e.annex_table then e.filter2str p_filter T_ANNEX (decide (filter_main > 0)) true
    else (0, [])
  let (filter_stripe_info, filter_str_stripe_info) :=
    e.filter2str p_filter T_STRIPE_INFO (decide (filter_main > 0 ∨ filter_annex > 0)) true
  let (filter_stripe_items, filter_str_stripe_items) :=
    e.filter2str p_filter T_STRIPE_ITEMS
      (decide (filter_main > 0 ∨ filter_annex > 0 ∨ filter_stripe_info > 0)) true
  { filter_dir_type := filter_dir_type, filter_dir_str := filter_dir_str,
    filter_dir_index := filter_dir_index,
    filter_main := filter_main, filter_str_main := filter_str_main,
    filter_annex := filter_annex, filter_str_annex := filter_str_annex,
    filter_stripe_info := filter_stripe_info,
    filter_str_stripe_info := filter_str_stripe_info,
    filter_stripe_items := filter_stripe_items,
    filter_str_stripe_items := filter_str_stripe_items }

/-- The content of a local array after the given texts were printed into it one after
the other; nothing printed leaves it as it was. -/
def printed {φ : Type} (e : listmgr_env φ) (pieces : List CStr) : CStr :=
  if pieces = [] then e.uninit else pieces.flatten

/-- The junction condition `" AND %s.id=%s.id"`. -/
def junction (t1 t2 : CStr) : CStr := cs " AND " ++ t1 ++ cs ".id=" ++ t2 ++ cs ".id"

/-- Source: `ListMgr_Iterator` (listmgr_iterators.c), the branch "filter or sort on
several tables": the texts printed to `fields` and to `tables`, and `first_table`. -/
def several_tables {φ : Type} (e : listmgr_env φ) (f : iterator_filters) (do_sort : Bool)
    (sort_table : table_enum) : List CStr × List CStr × Option CStr :=
  let use_main := decide (f.filter_main > 0 ∨ (do_sort = true ∧ sort_table = T_MAIN))
  let use_annex := decide (f.filter_annex > 0 ∨ (do_sort = true ∧ sort_table = T_ANNEX))
  let use_items :=
    decide (f.filter_stripe_items > 0 ∨ (do_sort = true ∧ sort_table = T_STRIPE_ITEMS))
  let use_info :=
    decide (f.filter_stripe_info > 0 ∨ (do_sort = true ∧ sort_table = T_STRIPE_INFO))
  -- MAIN_TABLE
  let fields1 : List CStr :=
    if use_main then (if f.filter_main > 0 then [f.filter_str_main] else []) else []
  let tables1 : List CStr := if use_main then [e.MAIN_TABLE] else []
  let first1 : Option CStr := if use_main then some e.MAIN_TABLE else none
  -- ANNEX_TABLE
  let fields2 : List CStr :=
    if use_annex then
      fields1 ++ (if f.filter_annex > 0 then [f.filter_str_annex] else []) ++
        (if use_main then [junction e.MAIN_TABLE e.ANNEX_TABLE] else [])
    else fields1
  let tables2 : List CStr :=
    if use_annex then tables1 ++ (if use_main then [cs ","] else []) ++ [e.ANNEX_TABLE]
    else tables1
  let first2 : Option CStr :=
    if use_annex then (if use_main then first1 else some e.ANNEX_TABLE) else first1
  -- STRIPE_ITEMS_TABLE
  let fields3 : List CStr :=
    if use_items then
      fields2 ++ (if f.filter_stripe_items > 0 then [f.filter_str_stripe_items] else []) ++
        (if use_main ∨ use_annex then
          (if use_main then [junction e.MAIN_TABLE e.STRIPE_ITEMS_TABLE] else []) ++
          (if use_annex then [junction e.ANNEX_TABLE e.STRIPE_ITEMS_TABLE] else [])
         else [])
    else fields2
  let tables3 : List CStr :=
    if use_items then
      tables2 ++ (if use_main ∨ use_annex then [cs ","] else []) ++ [e.STRIPE_ITEMS_TABLE]
    else tables2
  let first3 : Option CStr :=
    if use_items then (if use_main ∨ use_annex then first2 else some e.STRIPE_ITEMS_TABLE)
    else first2
  -- STRIPE_INFO_TABLE
  let fields4 : List CStr :=
    if use_info then
      fields3 ++ (if f.filter_stripe_info > 0 then [f.filter_str_stripe_info] else []) ++
        (if use_main ∨ use_annex ∨ use_items then
          (if use_main then [junction e.MAIN_TABLE e.STRIPE_INFO_TABLE] else []) ++
          (if use_annex then [junction e.ANNEX_TABLE e.STRIPE_INFO_TABLE] else []) ++
          (if use_items then [junction e.STRIPE_ITEMS_TABLE e.STRIPE_INFO_TABLE] else [])
         else [])
    else fields3
  let tables4 : List CStr :=
    if use_info then
      tables3 ++ (if use_main ∨ use_annex ∨ use_items then [cs ","] else []) ++
        [e.STRIPE_INFO_TABLE]
    else tables3
  let first4 : Option CStr :=
    if use_info then
      (if use_main ∨ use_annex ∨ use_items then first3 else some e.STRIPE_INFO_TABLE)
    else first3
  (fields4, tables4, first4)

/-- Source: `ListMgr_Iterator` (listmgr_iterators.c), the request before the sort
order is appended, when a filter is given; `none` where the function returns `NULL`. -/
def iterator_filtered_request {φ : Type} (e : listmgr_env φ) (f : iterator_filters)
    (p_sort_type : Option lmgr_sort_type_t) (sort_table : table_enum)
    (sort_dirattr : Bool) : Option CStr :=
  let do_sort := iterator_do_sort p_sort_type
  let sort_str : Option CStr :=
    if sort_dirattr then some (e.dirattr2str (sort_attr_index p_sort_type)) else none
  if f.filter_main = 0 ∧ f.filter_annex = 0 ∧ f.filter_stripe_items = 0
      ∧ f.filter_stripe_info = 0 then
    -- for dirattr filter, we can deal with table mixing
    if do_sort then
      -- entries must be selected depending on sort order
      if sort_table = T_MAIN then
        some (append_dir_req e (cs "SELECT id FROM " ++ e.MAIN_TABLE) none sort_str
          f.filter_dir_type f.filter_dir_str f.filter_dir_index)
      else if sort_table = T_ANNEX then
        some (append_dir_req e (cs "SELECT id FROM " ++ e.ANNEX_TABLE) none sort_str
          f.filter_dir_type f.filter_dir_str f.filter_dir_index)
      else if sort_table = T_STRIPE_INFO then
        some (append_dir_req e (cs "SELECT id FROM " ++ e.STRIPE_INFO_TABLE) none sort_str
          f.filter_dir_type f.filter_dir_str f.filter_dir_index)
      else if sort_table = T_STRIPE_ITEMS then
        some (append_dir_req e (cs "SELECT DISTINCT(id) FROM " ++ e.STRIPE_ITEMS_TABLE) none
          sort_str f.filter_dir_type f.filter_dir_str f.filter_dir_index)
      else if sort_dirattr then
        if f.filter_dir_type = FILTERDIR_NONE then
          some (cs "SELECT parent_id, " ++ e.dirattr2str (sort_attr_index p_sort_type) ++
            cs " as dirattr_sort FROM " ++ e.MAIN_TABLE ++ cs " GROUP BY parent_id")
        else if f.filter_dir_type = FILTERDIR_EMPTY then none
        else
          some (cs "SELECT parent_id, " ++ e.dirattr2str f.filter_dir_index ++
            cs " as dirattr, " ++ e.dirattr2str (sort_attr_index p_sort_type) ++
            cs " as dirattr_sort FROM " ++ e.MAIN_TABLE ++ cs " GROUP BY parent_id HAVING " ++
            f.filter_dir_str)
      else some e.uninit
    else
      some (append_dir_req e (cs "SELECT id FROM " ++ e.MAIN_TABLE) none none
        f.filter_dir_type f.filter_dir_str f.filter_dir_index)
  else if f.filter_main ≠ 0
      ∧ ¬ (f.filter_annex ≠ 0 ∨ f.filter_stripe_items ≠ 0 ∨ f.filter_stripe_info ≠ 0)
      ∧ (do_sort = false ∨ sort_table = T_MAIN ∨ sort_dirattr = true) then
    -- filter/sort on main table + optionally filter/sort on dirattrs
    some (append_dir_req e (cs "SELECT id FROM " ++ e.MAIN_TABLE) (some f.filter_str_main)
      sort_str f.filter_dir_type f.filter_dir_str f.filter_dir_index)
  else if f.filter_annex ≠ 0
      ∧ ¬ (f.filter_main ≠ 0 ∨ f.filter_stripe_items ≠ 0 ∨ f.filter_stripe_info ≠ 0)
      ∧ (do_sort = false ∨ sort_table = T_ANNEX ∨ sort_dirattr = true) then
    some (append_dir_req e (cs "SELECT id FROM " ++ e.ANNEX_TABLE) (some f.filter_str_annex)
      sort_str f.filter_dir_type f.filter_dir_str f.filter_dir_index)
  else if f.filter_stripe_info ≠ 0
      ∧ ¬ (f.filter_main ≠ 0 ∨ f.filter_annex ≠ 0 ∨ f.filter_stripe_items ≠ 0)
      ∧ (do_sort = false ∨ sort_table = T_STRIPE_INFO ∨ sort_dirattr = true) then
    some (append_dir_req e (cs "SELECT id FROM " ++ e.STRIPE_INFO_TABLE)
      (some f.filter_str_stripe_info)
      sort_str f.filter_dir_type f.filter_dir_str f.filter_dir_index)
  else if f.filter_stripe_items ≠ 0
      ∧ ¬ (f.filter_main ≠ 0 ∨ f.filter_annex ≠ 0 ∨ f.filter_stripe_info ≠ 0)
      ∧ (do_sort = false ∨ sort_table = T_STRIPE_ITEMS ∨ sort_dirattr = true) then
    some (append_dir_req e (cs "SELECT DISTINCT(id) FROM " ++ e.STRIPE_ITEMS_TABLE)
      (some f.filter_str_stripe_items)
      sort_str f.filter_dir_type f.filter_dir_str f.filter_dir_index)
  else
    -- filter or sort on several tables
    let (fields, tables, first_table) := several_tables e f do_sort sort_table
    -- printf prints a null pointer as "(null)"
    let tmp := cs "SELECT " ++ first_table.getD (cs "(null)") ++ cs ".id AS id FROM " ++
      printed e tables
    some (append_dir_req e tmp (some (printed e fields)) sort_str
      f.filter_dir_type f.filter_dir_str f.filter_dir_index)

/-- Source: `ListMgr_Iterator` (listmgr_iterators.c), the request before the sort
order is appended. -/
def iterator_request {φ : Type} (e : listmgr_env φ) (p_filter : Option φ)
    (p_sort_type : Option lmgr_sort_type_t) (sort_table : table_enum)
    (sort_dirattr : Bool) : Option CStr :=
  match p_filter with
  | some flt =>
    iterator_filtered_request e (iterator_locate_filters e flt) p_sort_type sort_table
      sort_dirattr
  | none =>
    if iterator_do_sort p_sort_type then
      -- no filter: entries must be selected depending on sort order
      if sort_table = T_MAIN then some (cs "SELECT id FROM " ++ e.MAIN_TABLE)
      else if sort_table = T_ANNEX then some (cs "SELECT id FROM " ++ e.ANNEX_TABLE)
      else if sort_table = T_STRIPE_ITEMS then
        some (cs "SELECT DISTINCT(id) FROM " ++ e.STRIPE_ITEMS_TABLE)
      else if sort_table = T_STRIPE_INFO then
        some (cs "SELECT id FROM " ++ e.STRIPE_INFO_TABLE)
      else if sort_dirattr then
        some (cs "SELECT parent_id, " ++ e.dirattr2str (sort_attr_index p_sort_type) ++
          cs " as dirattr_sort FROM " ++ e.MAIN_TABLE ++ cs " GROUP BY parent_id")
      else some e.uninit
    else some (cs "SELECT id FROM " ++ e.MAIN_TABLE)

/-- Source: `ListMgr_Iterator` (listmgr_iterators.c), "sort order": the text appended
to the request. -/
def iterator_order_by {φ : Type} (e : listmgr_env φ) (p_sort_type : Option lmgr_sort_type_t)
    (sort_table : table_enum) (sort_dirattr : Bool) : CStr :=
  match p_sort_type with
  | none => []
  | some s =>
    if s.order ≠ SORT_NONE then
      (if sort_table = T_MAIN then
        cs " ORDER BY " ++ e.MAIN_TABLE ++ cs "." ++ e.field_name s.attr_index ++ cs " "
      else if sort_table = T_ANNEX then
        cs " ORDER BY " ++ e.ANNEX_TABLE ++ cs "." ++ e.field_name s.attr_index ++ cs " "
      else if sort_table = T_STRIPE_ITEMS then
        cs " ORDER BY " ++ e.STRIPE_ITEMS_TABLE ++ cs ".storage_unit "
      else if sort_table = T_STRIPE_INFO then
        cs " ORDER BY " ++ e.STRIPE_INFO_TABLE ++ cs ".pool_name "
      else if sort_dirattr then cs " ORDER BY dirattr_sort "
      else []) ++
      (if s.order = SORT_ASC then cs "ASC" else cs "DESC")
    else []

/-- Source: `ListMgr_Iterator` (listmgr_iterators.c), "iterator opt": the text
appended to the request. -/
def iterator_limit (p_opt : Option lmgr_iter_opt_t) : CStr :=
  match p_opt with
  | some opt => if opt.list_count_max > 0 then cs " LIMIT " ++ dec opt.list_count_max else []
  | none => []

/-- Source: `ListMgr_Iterator` (listmgr_iterators.c): the request that is given to
`db_exec_sql`, or `none` where the function returns `NULL` before. -/
def iterator_query {φ : Type} (e : listmgr_env φ) (p_filter : Option φ)
    (p_sort_type : Option lmgr_sort_type_t) (p_opt : Option lmgr_iter_opt_t) :
    Option CStr :=
  match iterator_sort_location e p_sort_type with
  | none => none
  | some (sort_table, sort_dirattr) =>
    match iterator_request e p_filter p_sort_type sort_table sort_dirattr with
    | none => none
    | some query =>
      some (query ++ iterator_order_by e p_sort_type sort_table sort_dirattr
        ++ iterator_limit p_opt)

/-- The fields of `lmgr_iterator_t`; `select_result` is the result of the request,
which stands here for it. -/
structure lmgr_iterator_t where
  opt : Option lmgr_iter_opt_t
  select_result : CStr
  deriving DecidableEq, Repr

/-- Source: `ListMgr_Iterator` (listmgr_iterators.c). -/
def ListMgr_Iterator {φ : Type} (e : listmgr_env φ) (p_filter : Option φ)
    (p_sort_type : Option lmgr_sort_type_t) (p_opt : Option lmgr_iter_opt_t) :
    Option lmgr_iterator_t :=
  match iterator_query e p_filter p_sort_type p_opt with
  | none => none
  | some query =>
    if e.db_exec_sql query ≠ 0 then none
    else some { opt := p_opt, select_result := query }

/-- The number of places of the text where `pat` stands. -/
def occurrences (pat : CStr) : CStr → Nat
  | [] => if pat = [] then 1 else 0
  | c :: s => (if pat.isPrefixOf (c :: s) then 1 else 0) + occurrences pat s

/-- A filter of the samples: the predicate on the table `ENTRIES` and the one on a
directory attribute. -/
structure sample_filter_t where
  main : Option CStr := none
  dir : filter_dir_e := FILTERDIR_NONE
  dir_str : CStr := []
  dir_index : Nat := 0
  deriving DecidableEq, Repr

/-- A database whose attribute 0 is the column `type` of the main table and whose
attribute 1 is the directory attribute `dircount`, computed as `COUNT(*)`. -/
def sample_listmgr_env : listmgr_env sample_filter_t :=
  { MAIN_TABLE := cs "ENTRIES", ANNEX_TABLE := cs "ANNEX_INFO",
    STRIPE_INFO_TABLE := cs "STRIPE_INFO", STRIPE_ITEMS_TABLE := cs "STRIPE_ITEMS",
    annex_table := true,
    is_main_field := fun i => decide (i = 0),
    is_annex_field := fun _ => false,
    db_type := fun _ => DB_OTHER,
    field_name := fun i => if i = 0 then cs "type" else cs "dircount",
    is_dirattr := fun i => decide (i = 1),
    dirattr2str := fun _ => cs "COUNT(*)",
    dir_filter := fun f => (f.dir, f.dir_str, f.dir_index),
    filter2str := fun f t leading_and _ =>
      match t, f.main with
      | T_MAIN, some p => (1, (if leading_and then cs " AND " else []) ++ p)
      | _, _ => (0, []),
    db_exec_sql := fun _ => 0,
    uninit := [] }

/-- The filter `type=file`. -/
def sample_filter_file : sample_filter_t := { main := some (cs "ENTRIES.type='file'") }

/-- A filter on the name `a LEFT JOIN b`. -/
def sample_filter_join : sample_filter_t :=
  { main := some (cs "ENTRIES.name='a LEFT JOIN b'") }

/-- A filter on the directories that hold more than 3 entries. -/
def sample_filter_dircount : sample_filter_t :=
  { dir := FILTERDIR_OTHER, dir_str := cs "dirattr>3", dir_index := 1 }

/-- The sort is on a directory attribute: "check sort order" leaves `sort_table` at
`T_NONE` and sets `sort_dirattr`. -/
def sorts_on_dirattr {φ : Type} (e : listmgr_env φ) (s : lmgr_sort_type_t) : Prop :=
  iterator_sort_location e (some s) = some (T_NONE, true)

/-- The predicates of the filter fall on the main table only, and none is on a
directory attribute. -/
def filters_main_only {φ : Type} (e : listmgr_env φ) (flt : φ) : Prop :=
  (iterator_locate_filters e flt).filter_main > 0 ∧
  (iterator_locate_filters e flt).filter_annex = 0 ∧
  (iterator_locate_filters e flt).filter_stripe_info = 0 ∧
  (iterator_locate_filters e flt).filter_stripe_items = 0 ∧
  (iterator_locate_filters e flt).filter_dir_type = FILTERDIR_NONE

/-- The request that selects from the main table alone, joined once to the subquery
that computes `aggregate` per `parent_id` under the name `dirattr_sort`, filtered by
`predicate` and ordered by `dirattr_sort`. -/
def dirattr_sorted_request (main_table aggregate predicate : CStr) (order : sort_order_t)
    (p_opt : Option lmgr_iter_opt_t) : CStr :=
  cs "SELECT id FROM " ++ main_table ++
    cs " LEFT JOIN (SELECT parent_id, " ++ aggregate ++
    cs " as dirattr_sort FROM ENTRIES GROUP BY parent_id) as da ON id=da.parent_id" ++
    cs " WHERE " ++ predicate ++
    cs " ORDER BY dirattr_sort " ++ (if order = SORT_ASC then cs "ASC" else cs "DESC") ++
    iterator_limit p_opt

/-! ## Samples and statement helpers of the later claims -/

/-- A command that ends with the given wait status and leaves the filesystem as it
is. -/
def system_status (status : Int) (_ : CStr) (w : World) : Int × World := (status, w)

/-- A catalog whose request for the children fails with the code 5. -/
def sample_failing_catalog : scrub_env Nat :=
  { MemAlloc := sample_MemAlloc,
    ListMgr_GetChild := fun n _ => (5, [], [], n + 1),
    cb_func := fun n _ _ => (0, n) }

/-! ## Greatest common divisor (RobinhoodMisc.c) -/

/-- Source: `gcd` (RobinhoodMisc.c), the body of the loop: the three `if` in turn, each
on the values that the one before left. -/
def gcd_body (a b : Nat) : Nat × Nat :=
  let a1 := if a > b then a - b else a
  let b1 := if a1 < b then b - a1 else b
  let b2 := if a1 = b1 then 0 else b1
  (a1, b2)

/-- Source: `gcd` (RobinhoodMisc.c), the loop `while ((a * b) != 0)`, with at most
`fuel` turns; the product is the one of `unsigned int`, modulo `2 ^ 32`. -/
def gcd_loop : Nat → Nat → Nat → Option Nat
  | 0, a, b => if (a * b) % 2 ^ 32 ≠ 0 then none else some a
  | fuel + 1, a, b =>
    if (a * b) % 2 ^ 32 ≠ 0 then gcd_loop fuel (gcd_body a b).1 (gcd_body a b).2
    else some a

/-- Source: `gcd` (RobinhoodMisc.c), on two values of `unsigned int`; every turn
makes `a + b` smaller, so `x + y` turns are enough. -/
def gcd (x y : Nat) : Option Nat := gcd_loop (x + y) x y

/-! ## More samples -/

/-- The environment of the samples with another backend root. -/
def sample_env_root (root : CStr) : Env :=
  { sample_env with config := { sample_config with root := root } }

/-- The file `A/b.dat` modified at time 5000, whose size is not in the mask; the field
of the size holds `size`. -/
def sample_file_unsized (size : Nat) : attr_set_t :=
  { attr_mask := { fullpath := true, type := true, last_mod := true },
    attr_values := { fullpath := cs "/mnt/lustre/A/b.dat", type := cs "file",
                     size := size, last_mod := 5000 } }

/-- The number of backslashes that stand right before the place `i` of a text. -/
def backslashes_before (s : CStr) (i : Nat) : Nat :=
  ((s.take i).reverse.takeWhile (fun c => c = '\\')).length

/-- A filter of the samples with one predicate per table at most. -/
structure sample_table_filter_t where
  main : Option CStr := none
  annex : Option CStr := none
  stripe_info : Option CStr := none
  stripe_items : Option CStr := none
  deriving DecidableEq, Repr

/-- The predicate of a sample filter on a table. -/
def sample_table_filter_t.on (f : sample_table_filter_t) : table_enum → Option CStr
  | T_MAIN => f.main
  | T_ANNEX => f.annex
  | T_STRIPE_INFO => f.stripe_info
  | T_STRIPE_ITEMS => f.stripe_items
  | T_NONE => none

/-- A database where `filter2str` prints the predicate of the table, after `" AND "`
when the flag `leading_and` is set, and returns the number of predicates. -/
def sample_tables_env : listmgr_env sample_table_filter_t :=
  { MAIN_TABLE := cs "ENTRIES", ANNEX_TABLE := cs "ANNEX_INFO",
    STRIPE_INFO_TABLE := cs "STRIPE_INFO", STRIPE_ITEMS_TABLE := cs "STRIPE_ITEMS",
    annex_table := true,
    is_main_field := fun i => decide (i = 0),
    is_annex_field := fun _ => false,
    db_type := fun _ => DB_OTHER,
    field_name := fun _ => cs "type",
    is_dirattr := fun _ => false,
    dirattr2str := fun _ => [],
    dir_filter := fun _ => (FILTERDIR_NONE, [], 0),
    filter2str := fun f t leading_and _ =>
      match f.on t with
      | some p => (1, (if leading_and then cs " AND " else []) ++ p)
      | none => (0, []),
    db_exec_sql := fun _ => 0,
    uninit := [] }

/-- A filter on the pool of the files and on the storage unit of their stripes. -/
def sample_filter_stripes : sample_table_filter_t :=
  { stripe_info := some (cs "STRIPE_INFO.pool_name='fast'"),
    stripe_items := some (cs "STRIPE_ITEMS.ostidx=3") }

/-! ## Stripe tables of the list manager (listmgr_stripe.c)

The database layer is outside `src/`.  Its state is the content of the two stripe
tables, with the keys that the specification gives (`STRIPE_INFO`: `id`;
`STRIPE_ITEMS`: `(id, stripe_index)`), and a statement can fail with an injected
code.  A primary key (`PK_ARG_T`) is a number. -/

/-- The return codes of the database layer that the stripe functions return or test;
`DB_SUCCESS` is 0. -/
inductive db_rc_t where
  | DB_SUCCESS | DB_ALREADY_EXISTS | DB_CONNECT_FAILED | DB_REQUEST_FAILED
  | DB_BUFFER_TOO_SMALL | DB_NO_MEMORY | DB_INVALID_ARG
  deriving DecidableEq, Repr

export db_rc_t (DB_SUCCESS DB_ALREADY_EXISTS DB_CONNECT_FAILED DB_REQUEST_FAILED
  DB_BUFFER_TOO_SMALL DB_NO_MEMORY DB_INVALID_ARG)

/-- A row of `STRIPE_INFO` without its key: `validator`, and `stripe_count`,
`stripe_size`, `pool_name`. -/
structure stripe_info_row where
  validator : Int
  stripe : stripe_info_t
  deriving DecidableEq, Repr

/-- A row of `STRIPE_ITEMS` without its id: `stripe_index`, and the item that gives
`ostidx` and `details`. -/
structure stripe_items_row where
  stripe_index : Nat
  item : stripe_item_t
  deriving DecidableEq, Repr

/-- The stripe tables, the number of statements executed so far, and the code with
which the statement of a given rank fails. -/
structure stripe_db where
  STRIPE_INFO : Nat → Option stripe_info_row
  STRIPE_ITEMS : Nat → List stripe_items_row
  executed : Nat := 0
  fault : Nat → Option db_rc_t := fun _ => none

/-- The statements that the stripe functions print. -/
inductive stripe_stmt where
  | delete_items (pk : Nat)
  | delete_info (pk : Nat)
  | insert_info (pk : Nat) (row : stripe_info_row)
  | insert_items (pk : Nat) (rows : List stripe_items_row)

/-- Modelled from the spec: the effect of a statement on the stripe tables, which the
database engine (outside `src/`) computes; an insertion on a key that exists is
refused with `DB_ALREADY_EXISTS`. -/
def db_apply (db : stripe_db) : stripe_stmt → db_rc_t × stripe_db
  | .delete_items pk =>
    (DB_SUCCESS, { db with STRIPE_ITEMS := fun id => if id = pk then [] else db.STRIPE_ITEMS id })
  | .delete_info pk =>
    (DB_SUCCESS, { db with STRIPE_INFO := fun id => if id = pk then none else db.STRIPE_INFO id })
  | .insert_info pk row =>
    if (db.STRIPE_INFO pk).isSome then (DB_ALREADY_EXISTS, db)
    else
      (DB_SUCCESS,
        { db with STRIPE_INFO := fun id => if id = pk then some row else db.STRIPE_INFO id })
  | .insert_items pk rows =>
    if rows.any (fun r => (db.STRIPE_ITEMS pk).any (fun q => q.stripe_index = r.stripe_index))
    then (DB_ALREADY_EXISTS, db)
    else
      (DB_SUCCESS,
        { db with STRIPE_ITEMS := fun id =>
            if id = pk then db.STRIPE_ITEMS pk ++ rows else db.STRIPE_ITEMS id })

/-- Modelled from the spec: `db_exec_sql` (and `db_exec_sql_quiet`, which only logs
less) of the database layer: the statement fails with the injected code and changes
nothing, or it is applied. -/
def db_exec_sql (db : stripe_db) (stmt : stripe_stmt) : db_rc_t × stripe_db :=
  let db1 := { db with executed := db.executed + 1 }
  match db.fault db.executed with
  | some rc => if rc = DB_SUCCESS then db_apply db1 stmt else (rc, db1)
  | none => db_apply db1 stmt

/-- What `insert_stripe_info` uses beside the database: the allocator and the length
of the text of one row of the request. -/
structure stripe_env where
  /-- Function `MemAlloc`: whether a block of the given size is obtained. -/
  MemAlloc : Nat → Bool
  /-- Macro `STRIPE_DETAIL_SZ`. -/
  STRIPE_DETAIL_SZ : Nat
  /-- The length of the start of the request, `INSERT INTO ... VALUES `. -/
  head_len : Nat
  /-- What `snprintf` returns for the row of rank `i`. -/
  row_len : Nat → Nat → stripe_item_t → Nat

/-- Source: `delete_stripe_info` (listmgr_stripe.c). -/
def delete_stripe_info (db : stripe_db) (pk : Nat) : db_rc_t × stripe_db :=
  let (rc, db1) := db_exec_sql db (.delete_items pk)
  if rc ≠ DB_SUCCESS then (rc, db1)
  else
    let (rc, db2) := db_exec_sql db1 (.delete_info pk)
    if rc ≠ DB_SUCCESS then (rc, db2)
    else (DB_SUCCESS, db2)

/-- Source: `insert_stripe_info` (listmgr_stripe.c), the retry loop that inserts the
row of `STRIPE_INFO`, with at most `fuel` turns. -/
def insert_info_loop (pk : Nat) (row : stripe_info_row) (update_if_exists : Bool) :
    Nat → stripe_db → Option (db_rc_t × stripe_db)
  | 0, _ => none
  | fuel + 1, db =>
    let (rc, db1) := db_exec_sql db (.insert_info pk row)
    if rc = DB_SUCCESS then some (DB_SUCCESS, db1)
    else
      let (rc2, db2) :=
        if rc = DB_ALREADY_EXISTS ∧ update_if_exists = true then
          -- remove previous stripe info
          delete_stripe_info db1 pk
        else (rc, db1)
      if rc2 ≠ DB_SUCCESS then some (rc2, db2)
      else insert_info_loop pk row update_if_exists fuel db2

/-- Source: `insert_stripe_info` (listmgr_stripe.c), the test `len >= est_len` after
each row past the first: whether the request is found too long. -/
def items_query_too_long (env : stripe_env) (pk est_len : Nat) :
    Nat → List stripe_item_t → Nat → Bool
  | _, [], _ => false
  | i, it :: rest, len =>
    let len1 := len + env.row_len pk i it
    if len1 ≥ est_len then true
    else items_query_too_long env pk est_len (i + 1) rest len1

/-- The rows of `STRIPE_ITEMS` that the request inserts: the items with their rank. -/
def stripe_rows (items : List stripe_item_t) : List stripe_items_row :=
  items.enum.map (fun p => { stripe_index := p.1, item := p.2 })

/-- Source: `insert_stripe_info` (listmgr_stripe.c). -/
def insert_stripe_info (env : stripe_env) (fuel : Nat) (db : stripe_db) (pk : Nat)
    (validator : Int) (p_stripe : Option stripe_info_t)
    (p_items : Option (List stripe_item_t)) (update_if_exists : Bool) :
    Option (db_rc_t × stripe_db) :=
  match p_stripe with
  | none => some (DB_INVALID_ARG, db)
  | some stripe =>
    match insert_info_loop pk { validator := validator, stripe := stripe } update_if_exists
        fuel db with
    | none => none
    | some (rc, db1) =>
      if rc ≠ DB_SUCCESS then some (rc, db1)
      else
        -- then insert stripe items
        match p_items with
        | none => some (DB_SUCCESS, db1)
        | some [] => some (DB_SUCCESS, db1)
        | some (first :: next) =>
          let count := (first :: next).length
          let est_len := 128 + count * (128 + 2 * env.STRIPE_DETAIL_SZ)
          if ¬ env.MemAlloc est_len then some (DB_NO_MEMORY, db1)
          else if items_query_too_long env pk est_len 1 next
              (env.head_len + env.row_len pk 0 first) then
            some (DB_BUFFER_TOO_SMALL, db1)
          else
            let (rc, db2) := db_exec_sql db1 (.insert_items pk (stripe_rows (first :: next)))
            if rc ≠ DB_SUCCESS then some (rc, db2)
            else some (DB_SUCCESS, db2)

/-- Source: `update_stripe_info` (listmgr_stripe.c). -/
def update_stripe_info (env : stripe_env) (fuel : Nat) (db : stripe_db) (pk : Nat)
    (validator : Int) (p_stripe : Option stripe_info_t)
    (p_items : Option (List stripe_item_t)) (insert_if_absent : Bool) :
    Option (db_rc_t × stripe_db) :=
  match p_stripe with
  | none => some (DB_INVALID_ARG, db)
  | some stripe =>
    let (rc, db1) := delete_stripe_info db pk
    if rc ≠ DB_SUCCESS ∧ insert_if_absent = false then some (rc, db1)
    else insert_stripe_info env fuel db1 pk validator (some stripe) p_items false

/-- The rows of the stripe tables for an id. -/
def stripe_rows_of (db : stripe_db) (pk : Nat) :
    Option stripe_info_row × List stripe_items_row :=
  (db.STRIPE_INFO pk, db.STRIPE_ITEMS pk)

/-- The new rows that a stripe update is to store for an id. -/
def new_stripe_rows (validator : Int) (stripe : stripe_info_t)
    (p_items : Option (List stripe_item_t)) :
    Option stripe_info_row × List stripe_items_row :=
  (some { validator := validator, stripe := stripe },
   match p_items with
   | some items => stripe_rows items
   | none => [])

/-- The rows of `STRIPE_ITEMS` of an id come with a row of `STRIPE_INFO`. -/
def stripe_consistent (db : stripe_db) (pk : Nat) : Prop :=
  db.STRIPE_INFO pk = none → db.STRIPE_ITEMS pk = []

/-- The request that inserts the items can be built: the allocation succeeds and the
text stays within the estimated length. -/
def request_fits (env : stripe_env) (pk : Nat) : Option (List stripe_item_t) → Prop
  | some (first :: next) =>
    env.MemAlloc (128 + (first :: next).length * (128 + 2 * env.STRIPE_DETAIL_SZ)) = true ∧
    items_query_too_long env pk (128 + (first :: next).length * (128 + 2 * env.STRIPE_DETAIL_SZ))
      1 next (env.head_len + env.row_len pk 0 first) = false
  | _ => True

/-- An allocator that succeeds and rows of 40 characters. -/
def sample_stripe_env : stripe_env :=
  { MemAlloc := fun _ => true, STRIPE_DETAIL_SZ := 20, head_len := 70,
    row_len := fun _ _ _ => 40 }

/-- The stripe tables hold, for the id 7, a file of two stripes on the storage units 1
and 2; the statement of rank `n` fails with `DB_REQUEST_FAILED` (none fails when `n`
is `none`). -/
def sample_stripe_db (n : Option Nat) : stripe_db :=
  { STRIPE_INFO := fun id =>
      if id = 7 then some { validator := 1, stripe := { stripe_count := 2, stripe_size := 1048576 } }
      else none,
    STRIPE_ITEMS := fun id =>
      if id = 7 then [{ stripe_index := 0, item := { ost_idx := 1 } },
                      { stripe_index := 1, item := { ost_idx := 2 } }]
      else [],
    fault := fun k => if some k = n then some DB_REQUEST_FAILED else none }

/-- The new striping of the samples: one stripe on the storage unit 3. -/
def sample_new_stripe : stripe_info_t := { stripe_count := 1, stripe_size := 4194304 }

/-- The item of the new striping. -/
def sample_new_items : List stripe_item_t := [{ ost_idx := 3 }]

/-- The id that a statement names. -/
def stripe_stmt.pk : stripe_stmt → Nat
  | .delete_items pk => pk
  | .delete_info pk => pk
  | .insert_info pk _ => pk
  | .insert_items pk _ => pk

/-- The rows of every id but `pk` are the same in both states. -/
def same_elsewhere (db db2 : stripe_db) (pk : Nat) : Prop :=
  ∀ id, id ≠ pk →
    db2.STRIPE_INFO id = db.STRIPE_INFO id ∧ db2.STRIPE_ITEMS id = db.STRIPE_ITEMS id

/-! ## Id constraints of the entry processor (entry_proc_tools.h)

Only the declarations of the id constraint manager are under `src/`: its functions are
modelled from the specification, as operations on one state; each one is taken as a
whole (the manager runs them under its lock), and the worker threads that call them
are outside the model. -/

def ID_OK : Int := 0
def ID_CONSTRAINT_VIOLATION : Int := 1
def ID_MISSING : Int := 2
def ID_NOT_EXISTS : Int := 3

/-- A pipeline operation as far as the id constraints read it: `op` stands for the
address of the operation, `entry_id` is `none` when the id is not set. -/
structure entry_proc_op_t where
  op : Nat
  entry_id : Option entry_id_t
  deriving DecidableEq, Repr

/-- Modelled from the spec: the state of the id constraint manager, which is not under
`src/`: "a hash map from `EntryId` to a FIFO queue of pipeline-operation references".
The head of a list is the head of the queue. -/
structure id_constraint_t where
  queue : entry_id_t → List entry_proc_op_t

/-- Modelled from the spec: `id_constraint_init`, which is not under `src/`: every
queue is empty. -/
def id_constraint_init : id_constraint_t := { queue := fun _ => [] }

/-- Modelled from the spec: `id_constraint_register`, which is not under `src/`:
"returns `Ok` if op may proceed, else the op is enqueued behind an in-flight op for the
same id"; `ID_MISSING` if the id is not set in the operation (comment of the
declaration).  The operation is put at the end of the queue of its id; the
specification gives no effect to `at_head`. -/
def id_constraint_register (s : id_constraint_t) (p_op : entry_proc_op_t) (_at_head : Bool) :
    Int × id_constraint_t :=
  match p_op.entry_id with
  | none => (ID_MISSING, s)
  | some id =>
    (if s.queue id = [] then ID_OK else ID_CONSTRAINT_VIOLATION,
     { queue := fun i => if i = id then s.queue id ++ [p_op] else s.queue i })

/-- Modelled from the spec: `id_constraint_get_first_op`, which is not under `src/`:
"returns the head op if it is not already executing"; `executing` tells the
operations that are being executed. -/
def id_constraint_get_first_op (s : id_constraint_t) (executing : Nat → Bool)
    (p_id : entry_id_t) : Option entry_proc_op_t :=
  match s.queue p_id with
  | [] => none
  | first :: _ => if executing first.op then none else some first

/-- Modelled from the spec: `id_constraint_unregister`, which is not under `src/`:
"removes the op from its id's queue; the next op for that id becomes eligible". -/
def id_constraint_unregister (s : id_constraint_t) (p_op : entry_proc_op_t) :
    Int × id_constraint_t :=
  match p_op.entry_id with
  | none => (ID_MISSING, s)
  | some id =>
    (if p_op ∈ s.queue id then ID_OK else ID_NOT_EXISTS,
     { queue := fun i =>
         if i = id then (s.queue id).filter (fun o => decide (o ≠ p_op)) else s.queue i })

/-- A call that changes the state of the id constraint manager. -/
inductive id_event where
  | register (p_op : entry_proc_op_t) (at_head : Bool)
  | unregister (p_op : entry_proc_op_t)
  deriving DecidableEq, Repr

/-- The state after a call. -/
def id_step (s : id_constraint_t) : id_event → id_constraint_t
  | .register p_op at_head => (id_constraint_register s p_op at_head).2
  | .unregister p_op => (id_constraint_unregister s p_op).2

/-- The state after the calls of a trace, from the initial state. -/
def id_run (trace : List id_event) : id_constraint_t :=
  trace.foldl id_step id_constraint_init

/-- The operations that a trace registers, in the order of their registration. -/
def registered (trace : List id_event) : List entry_proc_op_t :=
  trace.filterMap (fun e =>
    match e with
    | .register p_op _ => some p_op
    | .unregister _ => none)

/-- The operations that a trace registers for an id, in their arrival order. -/
def arrivals (trace : List id_event) (id : entry_id_t) : List entry_proc_op_t :=
  (registered trace).filter (fun o => decide (o.entry_id = some id))

/-- The state of the manager agrees with the trace: the queue of every id holds the
arrivals for the id, in their order, but for operations that were unregistered. -/
def id_agrees (trace : List id_event) (s : id_constraint_t) : Prop :=
  ∀ id, ∃ removed : List entry_proc_op_t,
    (∀ o ∈ removed, o ∈ arrivals trace id ∧ id_event.unregister o ∈ trace) ∧
    s.queue id = (arrivals trace id).filter (fun o => decide (o ∉ removed))

/-- Two changes of attributes and a removal of the entry `0x200000400:0x1:0x0`. -/
def sample_op (n : Nat) : entry_proc_op_t := { op := n, entry_id := some sample_fid }

/-- The three operations arrive; the first one is done and unregistered. -/
def sample_trace : List id_event :=
  [.register (sample_op 1) false, .register (sample_op 2) false,
   .register (sample_op 3) false, .unregister (sample_op 1)]

/-! ## Lemmas -/

theorem char_eq_iff (c d : Char) : c = d ↔ c.toNat = d.toNat := by
  constructor
  · intro h; rw [h]
  · intro h
    apply Char.ext
    apply UInt32.ext
    exact h

theorem specials_eq : specials =
    ['\x60', '#', '$', '*', '?', '!', '|', ';', '&', '<', '>', '[', ']',
      '\x7b', '\x7d', '\x27', '\x22', '\x5c'] := by decide

theorem isspace_iff (c : Char) :
    isspace c = true ↔ c ∈ [' ', '\t', '\n', '\x0b', '\x0c', '\r'] := by
  unfold isspace
  simp only [List.mem_cons, List.mem_singleton, List.not_mem_nil, or_false, char_eq_iff,
    Bool.or_eq_true, Bool.and_eq_true, decide_eq_true_eq]
  have h1 : ' '.toNat = 32 := by decide
  have h2 : '\t'.toNat = 9 := by decide
  have h3 : '\n'.toNat = 10 := by decide
  have h4 : '\x0b'.toNat = 11 := by decide
  have h5 : '\x0c'.toNat = 12 := by decide
  have h6 : '\r'.toNat = 13 := by decide
  omega

/-- The cleaning of the code is the cleaning the specification words describe. -/
theorem clean_bad_chars_eq_spec (path : CStr) : clean_bad_chars path = spec_sanitize path := by
  unfold clean_bad_chars spec_sanitize
  apply List.map_congr_left
  intro c _
  have hs := isspace_iff c
  have hsp : is_shell_special c = true ↔ c ∈ specials := by
    unfold is_shell_special
    simp
  rw [specials_eq] at hsp
  by_cases h1 : 128 ≤ c.toNat
  · have : is_allowed_char c = false := by
      unfold is_allowed_char isascii
      simp; intro h; omega
    simp [this, h1]
  · by_cases h2 : isspace c = true
    · have : is_allowed_char c = false := by
        unfold is_allowed_char
        simp [h2]
      rw [this, if_pos (Or.inr (Or.inl (hs.mp h2)))]
      simp
    · by_cases h3 : is_shell_special c = true
      · have : is_allowed_char c = false := by
          unfold is_allowed_char
          simp [h3]
        rw [this, if_pos (Or.inr (Or.inr (hsp.mp h3)))]
        simp
      · have : is_allowed_char c = true := by
          unfold is_allowed_char isascii
          simp only [Bool.not_eq_true] at h2 h3
          simp [h2, h3]; omega
        have hn : ¬ (128 ≤ c.toNat ∨ c ∈ [' ', '\t', '\n', '\x0b', '\x0c', '\r'] ∨
            c ∈ ['\x60', '#', '$', '*', '?', '!', '|', ';', '&', '<', '>', '[', ']',
              '\x7b', '\x7d', '\x27', '\x22', '\x5c']) := by
          rintro (h | h | h)
          · exact h1 h
          · exact h2 (hs.mpr h)
          · exact h3 (hsp.mpr h)
        rw [this, if_pos rfl, if_neg hn]

/-- Under an absolute filesystem root, `relative_path` strips the root and exactly one
separator. -/
theorem relative_path_under (root rel : CStr) (habs : root.head? = some '/') :
    relative_path (with_trailing_slash root ++ rel) root = (0, rel) := by
  have hcopy : (if root.length > 1 ∧ root.getLast? ≠ some '/' then root ++ ['/'] else root)
      = with_trailing_slash root := by
    unfold with_trailing_slash
    by_cases hl : root.getLast? = some '/'
    · simp [hl]
    · have hlen : root.length > 1 := by
        match root, habs, hl with
        | [c], habs, hl => simp at habs; simp [habs] at hl
        | _ :: _ :: _, _, _ => simp
      simp [hl, hlen]
  unfold relative_path
  simp only [hcopy]
  simp [strncmp_eq]

/-- The raw path of an entry whose full path is under the filesystem root. -/
theorem raw_backend_path_under (config : backend_config_t) (global_config : global_config_t)
    (p_attrs_in : attr_set_t) (rel : CStr)
    (habs : global_config.fs_path.head? = some '/')
    (hunder : under_fs_root global_config p_attrs_in rel) :
    raw_backend_path config global_config p_attrs_in = backend_root_slash config ++ rel := by
  obtain ⟨hm, hv⟩ := hunder
  have hr := relative_path_under global_config.fs_path rel habs
  unfold raw_backend_path backend_root_slash
  rw [hv, hr]
  by_cases hroot : config.root = cs "/"
  · simp [hm, hroot]
  · simp [hm, hroot]

theorem digit_value_hexdigit (u : Bool) (d : Nat) (h : d < 16) :
    digit_value (hexdigit u d) = d := by
  interval_cases d <;> cases u <;> rfl

theorem hexdigit_ne (u : Bool) (d : Nat) (h : d < 16) :
    hexdigit u d ≠ '_' ∧ hexdigit u d ≠ ':' := by
  interval_cases d <;> cases u <;> decide

theorem hexAux_append (u : Bool) (fuel n : Nat) (acc : CStr) :
    hexAux u fuel n acc = hexAux u fuel n [] ++ acc := by
  induction fuel generalizing n acc with
  | zero => simp [hexAux]
  | succ k ih =>
    unfold hexAux
    split
    · simp
    · rw [ih (n / 16) (hexdigit u (n % 16) :: acc), ih (n / 16) [hexdigit u (n % 16)]]
      simp

theorem unhex_append_single (l : CStr) (c : Char) :
    unhex (l ++ [c]) = 16 * unhex l + digit_value c := by
  simp [unhex, List.foldl_append]

theorem unhex_hexAux (u : Bool) (fuel n : Nat) (h : n < fuel) :
    unhex (hexAux u fuel n []) = n := by
  induction fuel generalizing n with
  | zero => omega
  | succ k ih =>
    unfold hexAux
    split
    · rename_i h16
      simp [unhex, digit_value_hexdigit u n h16]
    · rename_i h16
      rw [hexAux_append, unhex_append_single, ih (n / 16) (by omega),
        digit_value_hexdigit u (n % 16) (by omega)]
      omega

theorem unhex_hex (u : Bool) (n : Nat) : unhex (hex u n) = n :=
  unhex_hexAux u (n + 1) n (by omega)

theorem hex_injective (u : Bool) (a b : Nat) (h : hex u a = hex u b) : a = b := by
  have := congrArg unhex h
  rwa [unhex_hex, unhex_hex] at this

theorem hexAux_forall (u : Bool) (P : Char → Prop) (hP : ∀ d, d < 16 → P (hexdigit u d))
    (fuel n : Nat) (acc : CStr) (hacc : ∀ c ∈ acc, P c) :
    ∀ c ∈ hexAux u fuel n acc, P c := by
  induction fuel generalizing n acc with
  | zero => simpa [hexAux] using hacc
  | succ k ih =>
    unfold hexAux
    split
    · rename_i h16
      intro c hc
      rcases List.mem_cons.mp hc with h | h
      · rw [h]; exact hP n h16
      · exact hacc c h
    · apply ih
      intro c hc
      rcases List.mem_cons.mp hc with h | h
      · rw [h]; exact hP _ (by omega)
      · exact hacc c h

theorem hex_clean (u : Bool) (n : Nat) : ∀ c ∈ hex u n, c ≠ '_' ∧ c ≠ ':' :=
  hexAux_forall u (fun c => c ≠ '_' ∧ c ≠ ':') (hexdigit_ne u) (n + 1) n [] (by simp)

theorem hex_alt_clean (u : Bool) (n : Nat) : ∀ c ∈ hex_alt u n, c ≠ '_' ∧ c ≠ ':' := by
  intro c hc
  unfold hex_alt at hc
  split at hc
  · simp at hc; rw [hc]; decide
  · rcases List.mem_cons.mp hc with h | h
    · rw [h]; decide
    · rcases List.mem_cons.mp h with h | h
      · rw [h]; cases u <;> decide
      · exact hex_clean u n c h

theorem hex_ne_nil (u : Bool) (n : Nat) : hex u n ≠ [] := by
  unfold hex hexAux
  split
  · simp
  · rw [hexAux_append]; simp

theorem hex_alt_injective (u : Bool) (a b : Nat) (h : hex_alt u a = hex_alt u b) : a = b := by
  unfold hex_alt at h
  by_cases ha : a = 0 <;> by_cases hb : b = 0
  · rw [ha, hb]
  · simp [ha, hb] at h
  · simp [ha, hb] at h
  · simp [ha, hb] at h
    exact hex_injective u a b h

/-- Two strings cut at the first occurrence of a separator absent from their heads. -/
theorem append_sep_inj (c : Char) (a1 a2 b1 b2 : CStr)
    (h1 : ∀ x ∈ a1, x ≠ c) (h2 : ∀ x ∈ a2, x ≠ c)
    (h : a1 ++ c :: b1 = a2 ++ c :: b2) : a1 = a2 ∧ b1 = b2 := by
  induction a1 generalizing a2 with
  | nil =>
    cases a2 with
    | nil => simpa using h
    | cons y ys =>
      simp at h
      exact absurd h.1.symm (h2 y (by simp))
  | cons x xs ih =>
    cases a2 with
    | nil =>
      simp at h
      exact absurd h.1 (h1 x (by simp))
    | cons y ys =>
      simp at h
      obtain ⟨hxy, hrest⟩ := h
      have := ih ys (fun z hz => h1 z (by simp [hz])) (fun z hz => h2 z (by simp [hz])) hrest
      exact ⟨by rw [hxy, this.1], this.2⟩

/-- Two strings cut at the last occurrence of a separator absent from their tails. -/
theorem append_sep_inj_right (c : Char) (a1 a2 b1 b2 : CStr)
    (h1 : ∀ x ∈ b1, x ≠ c) (h2 : ∀ x ∈ b2, x ≠ c)
    (h : a1 ++ c :: b1 = a2 ++ c :: b2) : a1 = a2 ∧ b1 = b2 := by
  have hr := congrArg List.reverse h
  simp only [List.reverse_append, List.reverse_cons, List.append_assoc, List.singleton_append] at hr
  have := append_sep_inj c b1.reverse b2.reverse a1.reverse a2.reverse
    (fun x hx => h1 x (List.mem_reverse.mp hx)) (fun x hx => h2 x (List.mem_reverse.mp hx)) hr
  exact ⟨List.reverse_injective this.2, List.reverse_injective this.1⟩

theorem id_suffix_clean (p_id : entry_id_t) : ∀ c ∈ id_suffix p_id, c ≠ '_' := by
  intro c hc
  cases p_id with
  | fid s o v =>
    simp only [id_suffix, cs, List.mem_append] at hc
    rcases hc with (((h | h) | h) | h) | h
    · exact (hex_alt_clean false s c h).1
    · revert h c; decide
    · exact (hex_clean false o c h).1
    · revert h c; decide
    · exact (hex_clean false v c h).1
  | posix i d v =>
    simp only [id_suffix, cs, List.mem_append] at hc
    rcases hc with (h | h) | h
    · exact (hex_alt_clean true d c h).1
    · revert h c; decide
    · exact (hex_alt_clean true i c h).1

theorem first_field_append (A B : CStr) (hA : ∀ x ∈ A, x ≠ ':') :
    first_field (A ++ ':' :: B) = A := by
  unfold first_field
  induction A with
  | nil => simp
  | cons a A ih =>
    have ha : a ≠ ':' := hA a (by simp)
    simp only [List.cons_append, List.takeWhile_cons, ha, ne_eq, not_false_eq_true,
      decide_True, if_true]
    rw [ih (fun x hx => hA x (by simp [hx]))]

theorem next_fields_append (A B : CStr) (hA : ∀ x ∈ A, x ≠ ':') :
    next_fields (A ++ ':' :: B) = B := by
  unfold next_fields
  induction A with
  | nil => simp
  | cons a A ih =>
    have ha : a ≠ ':' := hA a (by simp)
    simp only [List.cons_append, List.dropWhile_cons, ha, ne_eq, not_false_eq_true,
      decide_True, if_true]
    exact ih (fun x hx => hA x (by simp [hx]))

theorem after_last_underscore_append (A t : CStr) (ht : ∀ x ∈ t, x ≠ '_') :
    after_last_underscore (A ++ cs "__" ++ t) = t := by
  unfold after_last_underscore
  have e : (A ++ cs "__" ++ t).reverse = t.reverse ++ '_' :: ('_' :: A.reverse) := by
    simp [cs]
  rw [e]
  have h : ∀ (R B : CStr), (∀ x ∈ R, x ≠ '_') →
      (R ++ '_' :: B).takeWhile (fun c => c ≠ '_') = R := by
    intro R B hR
    induction R with
    | nil => simp
    | cons a R ih =>
      have ha : a ≠ '_' := hR a (by simp)
      simp only [List.cons_append, List.takeWhile_cons, ha, ne_eq, not_false_eq_true,
        decide_True, if_true]
      rw [ih (fun x hx => hR x (by simp [hx]))]
  rw [h t.reverse _ (fun x hx => ht x (List.mem_reverse.mp hx))]
  simp

theorem read_hex_field_hex_alt (n : Nat) : read_hex_field (hex_alt false n) = n := by
  unfold hex_alt
  by_cases h : n = 0
  · subst h
    decide
  · simp only [h, if_false]
    show unhex (hex false n) = n
    exact unhex_hex false n

theorem read_hex_field_hex (n : Nat) : read_hex_field ('0' :: 'x' :: hex false n) = n :=
  unhex_hex false n

/-- The printed form of a fid reads back as the fid. -/
theorem read_fid_id_suffix (s o v : Nat) :
    read_fid (id_suffix (.fid s o v)) = some (.fid s o v) := by
  have e : id_suffix (.fid s o v) =
      hex_alt false s ++ ':' :: (('0' :: 'x' :: hex false o) ++ ':' ::
        ('0' :: 'x' :: hex false v)) := by
    simp [id_suffix, cs]
  have c1 : ∀ x ∈ hex_alt false s, x ≠ ':' := fun x hx => (hex_alt_clean false s x hx).2
  have c2 : ∀ x ∈ '0' :: 'x' :: hex false o, x ≠ ':' := by
    intro x hx
    rcases List.mem_cons.mp hx with h | hx
    · rw [h]; decide
    · rcases List.mem_cons.mp hx with h | hx
      · rw [h]; decide
      · exact (hex_clean false o x hx).2
  have c3 : ∀ x ∈ '0' :: 'x' :: hex false v, x ≠ ':' := by
    intro x hx
    rcases List.mem_cons.mp hx with h | hx
    · rw [h]; decide
    · rcases List.mem_cons.mp hx with h | hx
      · rw [h]; decide
      · exact (hex_clean false v x hx).2
  have n1 : (hex_alt false s).count ':' = 0 :=
    List.count_eq_zero.mpr (fun h => c1 ':' h rfl)
  have n2 : ('0' :: 'x' :: hex false o).count ':' = 0 :=
    List.count_eq_zero.mpr (fun h => c2 ':' h rfl)
  have n3 : ('0' :: 'x' :: hex false v).count ':' = 0 :=
    List.count_eq_zero.mpr (fun h => c3 ':' h rfl)
  have hcount : (id_suffix (.fid s o v)).count ':' = 2 := by
    rw [e, List.count_append, List.count_cons_self, List.count_append, List.count_cons_self,
      n1, n2, n3]
  unfold read_fid
  rw [if_pos hcount, e, first_field_append _ _ c1, next_fields_append _ _ c1,
    first_field_append _ _ c2, next_fields_append _ _ c2, read_hex_field_hex_alt,
    read_hex_field_hex, read_hex_field_hex]

/-- The printed form of an entry id determines its printed part. -/
theorem id_suffix_injective (id1 id2 : entry_id_t) (h : id_suffix id1 = id_suffix id2) :
    printed_id id1 = printed_id id2 := by
  cases id1 with
  | fid s1 o1 v1 =>
    cases id2 with
    | fid s2 o2 v2 =>
      simp only [id_suffix, cs, List.append_assoc] at h
      have e1 := append_sep_inj ':' _ _ _ _ (fun x hx => (hex_alt_clean false s1 x hx).2)
        (fun x hx => (hex_alt_clean false s2 x hx).2) h
      have e2 : hex false o1 ++ ':' :: ('0' :: 'x' :: hex false v1) =
          hex false o2 ++ ':' :: ('0' :: 'x' :: hex false v2) := by
        have := e1.2
        simpa using this
      have e3 := append_sep_inj ':' _ _ _ _ (fun x hx => (hex_clean false o1 x hx).2)
        (fun x hx => (hex_clean false o2 x hx).2) e2
      have e4 : hex false v1 = hex false v2 := by
        have := e3.2
        simpa using this
      simp only [printed_id]
      rw [hex_alt_injective false s1 s2 e1.1, hex_injective false o1 o2 e3.1,
        hex_injective false v1 v2 e4]
    | posix i2 d2 v2 =>
      exfalso
      simp only [id_suffix, cs, List.append_assoc] at h
      have e1 := append_sep_inj ':' _ _ _ _ (fun x hx => (hex_alt_clean false s1 x hx).2)
        (fun x hx => (hex_alt_clean true d2 x hx).2) h
      have e2 : '0' :: 'x' :: (hex false o1 ++ ':' :: '0' :: 'x' :: hex false v1) =
          hex_alt true i2 := by
        simpa using e1.2
      have hmem : ':' ∈ hex_alt true i2 := by
        rw [← e2]; simp
      exact (hex_alt_clean true i2 ':' hmem).2 rfl
  | posix i1 d1 v1 =>
    cases id2 with
    | fid s2 o2 v2 =>
      exfalso
      simp only [id_suffix, cs, List.append_assoc] at h
      have e1 := append_sep_inj ':' _ _ _ _ (fun x hx => (hex_alt_clean true d1 x hx).2)
        (fun x hx => (hex_alt_clean false s2 x hx).2) h
      have e2 : hex_alt true i1 =
          '0' :: 'x' :: (hex false o2 ++ ':' :: '0' :: 'x' :: hex false v2) := by
        simpa using e1.2
      have hmem : ':' ∈ hex_alt true i1 := by
        rw [e2]; simp
      exact (hex_alt_clean true i1 ':' hmem).2 rfl
    | posix i2 d2 v2 =>
      simp only [id_suffix, cs, List.append_assoc] at h
      have e1 := append_sep_inj ':' _ _ _ _ (fun x hx => (hex_alt_clean true d1 x hx).2)
        (fun x hx => (hex_alt_clean true d2 x hx).2) h
      simp only [printed_id]
      rw [hex_alt_injective true d1 d2 e1.1, hex_alt_injective true i1 i2 e1.2]

/-- A path ending in two underscores and a printed id determines that printed id. -/
theorem suffixed_path_injective (a1 a2 : CStr) (id1 id2 : entry_id_t)
    (h : a1 ++ cs "__" ++ id_suffix id1 = a2 ++ cs "__" ++ id_suffix id2) :
    printed_id id1 = printed_id id2 := by
  have h2 : (a1 ++ ['_']) ++ '_' :: id_suffix id1 = (a2 ++ ['_']) ++ '_' :: id_suffix id2 := by
    simpa [cs] using h
  exact id_suffix_injective id1 id2
    (append_sep_inj_right '_' _ _ _ _ (id_suffix_clean id1) (id_suffix_clean id2) h2).2

/-- What `entry2backend_path` returns when it builds the path from scratch. -/
theorem entry2backend_path_scratch (config : backend_config_t)
    (global_config : global_config_t) (p_id : entry_id_t) (p_attrs_in : attr_set_t)
    (what_for : what_for_e) (h : builds_from_scratch p_attrs_in what_for) :
    entry2backend_path config global_config p_id p_attrs_in what_for =
      (0, clean_bad_chars (raw_backend_path config global_config p_attrs_in)
            ++ cs "__" ++ id_suffix p_id) := by
  obtain ⟨hnd, hw⟩ := h
  unfold not_directory at hnd
  unfold entry2backend_path
  cases hbv : p_attrs_in.attr_mask.backendpath <;> cases htv : p_attrs_in.attr_mask.type <;>
    cases what_for <;> simp_all

theorem entry2backend_path_rc (config : backend_config_t) (global_config : global_config_t)
    (p_id : entry_id_t) (p_attrs_in : attr_set_t) (what_for : what_for_e) :
    (entry2backend_path config global_config p_id p_attrs_in what_for).1 = 0 := by
  unfold entry2backend_path
  simp only []
  split_ifs <;> rfl

theorem get_status_file_unfold (env : Env) (w : World) (p_id : entry_id_t)
    (a c : attr_set_t)
    (hlm : a.attr_mask.last_mod = true) (hty : a.attr_mask.type = true)
    (hfile : env.ListMgr2PolicyType a.attr_values.type = TYPE_FILE) :
    rbhext_get_status env w p_id a c =
      (let r := check_running_copy env.config w (lookup_path env p_id a)
       if r.1 < 0 then (r.1, c, r.2)
       else if r.1 > 0 then (0, c.set_status STATUS_ARCHIVE_RUNNING, r.2)
       else
         match lstat r.2 (lookup_path env p_id a) with
         | .error e =>
           if -e ≠ -ENOENT ∧ -e ≠ -ESTALE then (-e, c, r.2)
           else (0, c.set_status STATUS_NEW, r.2)
         | .ok bkmd =>
           if bkmd.st_kind ≠ S_IFREG then
             let m := move_orphan env.config r.2 (lookup_path env p_id a)
             if m.1 ≠ 0 then (m.1, c, m.2)
             else (0, c.set_status STATUS_NEW, m.2)
           else if a.attr_values.last_mod ≠ bkmd.st_mtime
               ∨ a.attr_values.size ≠ bkmd.st_size then
             (0, (c.set_status STATUS_MODIFIED).set_backendpath (lookup_path env p_id a), r.2)
           else
             (0, (c.set_status STATUS_SYNCHRO).set_backendpath (lookup_path env p_id a), r.2)) := by
  have hrc := entry2backend_path_rc env.config env.global_config p_id a FOR_LOOKUP
  unfold rbhext_get_status lookup_path
  generalize entry2backend_path env.config env.global_config p_id a FOR_LOOKUP = e at hrc ⊢
  obtain ⟨rc, bk⟩ := e
  simp only at hrc
  subst hrc
  simp only [hlm, hty, hfile]
  simp

theorem check_running_copy_no_marker (config : backend_config_t) (w : World) (bk : CStr)
    (h : lstat w (xfer_path bk) = .error ENOENT) :
    check_running_copy config w bk = (0, w) := by
  simp [check_running_copy, entry_is_archiving, h]

theorem to_int_eq (x : Int) (h1 : -2147483648 ≤ x) (h2 : x < 2147483648) : to_int x = x := by
  unfold to_int
  omega

theorem check_running_copy_running (config : backend_config_t) (w : World) (bk : CStr)
    (md : stat_t) (h : lstat w (xfer_path bk) = .ok md)
    (hpos : 0 < to_int (last_activity md))
    (hyoung : config.copy_timeout = 0 ∨
      w.now - to_int (last_activity md) ≤ config.copy_timeout) :
    check_running_copy config w bk = (1, w) := by
  unfold last_activity at hpos hyoung
  have h1 : ¬ (to_int (MAX3 md.st_mtime md.st_ctime md.st_atime) < 0) := by omega
  have h2 : ¬ (config.copy_timeout ≠ 0 ∧
      w.now - to_int (MAX3 md.st_mtime md.st_ctime md.st_atime) >
        (config.copy_timeout : Int)) := by
    rintro ⟨h3, h4⟩
    rcases hyoung with h5 | h5
    · exact h3 h5
    · omega
  simp only [check_running_copy, entry_is_archiving, h, if_neg h1, if_pos hpos, if_neg h2,
    gt_iff_lt]

theorem check_running_copy_timed_out (config : backend_config_t) (w w1 : World) (bk : CStr)
    (md : stat_t) (h : lstat w (xfer_path bk) = .ok md)
    (hpos : 0 < to_int (last_activity md))
    (hto : config.copy_timeout ≠ 0)
    (hold : w.now - to_int (last_activity md) > config.copy_timeout)
    (hunl : unlink w (xfer_path bk) = .ok w1) :
    check_running_copy config w bk = (0, w1) := by
  unfold last_activity at hpos hold
  have h1 : ¬ (to_int (MAX3 md.st_mtime md.st_ctime md.st_atime) < 0) := by omega
  simp only [check_running_copy, entry_is_archiving, h, if_neg h1, if_pos hpos, gt_iff_lt,
    transfer_cleanup, hunl]
  rw [if_pos ⟨hto, hold⟩]

/-- A temporary copy whose last action wraps to a negative `int` is taken for an
error: the negative value is returned and nothing is cleaned. -/
theorem check_running_copy_wrapped (config : backend_config_t) (w : World) (bk : CStr)
    (md : stat_t) (h : lstat w (xfer_path bk) = .ok md)
    (hneg : to_int (last_activity md) < 0) :
    check_running_copy config w bk = (to_int (last_activity md), w) := by
  unfold last_activity at hneg ⊢
  simp only [check_running_copy, entry_is_archiving, h, if_pos hneg]

theorem errno_code_pos (e : errno_t) : 0 < e.code := by
  cases e <;> decide

theorem lstat_error_pos (w : World) (p : CStr) (e : Int) (h : lstat w p = .error e) :
    0 < e := by
  unfold lstat at h
  split at h
  · rename_i e1 _
    cases h
    exact errno_code_pos e1
  · split at h
    · cases h; decide
    · cases h

theorem check_running_copy_pos_iff (config : backend_config_t) (w : World) (bk : CStr) :
    0 < (check_running_copy config w bk).1 ↔
      ∃ md, lstat w (xfer_path bk) = .ok md ∧ 0 < to_int (last_activity md) ∧
        (config.copy_timeout = 0 ∨
          w.now - to_int (last_activity md) ≤ config.copy_timeout) := by
  constructor
  · intro h
    unfold check_running_copy entry_is_archiving at h
    cases hl : lstat w (xfer_path bk) with
    | error e =>
      have hpos := lstat_error_pos w _ e hl
      rw [hl] at h
      simp only at h
      split_ifs at h <;> simp at h <;> omega
    | ok md =>
      rw [hl] at h
      simp only at h
      refine ⟨md, rfl, ?_⟩
      unfold last_activity
      split_ifs at h with h1 h2 h3
      · omega
      · simp at h
      · refine ⟨h2, ?_⟩
        by_cases h0 : config.copy_timeout = 0
        · exact Or.inl h0
        · right
          by_contra hc
          exact h3 ⟨h0, by omega⟩
      · simp at h
  · rintro ⟨md, hl, hpos, hy⟩
    rw [check_running_copy_running config w bk md hl hpos hy]
    simp

/-- The status probe of a regular file when no temporary copy is in flight. -/
theorem get_status_file_no_marker (env : Env) (w : World) (p_id : entry_id_t)
    (a c : attr_set_t)
    (hlm : a.attr_mask.last_mod = true) (hty : a.attr_mask.type = true)
    (hfile : env.ListMgr2PolicyType a.attr_values.type = TYPE_FILE)
    (hnm : lstat w (xfer_path (lookup_path env p_id a)) = .error ENOENT) :
    (lstat w (lookup_path env p_id a) = .error ENOENT →
      rbhext_get_status env w p_id a c = (0, c.set_status STATUS_NEW, w)) ∧
    (∀ bkmd, lstat w (lookup_path env p_id a) = .ok bkmd → bkmd.st_kind = S_IFREG →
      bkmd.st_mtime = a.attr_values.last_mod ∧ bkmd.st_size = a.attr_values.size →
      rbhext_get_status env w p_id a c =
        (0, (c.set_status STATUS_SYNCHRO).set_backendpath (lookup_path env p_id a), w)) ∧
    (∀ bkmd, lstat w (lookup_path env p_id a) = .ok bkmd → bkmd.st_kind = S_IFREG →
      bkmd.st_mtime ≠ a.attr_values.last_mod ∨ bkmd.st_size ≠ a.attr_values.size →
      rbhext_get_status env w p_id a c =
        (0, (c.set_status STATUS_MODIFIED).set_backendpath (lookup_path env p_id a), w)) := by
  rw [get_status_file_unfold env w p_id a c hlm hty hfile,
    check_running_copy_no_marker env.config w _ hnm]
  refine ⟨?_, ?_, ?_⟩
  · intro h
    simp [h]
  · intro bkmd h hk he
    simp [h, hk, he.1, he.2]
  · intro bkmd h hk he
    have : a.attr_values.last_mod ≠ bkmd.st_mtime ∨ a.attr_values.size ≠ bkmd.st_size := by
      rcases he with h1 | h1
      · exact Or.inl (fun h2 => h1 h2.symm)
      · exact Or.inr (fun h2 => h1 h2.symm)
    simp only [h, hk]
    simp [this]

theorem status_set_status (c : attr_set_t) (v : file_status_t) :
    (c.set_status v).attr_values.status = v := rfl

theorem status_set_backendpath (c : attr_set_t) (p : CStr) :
    (c.set_backendpath p).attr_values.status = c.attr_values.status := rfl

/-- A status probe of a regular file that finds no running copy and returns 0 reports
new, modified or synchro. -/
theorem get_status_file_not_running (env : Env) (w : World) (p_id : entry_id_t)
    (a c : attr_set_t)
    (hlm : a.attr_mask.last_mod = true) (hty : a.attr_mask.type = true)
    (hfile : env.ListMgr2PolicyType a.attr_values.type = TYPE_FILE)
    (hrun : ¬ 0 < (check_running_copy env.config w (lookup_path env p_id a)).1)
    (h0 : (rbhext_get_status env w p_id a c).1 = 0) :
    (rbhext_get_status env w p_id a c).2.1.attr_values.status = STATUS_NEW ∨
    (rbhext_get_status env w p_id a c).2.1.attr_values.status = STATUS_MODIFIED ∨
    (rbhext_get_status env w p_id a c).2.1.attr_values.status = STATUS_SYNCHRO := by
  rw [get_status_file_unfold env w p_id a c hlm hty hfile] at h0 ⊢
  generalize check_running_copy env.config w (lookup_path env p_id a) = r at hrun h0 ⊢
  have h2 : ¬ r.1 > 0 := hrun
  by_cases h1 : r.1 < 0
  · simp only [if_pos h1] at h0; omega
  · simp only [if_neg h1, if_neg h2] at h0 ⊢
    cases hl : lstat r.2 (lookup_path env p_id a) with
    | error e =>
      have hpos := lstat_error_pos _ _ _ hl
      simp only [hl] at h0 ⊢
      by_cases he : -e ≠ -ENOENT ∧ -e ≠ -ESTALE
      · simp only [if_pos he] at h0; omega
      · simp only [if_neg he]
        left; rfl
    | ok bkmd =>
      simp only [hl] at h0 ⊢
      by_cases hk : bkmd.st_kind ≠ S_IFREG
      · simp only [if_pos hk] at h0 ⊢
        by_cases hm : (move_orphan env.config r.2 (lookup_path env p_id a)).1 ≠ 0
        · simp only [if_pos hm] at h0
          exact absurd h0 hm
        · simp only [if_neg hm]
          left; rfl
      · simp only [if_neg hk]
        by_cases hd : a.attr_values.last_mod ≠ bkmd.st_mtime ∨ a.attr_values.size ≠ bkmd.st_size
        · simp only [if_pos hd]
          right; left; rfl
        · simp only [if_neg hd]
          right; right; rfl

theorem xfer_path_ne (bk : CStr) : bk ≠ xfer_path bk := by
  intro h
  have := congrArg List.length h
  simp [xfer_path, cs, COPY_EXT] at this

theorem unlink_ok (w w1 : World) (p : CStr) (h : unlink w p = .ok w1) :
    w1 = w.put p none := by
  unfold unlink at h
  split at h
  · cases h
  · split at h
    · cases h
    · split at h
      · cases h
      · cases h; rfl

theorem lstat_put_other (w : World) (p q : CStr) (n : Option Node) (h : q ≠ p) :
    lstat (w.put p n) q = lstat w q := by
  simp [lstat, World.put, h]

theorem lstat_put_none (w : World) (p : CStr) (md : stat_t) (h : lstat w p = .ok md) :
    lstat (w.put p none) p = .error ENOENT := by
  have hf : w.fault sys_lstat p = none := by
    unfold lstat at h
    split at h
    · cases h
    · assumption
  simp [lstat, World.put, hf]

theorem readlink_error_pos (w : World) (p : CStr) (e : Int) (h : readlink w p = .error e) :
    0 < e := by
  unfold readlink at h
  split at h
  · rename_i e1 _
    cases h
    exact errno_code_pos e1
  · split at h
    · cases h; decide
    · split at h
      · cases h
      · cases h; decide

theorem get_status_link_unfold (env : Env) (w : World) (p_id : entry_id_t)
    (a c : attr_set_t)
    (hlm : a.attr_mask.last_mod = true) (hty : a.attr_mask.type = true)
    (hlink : env.ListMgr2PolicyType a.attr_values.type = TYPE_LINK) :
    rbhext_get_status env w p_id a c =
      (match lstat w (lookup_path env p_id a) with
       | .error e =>
         if -e ≠ -ENOENT ∧ -e ≠ -ESTALE then (-e, c, w)
         else (0, c.set_status STATUS_NEW, w)
       | .ok bkmd => get_status_link env w p_id a c (lookup_path env p_id a) bkmd) := by
  have hrc := entry2backend_path_rc env.config env.global_config p_id a FOR_LOOKUP
  unfold rbhext_get_status lookup_path
  generalize entry2backend_path env.config env.global_config p_id a FOR_LOOKUP = e at hrc ⊢
  obtain ⟨rc, bk⟩ := e
  simp only at hrc
  subst hrc
  simp only [hlm, hty, hlink]
  simp

/-- A status probe that returns 0 was made on a file or on a link. -/
theorem get_status_type (env : Env) (w : World) (p_id : entry_id_t) (a c : attr_set_t)
    (h0 : (rbhext_get_status env w p_id a c).1 = 0) :
    a.attr_mask.last_mod = true ∧ a.attr_mask.type = true ∧
    (env.ListMgr2PolicyType a.attr_values.type = TYPE_FILE ∨
      env.ListMgr2PolicyType a.attr_values.type = TYPE_LINK) := by
  unfold rbhext_get_status at h0
  by_cases hm : ¬ a.attr_mask.last_mod = true ∨ ¬ a.attr_mask.type = true
  · rw [if_pos hm] at h0
    simp [EINVAL] at h0
  · rw [if_neg hm] at h0
    have hm2 : a.attr_mask.last_mod = true ∧ a.attr_mask.type = true := by
      constructor
      · by_contra h; exact hm (Or.inl h)
      · by_contra h; exact hm (Or.inr h)
    refine ⟨hm2.1, hm2.2, ?_⟩
    by_contra ht
    have ht2 : env.ListMgr2PolicyType a.attr_values.type ≠ TYPE_FILE ∧
        env.ListMgr2PolicyType a.attr_values.type ≠ TYPE_LINK :=
      ⟨fun h => ht (Or.inl h), fun h => ht (Or.inr h)⟩
    have hrc := entry2backend_path_rc env.config env.global_config p_id a FOR_LOOKUP
    generalize entry2backend_path env.config env.global_config p_id a FOR_LOOKUP = e
      at hrc h0
    obtain ⟨rc, bk⟩ := e
    simp only at hrc
    subst hrc
    simp only [ne_eq, not_true_eq_false, if_false, if_pos ht2] at h0
    simp [ENOTSUP] at h0

/-- What a status probe has found when it reports synchro. -/
theorem get_status_synchro (env : Env) (w : World) (p_id : entry_id_t) (a c : attr_set_t)
    (h0 : (rbhext_get_status env w p_id a c).1 = 0)
    (hs : (rbhext_get_status env w p_id a c).2.1.attr_values.status = STATUS_SYNCHRO) :
    (rbhext_get_status env w p_id a c).2.1.attr_mask.backendpath = true ∧
    (rbhext_get_status env w p_id a c).2.1.attr_values.backendpath = lookup_path env p_id a ∧
    ((env.ListMgr2PolicyType a.attr_values.type = TYPE_FILE ∧
        ∃ bkmd, lstat (rbhext_get_status env w p_id a c).2.2 (lookup_path env p_id a)
            = .ok bkmd ∧
          bkmd.st_kind = S_IFREG ∧ bkmd.st_mtime = a.attr_values.last_mod ∧
          bkmd.st_size = a.attr_values.size) ∨
     (env.ListMgr2PolicyType a.attr_values.type = TYPE_LINK ∧
        ∃ fspath lnk, entry_fspath env p_id a = .ok fspath ∧
          readlink (rbhext_get_status env w p_id a c).2.2 (lookup_path env p_id a)
            = .ok lnk ∧
          readlink (rbhext_get_status env w p_id a c).2.2 fspath = .ok lnk)) := by
  obtain ⟨hlm, hty, ht⟩ := get_status_type env w p_id a c h0
  rcases ht with hfile | hlink
  · rw [get_status_file_unfold env w p_id a c hlm hty hfile] at h0 hs ⊢
    generalize check_running_copy env.config w (lookup_path env p_id a) = r at h0 hs ⊢
    by_cases h1 : r.1 < 0
    · simp only [if_pos h1] at h0; omega
    · by_cases h2 : r.1 > 0
      · simp only [if_neg h1, if_pos h2] at hs
        cases hs
      · simp only [if_neg h1, if_neg h2] at h0 hs ⊢
        cases hl : lstat r.2 (lookup_path env p_id a) with
        | error e =>
          have hpos := lstat_error_pos _ _ _ hl
          simp only [hl] at h0 hs
          by_cases he : -e ≠ -ENOENT ∧ -e ≠ -ESTALE
          · simp only [if_pos he] at h0; omega
          · simp only [if_neg he] at hs
            cases hs
        | ok bkmd =>
          simp only [hl] at h0 hs ⊢
          by_cases hk : bkmd.st_kind ≠ S_IFREG
          · simp only [if_pos hk] at h0 hs
            by_cases hm : (move_orphan env.config r.2 (lookup_path env p_id a)).1 ≠ 0
            · simp only [if_pos hm] at h0
              exact absurd h0 hm
            · simp only [if_neg hm] at hs
              cases hs
          · simp only [if_neg hk] at hs ⊢
            by_cases hd : a.attr_values.last_mod ≠ bkmd.st_mtime
                ∨ a.attr_values.size ≠ bkmd.st_size
            · simp only [if_pos hd] at hs
              cases hs
            · simp only [if_neg hd]
              refine ⟨rfl, rfl, Or.inl ⟨hfile, bkmd, hl, ?_, ?_, ?_⟩⟩
              · by_contra h; exact hk h
              · by_contra h; exact hd (Or.inl (fun h' => h h'.symm))
              · by_contra h; exact hd (Or.inr (fun h' => h h'.symm))
  · rw [get_status_link_unfold env w p_id a c hlm hty hlink] at h0 hs ⊢
    cases hl : lstat w (lookup_path env p_id a) with
    | error e =>
      have hpos := lstat_error_pos _ _ _ hl
      simp only [hl] at h0 hs
      by_cases he : -e ≠ -ENOENT ∧ -e ≠ -ESTALE
      · simp only [if_pos he] at h0; omega
      · simp only [if_neg he] at hs
        cases hs
    | ok bkmd =>
      simp only [hl] at h0 hs ⊢
      unfold get_status_link at h0 hs ⊢
      by_cases hk : bkmd.st_kind ≠ S_IFLNK
      · simp only [if_pos hk] at h0 hs
        by_cases hm : (move_orphan env.config w (lookup_path env p_id a)).1 ≠ 0
        · simp only [if_pos hm] at h0
          exact absurd h0 hm
        · simp only [if_neg hm] at hs
          cases hs
      · simp only [if_neg hk] at h0 hs ⊢
        cases hf : entry_fspath env p_id a with
        | error e =>
          simp only [hf] at h0
          have : e = EINVAL := by
            unfold entry_fspath at hf
            split at hf
            · cases hf
            · split at hf
              · cases hf
              · cases hf; rfl
          rw [this] at h0
          simp [EINVAL] at h0
        | ok fspath =>
          simp only [hf] at h0 hs ⊢
          cases hr1 : readlink w (lookup_path env p_id a) with
          | error e =>
            have hpos := readlink_error_pos _ _ _ hr1
            simp only [hr1] at h0 hs
            by_cases he : -e = ENOENT
            · simp only [if_pos he] at hs
              cases hs
            · simp only [if_neg he] at h0
              omega
          | ok lnk1 =>
            simp only [hr1] at h0 hs ⊢
            cases hr2 : readlink w fspath with
            | error e =>
              have hpos := readlink_error_pos _ _ _ hr2
              simp only [hr2] at h0
              omega
            | ok lnk2 =>
              simp only [hr2] at h0 hs ⊢
              by_cases hd : lnk1 ≠ lnk2
              · simp only [if_pos hd] at hs
                cases hs
              · simp only [if_neg hd]
                have hd2 : lnk1 = lnk2 := by
                  by_contra h; exact hd h
                refine ⟨rfl, rfl, Or.inr ⟨hlink, fspath, lnk1, rfl, hr1, ?_⟩⟩
                rw [hd2]; exact hr2

theorem check_running_copy_running_eq (config : backend_config_t) (w : World) (bk : CStr)
    (h : 0 < (check_running_copy config w bk).1) :
    check_running_copy config w bk = (1, w) := by
  obtain ⟨md, hl, hpos, hy⟩ := (check_running_copy_pos_iff config w bk).mp h
  exact check_running_copy_running config w bk md hl hpos hy

/-- The check of the status by `rbhext_archive` when a copy is running. -/
theorem archive_check_status_running (env : Env) (w : World) (p_attrs : attr_set_t)
    (bkpath : CStr)
    (hstatus : p_attrs.attr_values.status = STATUS_MODIFIED ∨
      p_attrs.attr_values.status = STATUS_ARCHIVE_RUNNING)
    (hrun : 0 < (check_running_copy env.config w bkpath).1) :
    archive_check_status env w p_attrs bkpath = .error (-EALREADY, w) := by
  have hnew : ¬ p_attrs.attr_values.status = STATUS_NEW := by
    rcases hstatus with h | h <;> rw [h] <;> decide
  unfold archive_check_status
  rw [if_neg hnew, if_pos hstatus, check_running_copy_running_eq env.config w bkpath hrun]
  simp

theorem archive_prepare_running (env : Env) (w : World) (p_id : entry_id_t)
    (p_attrs : attr_set_t)
    (hst : p_attrs.attr_mask.status = true) (hty : p_attrs.attr_mask.type = true)
    (htype : env.ListMgr2PolicyType p_attrs.attr_values.type = TYPE_FILE ∨
      env.ListMgr2PolicyType p_attrs.attr_values.type = TYPE_LINK)
    (hstatus : p_attrs.attr_values.status = STATUS_MODIFIED ∨
      p_attrs.attr_values.status = STATUS_ARCHIVE_RUNNING)
    (hrun : 0 < (check_running_copy env.config w (new_copy_path env p_id p_attrs)).1) :
    archive_prepare env w RBHEXT_SYNC p_id p_attrs = .error (-EALREADY, p_attrs, w) := by
  have hrc := entry2backend_path_rc env.config env.global_config p_id p_attrs FOR_NEW_COPY
  have hchk := archive_check_status_running env w p_attrs (new_copy_path env p_id p_attrs)
    hstatus hrun
  have htype2 : ¬ (env.ListMgr2PolicyType p_attrs.attr_values.type ≠ TYPE_FILE ∧
      env.ListMgr2PolicyType p_attrs.attr_values.type ≠ TYPE_LINK) := by
    rintro ⟨h1, h2⟩
    rcases htype with h | h
    · exact h1 h
    · exact h2 h
  unfold new_copy_path at hchk
  unfold archive_prepare
  simp only [hst, hty, ne_eq, not_true_eq_false, if_false, if_neg htype2, hrc, hchk]

/-- The changed attributes after a status probe are the ones given, with at most the
status and the backend path set. -/
theorem get_status_attrs_ind (env : Env) (w : World) (p_id : entry_id_t) (a c : attr_set_t)
    (P : attr_set_t → Prop) (hc : P c) (hs : ∀ s, P (c.set_status s))
    (hb : ∀ s p, P ((c.set_status s).set_backendpath p)) :
    P (rbhext_get_status env w p_id a c).2.1 := by
  by_cases hm : a.attr_mask.last_mod = true ∧ a.attr_mask.type = true
  · obtain ⟨hlm, hty⟩ := hm
    by_cases hfile : env.ListMgr2PolicyType a.attr_values.type = TYPE_FILE
    · rw [get_status_file_unfold env w p_id a c hlm hty hfile]
      generalize check_running_copy env.config w (lookup_path env p_id a) = r
      by_cases h1 : r.1 < 0
      · simp only [if_pos h1]; exact hc
      · by_cases h2 : r.1 > 0
        · simp only [if_neg h1, if_pos h2]; exact hs _
        · simp only [if_neg h1, if_neg h2]
          cases hl : lstat r.2 (lookup_path env p_id a) with
          | error e =>
            simp only [hl]
            by_cases he : -e ≠ -ENOENT ∧ -e ≠ -ESTALE
            · simp only [if_pos he]; exact hc
            · simp only [if_neg he]; exact hs _
          | ok bkmd =>
            simp only [hl]
            by_cases hk : bkmd.st_kind ≠ S_IFREG
            · simp only [if_pos hk]
              by_cases hmo : (move_orphan env.config r.2 (lookup_path env p_id a)).1 ≠ 0
              · simp only [if_pos hmo]; exact hc
              · simp only [if_neg hmo]; exact hs _
            · simp only [if_neg hk]
              by_cases hd : a.attr_values.last_mod ≠ bkmd.st_mtime
                  ∨ a.attr_values.size ≠ bkmd.st_size
              · simp only [if_pos hd]; exact hb _ _
              · simp only [if_neg hd]; exact hb _ _
    · by_cases hlink : env.ListMgr2PolicyType a.attr_values.type = TYPE_LINK
      · rw [get_status_link_unfold env w p_id a c hlm hty hlink]
        cases hl : lstat w (lookup_path env p_id a) with
        | error e =>
          simp only [hl]
          by_cases he : -e ≠ -ENOENT ∧ -e ≠ -ESTALE
          · simp only [if_pos he]; exact hc
          · simp only [if_neg he]; exact hs _
        | ok bkmd =>
          simp only [hl]
          unfold get_status_link
          by_cases hk : bkmd.st_kind ≠ S_IFLNK
          · simp only [if_pos hk]
            by_cases hmo : (move_orphan env.config w (lookup_path env p_id a)).1 ≠ 0
            · simp only [if_pos hmo]; exact hc
            · simp only [if_neg hmo]; exact hs _
          · simp only [if_neg hk]
            cases hf : entry_fspath env p_id a with
            | error e => simp only [hf]; exact hc
            | ok fspath =>
              simp only [hf]
              cases hr1 : readlink w (lookup_path env p_id a) with
              | error e =>
                simp only [hr1]
                by_cases he : -e = ENOENT
                · simp only [if_pos he]; exact hs _
                · simp only [if_neg he]; exact hc
              | ok lnk1 =>
                simp only [hr1]
                cases hr2 : readlink w fspath with
                | error e => simp only [hr2]; exact hc
                | ok lnk2 =>
                  simp only [hr2]
                  by_cases hd : lnk1 ≠ lnk2
                  · simp only [if_pos hd]; exact hb _ _
                  · simp only [if_neg hd]; exact hb _ _
      · have hrc := entry2backend_path_rc env.config env.global_config p_id a FOR_LOOKUP
        unfold rbhext_get_status
        simp only [hlm, hty, hrc, ne_eq, not_true_eq_false, or_self, if_false,
          if_pos (And.intro hfile hlink)]
        exact hc
  · unfold rbhext_get_status
    have hm2 : ¬ a.attr_mask.last_mod = true ∨ ¬ a.attr_mask.type = true := by
      by_contra h
      push_neg at h
      exact hm h
    rw [if_pos hm2]
    exact hc

theorem get_status_keeps (env : Env) (w : World) (p_id : entry_id_t) (a c : attr_set_t) :
    (rbhext_get_status env w p_id a c).2.1.attr_values.last_mod = c.attr_values.last_mod ∧
    (rbhext_get_status env w p_id a c).2.1.attr_values.size = c.attr_values.size ∧
    (rbhext_get_status env w p_id a c).2.1.attr_mask.last_mod = c.attr_mask.last_mod :=
  get_status_attrs_ind env w p_id a c
    (fun x => x.attr_values.last_mod = c.attr_values.last_mod ∧
      x.attr_values.size = c.attr_values.size ∧ x.attr_mask.last_mod = c.attr_mask.last_mod)
    ⟨rfl, rfl, rfl⟩ (fun _ => ⟨rfl, rfl, rfl⟩) (fun _ _ => ⟨rfl, rfl, rfl⟩)

/-- What `rbhext_archive` has computed when its checks pass. -/
theorem archive_prepare_ok (env : Env) (w : World) (m : rbhext_arch_meth)
    (p_id : entry_id_t) (p_attrs : attr_set_t) (c : archive_ctx)
    (h : archive_prepare env w m p_id p_attrs = .ok c) :
    c.bkpath = new_copy_path env p_id c.p_attrs ∧
    c.entry_type = env.ListMgr2PolicyType c.p_attrs.attr_values.type ∧
    c.p_attrs.attr_values.last_mod = p_attrs.attr_values.last_mod ∧
    c.p_attrs.attr_values.size = p_attrs.attr_values.size ∧
    c.p_attrs.attr_mask.last_mod = p_attrs.attr_mask.last_mod := by
  unfold archive_prepare at h
  split at h
  · cases h
  · have hk : ∀ pre : Int × attr_set_t × World,
        pre = (if ¬ p_attrs.attr_mask.status = true then
                rbhext_get_status env w p_id p_attrs p_attrs else (0, p_attrs, w)) →
        pre.2.1.attr_values.last_mod = p_attrs.attr_values.last_mod ∧
        pre.2.1.attr_values.size = p_attrs.attr_values.size ∧
        pre.2.1.attr_mask.last_mod = p_attrs.attr_mask.last_mod := by
      intro pre hpre
      rw [hpre]
      split
      · exact get_status_keeps env w p_id p_attrs p_attrs
      · exact ⟨rfl, rfl, rfl⟩
    have hk2 := hk _ rfl
    generalize (if ¬ p_attrs.attr_mask.status = true then
        rbhext_get_status env w p_id p_attrs p_attrs else (0, p_attrs, w)) = pre at h hk2
    obtain ⟨rc, pa, w0⟩ := pre
    simp only at h hk2
    split at h
    · cases h
    · split at h
      · cases h
      · split at h
        · cases h
        · split at h
          · cases h
          · split at h
            · cases h
            · split at h
              · cases h
              · split at h
                · cases h
                · cases h
                  exact ⟨rfl, rfl, hk2⟩

theorem PosixStat2EntryAttr_keeps (u g : Nat → CStr) (info : stat_t) (a : attr_set_t)
    (b : Bool) :
    (PosixStat2EntryAttr u g info a b).attr_values.status = a.attr_values.status ∧
    (PosixStat2EntryAttr u g info a b).attr_values.backendpath = a.attr_values.backendpath ∧
    (PosixStat2EntryAttr u g info a b).attr_mask.backendpath = a.attr_mask.backendpath ∧
    (PosixStat2EntryAttr u g info a b).attr_mask.status = a.attr_mask.status :=
  ⟨rfl, rfl, rfl, rfl⟩

theorem archive_file_commit_world (env : Env) (c : archive_ctx) (w : World) :
    (archive_file_commit env c w).2.2 = archive_remove_previous c w := by
  unfold archive_file_commit
  simp only
  split <;> rfl

/-- The result of the commit of an archive, by the final `lstat` of the source. -/
theorem archive_file_commit_result (env : Env) (c : archive_ctx) (w : World) (info : stat_t)
    (hl : lstat (archive_file_commit env c w).2.2 c.fspath = .ok info) :
    (archive_file_commit env c w).1 = 0 ∧
    (archive_file_commit env c w).2.1.attr_mask.backendpath = true ∧
    (archive_file_commit env c w).2.1.attr_values.backendpath = c.bkpath ∧
    (info.st_mtime ≠ c.p_attrs.attr_values.last_mod ∨
        info.st_size ≠ c.p_attrs.attr_values.size →
      (archive_file_commit env c w).2.1.attr_values.status = STATUS_MODIFIED) ∧
    (info.st_mtime = c.p_attrs.attr_values.last_mod ∧
        info.st_size = c.p_attrs.attr_values.size →
      (archive_file_commit env c w).2.1.attr_values.status = STATUS_SYNCHRO) := by
  rw [archive_file_commit_world] at hl
  unfold archive_file_commit
  generalize archive_remove_previous c w = w1 at hl ⊢
  simp only [hl]
  refine ⟨trivial, ?_, ?_, ?_, ?_⟩
  · split <;> rfl
  · split <;> rfl
  · intro hd
    have hd2 : info.st_mtime ≠ (((c.p_attrs.set_status STATUS_SYNCHRO).set_backendpath
        c.bkpath).set_last_archive w1.now).attr_values.last_mod ∨
        info.st_size ≠ (((c.p_attrs.set_status STATUS_SYNCHRO).set_backendpath
        c.bkpath).set_last_archive w1.now).attr_values.size := hd
    rw [if_pos hd2]
    rfl
  · intro he
    have hd2 : ¬ (info.st_mtime ≠ (((c.p_attrs.set_status STATUS_SYNCHRO).set_backendpath
        c.bkpath).set_last_archive w1.now).attr_values.last_mod ∨
        info.st_size ≠ (((c.p_attrs.set_status STATUS_SYNCHRO).set_backendpath
        c.bkpath).set_last_archive w1.now).attr_values.size) := by
      rintro (h | h)
      · exact h he.1
      · exact h he.2
    rw [if_neg hd2]
    rfl

/-- A successful archive of a regular file ends with the commit. -/
theorem archive_success_eq (env : Env) (w : World) (p_id : entry_id_t) (p_attrs : attr_set_t)
    (hints : Option CStr) (c : archive_ctx)
    (h : archived_successfully env w p_id p_attrs hints c) :
    ∃ w3, rbhext_archive env w RBHEXT_SYNC p_id p_attrs hints = archive_file_commit env c w3 := by
  obtain ⟨hprep, hfile, w1, w3, hcmd, hren⟩ := h
  refine ⟨w3, ?_⟩
  unfold rbhext_archive
  rw [hprep]
  simp only [hfile, if_true]
  unfold archive_file
  rw [hcmd]
  simp only [ne_eq, not_true_eq_false, if_false, hren]

theorem lstat_ok (w : World) (p : CStr) (md : stat_t) (h : lstat w p = .ok md) :
    w.fault sys_lstat p = none ∧ ∃ n, w.files p = some n ∧ n.st = md := by
  unfold lstat at h
  split at h
  · cases h
  · rename_i hf
    split at h
    · cases h
    · rename_i n hn
      cases h
      exact ⟨hf, n, hn, rfl⟩

theorem mkdir_ok (w w1 : World) (p : CStr) (mode : Nat) (h : mkdir w p mode = .ok w1) :
    w.files p = none ∧ ∃ n, w1 = w.put p (some n) := by
  unfold mkdir at h
  split at h
  · cases h
  · split at h
    · cases h
    · rename_i hn
      cases h
      exact ⟨hn, _, rfl⟩

theorem rename_ok (w w2 : World) (p q : CStr) (h : rename w p q = .ok w2) :
    ∃ n, w.files p = some n ∧ w2.files q = some n ∧ (q ≠ p → w2.files p = none) ∧
      w2.fault = w.fault := by
  unfold rename at h
  split at h
  · cases h
  · split at h
    · cases h
    · rename_i n hn
      refine ⟨n, hn, ?_⟩
      split at h
      · split at h
        · cases h
        · split at h
          · cases h
          · split at h
            · rename_i hpq
              cases h
              subst hpq
              exact ⟨hn, fun hne => absurd rfl hne, rfl⟩
            · rename_i hpq
              cases h
              refine ⟨?_, ?_, rfl⟩
              · have hqp : q ≠ p := fun h' => hpq h'.symm
                simp [World.put, hqp]
              · intro _
                simp [World.put]
      · cases h
        by_cases hpq : q = p
        · subst hpq
          rename_i hnone _
          rw [hn] at hnone
          cases hnone
        · refine ⟨?_, ?_, rfl⟩
          · simp [World.put, hpq]
          · intro _
            simp [World.put]

theorem rename_error_pos (w : World) (p q : CStr) (e : Int)
    (h : rename w p q = .error e) : 0 < e := by
  unfold rename at h
  split at h
  · rename_i e1 _
    cases h
    exact errno_code_pos e1
  · split at h
    · cases h; decide
    · split at h
      · split at h
        · cases h; decide
        · split at h
          · cases h; decide
          · split at h <;> cases h
      · cases h

/-- What a successful `move_orphan` does to an existing object. -/
theorem move_orphan_ok (config : backend_config_t) (w w2 : World) (p : CStr) (n : Node)
    (hn : w.files p = some n) (h : move_orphan config w p = (0, w2)) :
    w2.files (orphan_path config p) = some n ∧
    (orphan_path config p ≠ p → w2.files p = none) ∧ w2.fault = w.fault := by
  unfold move_orphan at h
  simp only at h
  have key : ∀ w1 : World, w1.files p = some n → w1.fault = w.fault →
      (if basename p = cs "/" ∨ basename p = [] then (-EINVAL, w1)
        else match rename w1 p (config.root ++ cs "/" ++ TRASH_DIR ++ cs "/" ++ basename p) with
          | .error e => (-e, w1)
          | .ok w2 => (0, w2)) = (0, w2) →
      w2.files (orphan_path config p) = some n ∧
      (orphan_path config p ≠ p → w2.files p = none) ∧ w2.fault = w.fault := by
    intro w1 hn1 hf1 hr
    split at hr
    · simp [EINVAL] at hr
    · cases hren : rename w1 p (config.root ++ cs "/" ++ TRASH_DIR ++ cs "/" ++ basename p) with
      | error e =>
        rw [hren] at hr
        simp only at hr
        exfalso
        have hw : w2 = w1 := (congrArg Prod.snd hr).symm
        have he : -e = 0 := congrArg Prod.fst hr
        have := rename_error_pos w1 p _ e hren
        omega
      | ok w3 =>
        rw [hren] at hr
        simp only at hr
        have hw : w3 = w2 := congrArg Prod.snd hr
        subst hw
        obtain ⟨m, hm, hq, hp, hf⟩ := rename_ok w1 w3 p _ hren
        rw [hn1] at hm
        cases hm
        exact ⟨hq, hp, hf.trans hf1⟩
  cases hmk : mkdir w (config.root ++ cs "/" ++ TRASH_DIR) 488 with
  | error e =>
    rw [hmk] at h
    simp only at h
    by_cases he : e ≠ EEXIST
    · rw [if_pos he] at h
      simp only at h
      exfalso
      have he0 : -e = 0 := congrArg Prod.fst h
      unfold mkdir at hmk
      split at hmk
      · rename_i e1 _
        cases hmk
        have := errno_code_pos e1
        omega
      · split at hmk
        · cases hmk; simp [EEXIST] at he
        · cases hmk
    · rw [if_neg he] at h
      exact key w hn rfl h
  | ok w1 =>
    rw [hmk] at h
    simp only at h
    obtain ⟨hnone, m, hw1⟩ := mkdir_ok w w1 _ _ hmk
    have hne : p ≠ config.root ++ cs "/" ++ TRASH_DIR := by
      intro hp
      rw [← hp, hn] at hnone
      cases hnone
    apply key w1 _ _ h
    · rw [hw1]
      show (if p = config.root ++ cs "/" ++ TRASH_DIR then some m else w.files p) = some n
      rw [if_neg hne, hn]
    · rw [hw1]; rfl

/-- A failed `move_orphan` returns a negative code and leaves the object in place. -/
theorem move_orphan_fail (config : backend_config_t) (w w2 : World) (p : CStr) (n : Node)
    (rc : Int) (hn : w.files p = some n) (h : move_orphan config w p = (rc, w2))
    (hrc : rc ≠ 0) :
    rc < 0 ∧ w2.files p = some n ∧ w2.fault = w.fault := by
  unfold move_orphan at h
  simp only at h
  have key : ∀ w1 : World, w1.files p = some n → w1.fault = w.fault →
      (if basename p = cs "/" ∨ basename p = [] then (-EINVAL, w1)
        else match rename w1 p (config.root ++ cs "/" ++ TRASH_DIR ++ cs "/" ++ basename p) with
          | .error e => (-e, w1)
          | .ok w2 => (0, w2)) = (rc, w2) →
      rc < 0 ∧ w2.files p = some n ∧ w2.fault = w.fault := by
    intro w1 hn1 hf1 hr
    split at hr
    · have h1 : -EINVAL = rc := congrArg Prod.fst hr
      have h2 : w1 = w2 := congrArg Prod.snd hr
      subst h2
      exact ⟨by rw [← h1]; decide, hn1, hf1⟩
    · cases hren : rename w1 p (config.root ++ cs "/" ++ TRASH_DIR ++ cs "/" ++ basename p) with
      | error e =>
        rw [hren] at hr
        simp only at hr
        have h1 : -e = rc := congrArg Prod.fst hr
        have h2 : w1 = w2 := congrArg Prod.snd hr
        subst h2
        have := rename_error_pos w1 p _ e hren
        exact ⟨by omega, hn1, hf1⟩
      | ok w3 =>
        rw [hren] at hr
        simp only at hr
        exact absurd (congrArg Prod.fst hr).symm hrc
  cases hmk : mkdir w (config.root ++ cs "/" ++ TRASH_DIR) 488 with
  | error e =>
    rw [hmk] at h
    simp only at h
    by_cases he : e ≠ EEXIST
    · rw [if_pos he] at h
      simp only at h
      have h1 : -e = rc := congrArg Prod.fst h
      have h2 : w = w2 := congrArg Prod.snd h
      subst h2
      refine ⟨?_, hn, rfl⟩
      unfold mkdir at hmk
      split at hmk
      · rename_i e1 _
        cases hmk
        have := errno_code_pos e1
        omega
      · split at hmk
        · cases hmk; simp [EEXIST] at he
        · cases hmk
    · rw [if_neg he] at h
      exact key w hn rfl h
  | ok w1 =>
    rw [hmk] at h
    simp only at h
    obtain ⟨hnone, m, hw1⟩ := mkdir_ok w w1 _ _ hmk
    have hne : p ≠ config.root ++ cs "/" ++ TRASH_DIR := by
      intro hp
      rw [← hp, hn] at hnone
      cases hnone
    apply key w1 _ _ h
    · rw [hw1]
      show (if p = config.root ++ cs "/" ++ TRASH_DIR then some m else w.files p) = some n
      rw [if_neg hne, hn]
    · rw [hw1]; rfl

theorem unlink_error_keeps (w : World) (p : CStr) : ∀ e, unlink w p = .error e →
    ignore_failure w (unlink w p) = w := by
  intro e h
  rw [h]
  rfl

/-- The branch of a directory leaves `p_attrs_old` as it was. -/
theorem recover_dir_attrs (env : Env) (renv : recover_env) (w : World) (p_old_id : entry_id_t)
    (p_attrs_old : attr_set_t) (guess : Option CStr) (bkinfo : Option stat_t)
    (c : recover_ctx)
    (h : recover_dir env renv w p_old_id p_attrs_old guess bkinfo = .ok c) :
    c.attrs_old = p_attrs_old := by
  unfold recover_dir at h
  simp only at h
  split at h
  · cases h
  · split at h
    · cases h
    · cases h; rfl

/-- The branch of a non-directory leaves in `p_attrs_old` the result of the merge. -/
theorem recover_nondir_attrs (env : Env) (renv : recover_env) (w : World)
    (p_old_id : entry_id_t) (p_attrs_old : attr_set_t) (guess : Option CStr)
    (bkinfo : Option stat_t) (c : recover_ctx)
    (h : recover_nondir env renv w p_old_id p_attrs_old guess bkinfo = .ok c) :
    ∃ attr_bk, c.attrs_old = renv.ListMgr_MergeAttrSets p_attrs_old attr_bk false := by
  unfold recover_nondir at h
  simp only at h
  split at h
  · split at h <;> cases h
  · rename_i st_bk _
    refine ⟨PosixStat2EntryAttr env.uid2str env.gid2str st_bk
      { attr_mask := {}, attr_values := renv.attr_bk_values } true, ?_⟩
    split at h
    · cases h
    · split at h
      · cases h
      · split at h
        · cases h
        · split at h
          · cases h
          · split at h
            · cases h
            · split at h
              · cases h
              · cases h; rfl

/-- When the size and the modification time are cataloged and the merge keeps what is
set, they are still set, with the same values, once the entry is restored. -/
theorem recover_restore_attrs (env : Env) (renv : recover_env) (w : World)
    (p_old_id : entry_id_t) (p_attrs_old : attr_set_t) (bkinfo : Option stat_t)
    (c : recover_ctx) (hmerge : merge_keeps_set renv.ListMgr_MergeAttrSets)
    (hsize : p_attrs_old.attr_mask.size = true)
    (hmod : p_attrs_old.attr_mask.last_mod = true)
    (h : recover_restore env renv w p_old_id p_attrs_old bkinfo = .ok c) :
    c.attrs_old.attr_mask.size = true ∧
    c.attrs_old.attr_values.size = p_attrs_old.attr_values.size ∧
    c.attrs_old.attr_mask.last_mod = true ∧
    c.attrs_old.attr_values.last_mod = p_attrs_old.attr_values.last_mod := by
  unfold recover_restore at h
  split at h
  · cases h
  · simp only at h
    split at h
    · cases h
    · split at h
      · cases h
      · rename_i c0 hc0
        cases h
        have hkeep : (recover_owner renv c0).attrs_old = c0.attrs_old := by
          unfold recover_owner
          simp only
          split <;> rfl
        rw [hkeep]
        split at hc0
        · rw [recover_dir_attrs env renv w p_old_id p_attrs_old _ bkinfo c0 hc0]
          exact ⟨hsize, rfl, hmod, rfl⟩
        · obtain ⟨attr_bk, hbk⟩ :=
            recover_nondir_attrs env renv w p_old_id p_attrs_old _ bkinfo c0 hc0
          rw [hbk]
          obtain ⟨h1, h2⟩ := hmerge p_attrs_old attr_bk
          exact ⟨(h1 hsize).1, (h1 hsize).2, (h2 hmod).1, (h2 hmod).2⟩

/-- The status that `recover_finish` returns once `lstat` gave the restored entry. -/
theorem recover_finish_status (env : Env) (renv : recover_env) (c : recover_ctx)
    (p_old_id p_new_id : entry_id_t) (p_attrs_new : attr_set_t) (st_dest : stat_t)
    (hstat : lstat c.w c.fspath = .ok st_dest) :
    (recover_finish env renv c p_old_id p_new_id p_attrs_new).1 = RS_ERROR ∨
    (recover_finish env renv c p_old_id p_new_id p_attrs_new).1 =
      (if recover_delta c.attrs_old st_dest then RS_DELTA else RS_OK) := by
  unfold recover_finish
  rw [hstat]
  simp only
  cases hdone : (recover_new_entry env renv c st_dest p_old_id p_new_id p_attrs_new).1
  · left; simp
  · right
    by_cases hd : recover_delta c.attrs_old st_dest = true
    · simp [hd]
    · simp [hd]

/-- The sample merge keeps what is set. -/
theorem sample_merge_keeps : merge_keeps_set sample_merge := by
  intro tgt src
  constructor
  · intro h
    simp [sample_merge, h]
  · intro h
    simp [sample_merge, h]

theorem dec_digit_ne (d : Nat) (h : d < 10) : Char.ofNat (48 + d) ≠ 'J' := by
  interval_cases d <;> decide

theorem decAux_no_J (fuel n : Nat) (acc : CStr) (hacc : 'J' ∉ acc) :
    'J' ∉ decAux fuel n acc := by
  induction fuel generalizing n acc with
  | zero => simpa [decAux] using hacc
  | succ k ih =>
    unfold decAux
    split
    · rename_i h10
      intro hc
      rcases List.mem_cons.mp hc with h | h
      · exact dec_digit_ne n h10 h.symm
      · exact hacc h
    · apply ih
      intro hc
      rcases List.mem_cons.mp hc with h | h
      · exact dec_digit_ne (n % 10) (Nat.mod_lt _ (by decide)) h.symm
      · exact hacc h

theorem dec_no_J (n : Nat) : 'J' ∉ dec n :=
  decAux_no_J (n + 1) n [] (by simp)

theorem iterator_limit_no_J (p_opt : Option lmgr_iter_opt_t) : 'J' ∉ iterator_limit p_opt := by
  unfold iterator_limit
  cases p_opt with
  | none => simp
  | some opt =>
    simp only
    split
    · intro h
      rcases List.mem_append.mp h with h1 | h1
      · revert h1; decide
      · exact dec_no_J _ h1
    · simp

/-- A place where `LEFT JOIN` stands holds the letter `J` five characters further. -/
theorem isPrefixOf_left_join (t : CStr) (h : (cs "LEFT JOIN").isPrefixOf t = true) :
    'J' ∈ t.take 6 := by
  have e2 : cs "LEFT JOIN" = ['L', 'E', 'F', 'T', ' ', 'J', 'O', 'I', 'N'] := rfl
  rw [e2] at h
  obtain ⟨r, hr⟩ := List.isPrefixOf_iff_prefix.mp h
  rw [← hr]
  simp

/-- The part of a text whose letters hold no `J` can be skipped, when no `J` follows
within five characters. -/
theorem occurrences_skip (A B : CStr) (hA : 'J' ∉ A) (hB : 'J' ∉ B.take 5) :
    occurrences (cs "LEFT JOIN") (A ++ B) = occurrences (cs "LEFT JOIN") B := by
  induction A with
  | nil => rfl
  | cons a A ih =>
    have hA2 : 'J' ∉ A := fun h => hA (List.mem_cons_of_mem _ h)
    have hno : (cs "LEFT JOIN").isPrefixOf (a :: (A ++ B)) = false := by
      cases hp : (cs "LEFT JOIN").isPrefixOf (a :: (A ++ B)) with
      | false => rfl
      | true =>
        exfalso
        have hJ := isPrefixOf_left_join _ hp
        have hsplit : (a :: (A ++ B)).take 6 = (a :: A).take 6 ++ B.take (6 - (a :: A).length) := by
          rw [← List.cons_append, List.take_append_eq_append_take]
        rw [hsplit] at hJ
        rcases List.mem_append.mp hJ with h1 | h1
        · exact hA (List.mem_of_mem_take h1)
        · apply hB
          have hle : 6 - (a :: A).length ≤ 5 := by simp only [List.length_cons]; omega
          have : B.take (6 - (a :: A).length) = (B.take 5).take (6 - (a :: A).length) := by
            rw [List.take_take, Nat.min_eq_left hle]
          rw [this] at h1
          exact List.mem_of_mem_take h1
    show (if (cs "LEFT JOIN").isPrefixOf (a :: (A ++ B)) = true then 1 else 0)
      + occurrences (cs "LEFT JOIN") (A ++ B) = _
    rw [hno, ih hA2]
    simp

theorem occurrences_none (R : CStr) (hR : 'J' ∉ R) : occurrences (cs "LEFT JOIN") R = 0 := by
  have h := occurrences_skip R [] hR (by simp)
  rw [List.append_nil] at h
  rw [h]
  decide

/-- The request of a filter on the main table only, sorted on a directory attribute. -/
theorem iterator_query_main_dirattr {φ : Type} (e : listmgr_env φ) (flt : φ)
    (s : lmgr_sort_type_t) (p_opt : Option lmgr_iter_opt_t)
    (hsort : sorts_on_dirattr e s) (hmain : filters_main_only e flt) :
    iterator_query e (some flt) (some s) p_opt =
      some (dirattr_sorted_request e.MAIN_TABLE (e.dirattr2str s.attr_index)
        (iterator_locate_filters e flt).filter_str_main s.order p_opt) := by
  unfold sorts_on_dirattr at hsort
  have horder : s.order ≠ SORT_NONE := by
    intro h
    simp [iterator_sort_location, iterator_do_sort, h] at hsort
  obtain ⟨h1, h2, h3, h4, h5⟩ := hmain
  unfold iterator_query
  rw [hsort]
  simp only
  unfold iterator_request
  simp only
  unfold iterator_filtered_request
  generalize iterator_locate_filters e flt = f at h1 h2 h3 h4 h5 ⊢
  have hne : f.filter_main ≠ 0 := by omega
  have e4 :
      cs " as dirattr_sort FROM ENTRIES GROUP BY parent_id) as da ON id=da.parent_id" =
      cs " as dirattr_sort " ++
        cs "FROM ENTRIES GROUP BY parent_id) as da ON id=da.parent_id" := rfl
  unfold dirattr_sorted_request
  rw [e4]
  simp [h2, h3, h4, h5, hne, append_dir_req, append_dir_req_none, iterator_order_by, horder,
    sort_attr_index]

/-- One turn of the loop of `gcd` on two positive values keeps the first one positive,
makes the sum smaller and keeps the greatest common divisor. -/
theorem gcd_body_spec (a b : Nat) (ha : 0 < a) (hb : 0 < b) :
    0 < (gcd_body a b).1 ∧ (gcd_body a b).1 ≤ a ∧ (gcd_body a b).2 ≤ b ∧
    (gcd_body a b).1 + (gcd_body a b).2 < a + b ∧
    Nat.gcd (gcd_body a b).1 (gcd_body a b).2 = Nat.gcd a b := by
  unfold gcd_body
  simp only
  generalize ha1 : (if a > b then a - b else a) = a1
  have hA : 0 < a1 ∧ a1 ≤ a ∧ Nat.gcd a1 b = Nat.gcd a b ∧ (a1 < a ∨ a1 ≤ b) := by
    rw [← ha1]
    by_cases h : a > b
    · rw [if_pos h]
      exact ⟨by omega, by omega, Nat.gcd_sub_self_left (le_of_lt h), Or.inl (by omega)⟩
    · rw [if_neg h]
      exact ⟨ha, le_refl _, rfl, Or.inr (by omega)⟩
  obtain ⟨hA1, hA2, hA3, hA4⟩ := hA
  generalize hb1 : (if a1 < b then b - a1 else b) = b1
  have hB : b1 ≤ b ∧ Nat.gcd a1 b1 = Nat.gcd a b ∧
      (a1 + b1 < a + b ∨ a1 = b1) := by
    rw [← hb1]
    by_cases h : a1 < b
    · rw [if_pos h]
      refine ⟨by omega, ?_, Or.inl (by omega)⟩
      rw [Nat.gcd_sub_self_right (le_of_lt h)]
      exact hA3
    · rw [if_neg h]
      refine ⟨le_refl _, hA3, ?_⟩
      rcases hA4 with h4 | h4
      · left; omega
      · right; omega
  obtain ⟨hB1, hB2, hB3⟩ := hB
  by_cases h3 : a1 = b1
  · rw [if_pos h3]
    refine ⟨hA1, hA2, by omega, by omega, ?_⟩
    rw [Nat.gcd_zero_right, ← hB2, ← h3, Nat.gcd_self]
  · rw [if_neg h3]
    refine ⟨hA1, hA2, hB1, ?_, hB2⟩
    rcases hB3 with h | h
    · exact h
    · exact absurd h h3

/-- Without overflow of the product, the loop of `gcd` ends within `a + b` turns on
the greatest common divisor. -/
theorem gcd_loop_correct (fuel : Nat) : ∀ a b : Nat, 0 < a → a * b < 2 ^ 32 →
    a + b ≤ fuel → gcd_loop fuel a b = some (Nat.gcd a b) := by
  induction fuel with
  | zero =>
    intro a b ha _ hf
    omega
  | succ n ih =>
    intro a b ha hprod hf
    unfold gcd_loop
    by_cases hb : b = 0
    · subst hb
      simp
    · have hb2 : 0 < b := Nat.pos_of_ne_zero hb
      have hne : (a * b) % 2 ^ 32 ≠ 0 := by
        rw [Nat.mod_eq_of_lt hprod]
        exact Nat.mul_ne_zero (by omega) hb
      rw [if_pos hne]
      obtain ⟨h1, h2, h3, h4, h5⟩ := gcd_body_spec a b ha hb2
      rw [ih _ _ h1 (lt_of_le_of_lt (Nat.mul_le_mul h2 h3) hprod) (by omega), h5]

/-- The function `gcd` returns the greatest common divisor when the product of its
arguments stays below `2 ^ 32`. -/
theorem gcd_no_overflow (x y : Nat) (hx : 0 < x) (hxy : x * y < 2 ^ 32) :
    gcd x y = some (Nat.gcd x y) :=
  gcd_loop_correct (x + y) x y hx hxy (le_refl _)

theorem same_elsewhere_refl (db : stripe_db) (pk : Nat) : same_elsewhere db db pk :=
  fun _ _ => ⟨rfl, rfl⟩

theorem same_elsewhere_trans (db db1 db2 : stripe_db) (pk : Nat)
    (h1 : same_elsewhere db db1 pk) (h2 : same_elsewhere db1 db2 pk) :
    same_elsewhere db db2 pk := by
  intro id hid
  exact ⟨(h2 id hid).1.trans (h1 id hid).1, (h2 id hid).2.trans (h1 id hid).2⟩

theorem db_apply_insert_info_exists (db : stripe_db) (pk : Nat) (row : stripe_info_row)
    (h : (db.STRIPE_INFO pk).isSome = true) :
    db_apply db (.insert_info pk row) = (DB_ALREADY_EXISTS, db) := by
  simp only [db_apply]
  rw [if_pos h]

theorem db_apply_insert_info_new (db : stripe_db) (pk : Nat) (row : stripe_info_row)
    (h : ¬ (db.STRIPE_INFO pk).isSome = true) :
    db_apply db (.insert_info pk row) =
      (DB_SUCCESS,
        { db with STRIPE_INFO := fun id => if id = pk then some row else db.STRIPE_INFO id }) := by
  simp only [db_apply]
  rw [if_neg h]

theorem db_apply_insert_items_exists (db : stripe_db) (pk : Nat) (rows : List stripe_items_row)
    (h : rows.any (fun r => (db.STRIPE_ITEMS pk).any
      (fun q => q.stripe_index = r.stripe_index)) = true) :
    db_apply db (.insert_items pk rows) = (DB_ALREADY_EXISTS, db) := by
  simp only [db_apply]
  rw [if_pos h]

theorem db_apply_insert_items_new (db : stripe_db) (pk : Nat) (rows : List stripe_items_row)
    (h : ¬ rows.any (fun r => (db.STRIPE_ITEMS pk).any
      (fun q => q.stripe_index = r.stripe_index)) = true) :
    db_apply db (.insert_items pk rows) =
      (DB_SUCCESS,
        { db with STRIPE_ITEMS := fun id =>
            if id = pk then db.STRIPE_ITEMS pk ++ rows else db.STRIPE_ITEMS id }) := by
  simp only [db_apply]
  rw [if_neg h]

/-- A statement changes the rows of its own id only. -/
theorem db_apply_elsewhere (db : stripe_db) (stmt : stripe_stmt) :
    same_elsewhere db (db_apply db stmt).2 stmt.pk := by
  intro id hid
  cases stmt with
  | delete_items pk =>
    have hne : id ≠ pk := hid
    simp [db_apply, hne]
  | delete_info pk =>
    have hne : id ≠ pk := hid
    simp [db_apply, hne]
  | insert_info pk row =>
    have hne : id ≠ pk := hid
    by_cases hcnd : (db.STRIPE_INFO pk).isSome = true
    · rw [db_apply_insert_info_exists db pk row hcnd]
      exact ⟨rfl, rfl⟩
    · rw [db_apply_insert_info_new db pk row hcnd]
      simp [hne]
  | insert_items pk rows =>
    have hne : id ≠ pk := hid
    by_cases hcnd : rows.any (fun r => (db.STRIPE_ITEMS pk).any
        (fun q => q.stripe_index = r.stripe_index)) = true
    · rw [db_apply_insert_items_exists db pk rows hcnd]
      exact ⟨rfl, rfl⟩
    · rw [db_apply_insert_items_new db pk rows hcnd]
      simp [hne]

/-- A statement that is applied and fails changes no row. -/
theorem db_apply_fail (db : stripe_db) (stmt : stripe_stmt)
    (hne : (db_apply db stmt).1 ≠ DB_SUCCESS) : (db_apply db stmt).2 = db := by
  cases stmt with
  | delete_items pk => exact absurd rfl hne
  | delete_info pk => exact absurd rfl hne
  | insert_info pk row =>
    by_cases hcnd : (db.STRIPE_INFO pk).isSome = true
    · rw [db_apply_insert_info_exists db pk row hcnd]
    · rw [db_apply_insert_info_new db pk row hcnd] at hne
      exact absurd rfl hne
  | insert_items pk rows =>
    by_cases hcnd : rows.any (fun r => (db.STRIPE_ITEMS pk).any
        (fun q => q.stripe_index = r.stripe_index)) = true
    · rw [db_apply_insert_items_exists db pk rows hcnd]
    · rw [db_apply_insert_items_new db pk rows hcnd] at hne
      exact absurd rfl hne

/-- A statement that fails changes no row. -/
theorem db_exec_sql_fail (db : stripe_db) (stmt : stripe_stmt)
    (h : (db_exec_sql db stmt).1 ≠ DB_SUCCESS) :
    (db_exec_sql db stmt).2.STRIPE_INFO = db.STRIPE_INFO ∧
    (db_exec_sql db stmt).2.STRIPE_ITEMS = db.STRIPE_ITEMS := by
  have happly : (db_apply { db with executed := db.executed + 1 } stmt).1 ≠ DB_SUCCESS →
      (db_apply { db with executed := db.executed + 1 } stmt).2.STRIPE_INFO = db.STRIPE_INFO ∧
      (db_apply { db with executed := db.executed + 1 } stmt).2.STRIPE_ITEMS
        = db.STRIPE_ITEMS := by
    intro hne
    rw [db_apply_fail _ stmt hne]
    exact ⟨rfl, rfl⟩
  unfold db_exec_sql at h ⊢
  simp only at h ⊢
  cases hf : db.fault db.executed with
  | none =>
    rw [hf] at h
    exact happly h
  | some rc =>
    rw [hf] at h
    simp only at h ⊢
    by_cases hrc : rc = DB_SUCCESS
    · rw [if_pos hrc] at h ⊢
      exact happly h
    · rw [if_neg hrc]
      exact ⟨rfl, rfl⟩

/-- A statement that succeeds was applied. -/
theorem db_exec_sql_ok (db : stripe_db) (stmt : stripe_stmt)
    (h : (db_exec_sql db stmt).1 = DB_SUCCESS) :
    db_exec_sql db stmt = db_apply { db with executed := db.executed + 1 } stmt := by
  unfold db_exec_sql at h ⊢
  simp only at h ⊢
  cases hf : db.fault db.executed with
  | none => rfl
  | some rc =>
    rw [hf] at h
    simp only at h ⊢
    by_cases hrc : rc = DB_SUCCESS
    · rw [if_pos hrc]
    · rw [if_neg hrc] at h
      exact absurd h hrc

theorem db_exec_sql_elsewhere (db : stripe_db) (stmt : stripe_stmt) :
    same_elsewhere db (db_exec_sql db stmt).2 stmt.pk := by
  by_cases h : (db_exec_sql db stmt).1 = DB_SUCCESS
  · rw [db_exec_sql_ok db stmt h]
    exact db_apply_elsewhere { db with executed := db.executed + 1 } stmt
  · obtain ⟨h1, h2⟩ := db_exec_sql_fail db stmt h
    intro id _
    rw [h1, h2]
    exact ⟨rfl, rfl⟩

/-- What `delete_stripe_info` leaves: the rows of the other ids, a consistent state,
and no row of the id when it succeeds. -/
theorem delete_stripe_info_spec (db : stripe_db) (pk : Nat) :
    same_elsewhere db (delete_stripe_info db pk).2 pk ∧
    (stripe_consistent db pk → stripe_consistent (delete_stripe_info db pk).2 pk) ∧
    ((delete_stripe_info db pk).1 = DB_SUCCESS →
      (delete_stripe_info db pk).2.STRIPE_INFO pk = none ∧
      (delete_stripe_info db pk).2.STRIPE_ITEMS pk = []) := by
  unfold delete_stripe_info
  simp only
  have e1 := db_exec_sql_elsewhere db (.delete_items pk)
  by_cases h1 : (db_exec_sql db (.delete_items pk)).1 = DB_SUCCESS
  · have hne1 : ¬ (db_exec_sql db (.delete_items pk)).1 ≠ DB_SUCCESS := fun h => h h1
    rw [if_neg hne1]
    have ha1 := db_exec_sql_ok db (.delete_items pk) h1
    have hitems : (db_exec_sql db (.delete_items pk)).2.STRIPE_ITEMS pk = [] := by
      rw [ha1]; simp [db_apply]
    have e2 := db_exec_sql_elsewhere (db_exec_sql db (.delete_items pk)).2 (.delete_info pk)
    by_cases h2 : (db_exec_sql (db_exec_sql db (.delete_items pk)).2 (.delete_info pk)).1
        = DB_SUCCESS
    · have hne2 : ¬ (db_exec_sql (db_exec_sql db (.delete_items pk)).2 (.delete_info pk)).1
          ≠ DB_SUCCESS := fun h => h h2
      rw [if_neg hne2]
      have ha2 := db_exec_sql_ok (db_exec_sql db (.delete_items pk)).2 (.delete_info pk) h2
      have hinfo : (db_exec_sql (db_exec_sql db (.delete_items pk)).2
          (.delete_info pk)).2.STRIPE_INFO pk = none := by
        rw [ha2]; simp [db_apply]
      have hitems2 : (db_exec_sql (db_exec_sql db (.delete_items pk)).2
          (.delete_info pk)).2.STRIPE_ITEMS pk = [] := by
        rw [ha2]; simpa [db_apply] using hitems
      exact ⟨same_elsewhere_trans _ _ _ pk e1 e2, fun _ _ => hitems2, fun _ => ⟨hinfo, hitems2⟩⟩
    · rw [if_pos h2]
      obtain ⟨_, f2⟩ := db_exec_sql_fail _ _ h2
      have hitems2 : (db_exec_sql (db_exec_sql db (.delete_items pk)).2
          (.delete_info pk)).2.STRIPE_ITEMS pk = [] := by
        rw [f2]; exact hitems
      exact ⟨same_elsewhere_trans _ _ _ pk e1 e2, fun _ _ => hitems2,
        fun h => absurd h h2⟩
  · rw [if_pos h1]
    obtain ⟨f1, f2⟩ := db_exec_sql_fail _ _ h1
    refine ⟨e1, ?_, fun h => absurd h h1⟩
    intro hc
    unfold stripe_consistent at hc ⊢
    rw [f1, f2]
    exact hc

/-- What `insert_stripe_info` without `update_if_exists` does on a consistent state:
it returns, leaves the rows of the other ids, and when it succeeds the rows of the
id are the new ones. -/
theorem insert_stripe_info_spec (env : stripe_env) (fuel : Nat) (db : stripe_db) (pk : Nat)
    (validator : Int) (stripe : stripe_info_t) (p_items : Option (List stripe_item_t))
    (hc : stripe_consistent db pk) :
    ∃ rc db2,
      insert_stripe_info env (fuel + 1) db pk validator (some stripe) p_items false
        = some (rc, db2) ∧
      same_elsewhere db db2 pk ∧
      (rc = DB_SUCCESS → stripe_rows_of db2 pk = new_stripe_rows validator stripe p_items) := by
  unfold insert_stripe_info
  simp only
  unfold insert_info_loop
  simp only
  have e1 := db_exec_sql_elsewhere db
    (.insert_info pk { validator := validator, stripe := stripe })
  by_cases h1 : (db_exec_sql db
      (.insert_info pk { validator := validator, stripe := stripe })).1 = DB_SUCCESS
  · rw [if_pos h1]
    simp only [ne_eq, not_true_eq_false, if_false]
    have ha1 := db_exec_sql_ok db _ h1
    -- the row of the id was absent, so there was no item
    have hnew : ¬ (db.STRIPE_INFO pk).isSome = true := by
      intro hs
      rw [ha1, db_apply_insert_info_exists { db with executed := db.executed + 1 } pk _ hs] at h1
      simp at h1
    have habs : db.STRIPE_INFO pk = none := by
      cases hi : db.STRIPE_INFO pk with
      | none => rfl
      | some r => rw [hi] at hnew; exact absurd rfl hnew
    have hinfo : (db_exec_sql db
        (.insert_info pk { validator := validator, stripe := stripe })).2.STRIPE_INFO pk
        = some { validator := validator, stripe := stripe } := by
      rw [ha1, db_apply_insert_info_new { db with executed := db.executed + 1 } pk _ hnew]
      simp
    have hitems : (db_exec_sql db
        (.insert_info pk { validator := validator, stripe := stripe })).2.STRIPE_ITEMS pk
        = [] := by
      rw [ha1, db_apply_insert_info_new { db with executed := db.executed + 1 } pk _ hnew]
      exact hc habs
    generalize (db_exec_sql db
      (.insert_info pk { validator := validator, stripe := stripe })).2 = db1 at e1 hinfo hitems ⊢
    cases p_items with
    | none =>
      refine ⟨_, _, rfl, e1, fun _ => ?_⟩
      simp [stripe_rows_of, new_stripe_rows, hinfo, hitems]
    | some items =>
      cases items with
      | nil =>
        refine ⟨_, _, rfl, e1, fun _ => ?_⟩
        simp [stripe_rows_of, new_stripe_rows, hinfo, hitems, stripe_rows]
      | cons first next =>
        simp only
        split
        · exact ⟨_, _, rfl, e1, fun h => absurd h (by decide)⟩
        · split
          · exact ⟨_, _, rfl, e1, fun h => absurd h (by decide)⟩
          · have e2 := db_exec_sql_elsewhere db1
              (.insert_items pk (stripe_rows (first :: next)))
            by_cases h2 : (db_exec_sql db1
                (.insert_items pk (stripe_rows (first :: next)))).1 = DB_SUCCESS
            · have hne2 : ¬ (db_exec_sql db1
                  (.insert_items pk (stripe_rows (first :: next)))).1 ≠ DB_SUCCESS :=
                fun h => h h2
              rw [if_neg hne2]
              refine ⟨_, _, rfl, same_elsewhere_trans _ _ _ pk e1 e2, fun _ => ?_⟩
              have ha2 := db_exec_sql_ok db1 _ h2
              have hfree : ¬ (stripe_rows (first :: next)).any
                  (fun r => (({ db1 with executed := db1.executed + 1 } : stripe_db).STRIPE_ITEMS
                    pk).any (fun q => q.stripe_index = r.stripe_index)) = true := by
                show ¬ (stripe_rows (first :: next)).any
                  (fun r => (db1.STRIPE_ITEMS pk).any
                    (fun q => q.stripe_index = r.stripe_index)) = true
                rw [hitems]
                simp
              rw [ha2, db_apply_insert_items_new _ pk _ hfree]
              simp [stripe_rows_of, new_stripe_rows, hinfo, hitems]
            · rw [if_pos h2]
              exact ⟨_, _, rfl, same_elsewhere_trans _ _ _ pk e1 e2, fun h => absurd h h2⟩
  · rw [if_neg h1]
    have hcond : ¬ ((db_exec_sql db
        (.insert_info pk { validator := validator, stripe := stripe })).1 = DB_ALREADY_EXISTS
        ∧ false = true) := fun h => absurd h.2 (by decide)
    rw [if_neg hcond]
    simp only
    rw [if_pos h1]
    simp only
    rw [if_pos h1]
    exact ⟨_, _, rfl, e1, fun h => absurd h h1⟩

theorem registered_append (t1 t2 : List id_event) :
    registered (t1 ++ t2) = registered t1 ++ registered t2 := by
  unfold registered
  rw [List.filterMap_append]

theorem arrivals_append (t1 t2 : List id_event) (id : entry_id_t) :
    arrivals (t1 ++ t2) id = arrivals t1 id ++ arrivals t2 id := by
  unfold arrivals
  rw [registered_append, List.filter_append]

theorem arrivals_subset (trace : List id_event) (id : entry_id_t) (o : entry_proc_op_t)
    (h : o ∈ arrivals trace id) : o ∈ registered trace :=
  (List.mem_filter.mp h).1

/-- One call keeps the agreement of the state with the trace, when a registered
operation was not registered before. -/
theorem id_agrees_step (pre : List id_event) (s : id_constraint_t) (e : id_event)
    (hfresh : ∀ o a, e = .register o a → o ∉ registered pre)
    (h : id_agrees pre s) : id_agrees (pre ++ [e]) (id_step s e) := by
  intro id
  obtain ⟨removed, hrem, hq⟩ := h id
  have hrem2 : ∀ o ∈ removed, o ∈ arrivals (pre ++ [e]) id ∧
      id_event.unregister o ∈ pre ++ [e] := by
    intro o ho
    refine ⟨?_, List.mem_append_left _ (hrem o ho).2⟩
    rw [arrivals_append]
    exact List.mem_append_left _ (hrem o ho).1
  cases e with
  | register p_op at_head =>
    have hnew : p_op ∉ registered pre := hfresh p_op at_head rfl
    have hnr : p_op ∉ removed := fun hm => hnew (arrivals_subset pre id p_op (hrem p_op hm).1)
    cases hid : p_op.entry_id with
    | none =>
      refine ⟨removed, hrem2, ?_⟩
      have hs : id_step s (.register p_op at_head) = s := by
        simp [id_step, id_constraint_register, hid]
      have ha : arrivals [id_event.register p_op at_head] id = [] := by
        simp [arrivals, registered, hid]
      rw [hs, arrivals_append, ha, List.append_nil]
      exact hq
    | some id0 =>
      by_cases hi : id = id0
      · subst hi
        refine ⟨removed, hrem2, ?_⟩
        have hs : (id_step s (.register p_op at_head)).queue id = s.queue id ++ [p_op] := by
          simp [id_step, id_constraint_register, hid]
        have ha : arrivals [id_event.register p_op at_head] id = [p_op] := by
          simp [arrivals, registered, hid]
        rw [hs, arrivals_append, ha, List.filter_append, hq]
        simp [hnr]
      · refine ⟨removed, hrem2, ?_⟩
        have hs : (id_step s (.register p_op at_head)).queue id = s.queue id := by
          simp [id_step, id_constraint_register, hid, hi]
        have hne : ¬ (some id0 = some id) := fun h => hi (Option.some.inj h).symm
        have ha : arrivals [id_event.register p_op at_head] id = [] := by
          simp [arrivals, registered, hid, hne]
        rw [hs, arrivals_append, ha, List.append_nil]
        exact hq
  | unregister p_op =>
    have ha : arrivals [id_event.unregister p_op] id = [] := by
      simp [arrivals, registered]
    cases hid : p_op.entry_id with
    | none =>
      refine ⟨removed, hrem2, ?_⟩
      have hs : id_step s (.unregister p_op) = s := by
        simp [id_step, id_constraint_unregister, hid]
      rw [hs, arrivals_append, ha, List.append_nil]
      exact hq
    | some id0 =>
      by_cases hi : id = id0
      · subst hi
        have hs : (id_step s (.unregister p_op)).queue id
            = (s.queue id).filter (fun o => decide (o ≠ p_op)) := by
          simp [id_step, id_constraint_unregister, hid]
        by_cases hin : p_op ∈ s.queue id
        · refine ⟨p_op :: removed, ?_, ?_⟩
          · intro o ho
            rcases List.mem_cons.mp ho with h1 | h1
            · subst h1
              refine ⟨?_, List.mem_append_right _ (List.mem_singleton.mpr rfl)⟩
              rw [arrivals_append]
              apply List.mem_append_left
              rw [hq] at hin
              exact (List.mem_filter.mp hin).1
            · exact hrem2 o h1
          · rw [hs, arrivals_append, ha, List.append_nil, hq, List.filter_filter]
            apply List.filter_congr
            intro o _
            simp [List.mem_cons, not_or]
        · refine ⟨removed, hrem2, ?_⟩
          have hsame : (s.queue id).filter (fun o => decide (o ≠ p_op)) = s.queue id := by
            apply List.filter_eq_self.mpr
            intro o ho
            have : o ≠ p_op := fun h => hin (h ▸ ho)
            simp [this]
          rw [hs, hsame, arrivals_append, ha, List.append_nil]
          exact hq
      · refine ⟨removed, hrem2, ?_⟩
        have hs : (id_step s (.unregister p_op)).queue id = s.queue id := by
          simp [id_step, id_constraint_unregister, hid, hi]
        rw [hs, arrivals_append, ha, List.append_nil]
        exact hq

/-- The calls of a trace keep the agreement, when no operation is registered twice. -/
theorem id_agrees_foldl (trace : List id_event) : ∀ (pre : List id_event)
    (s : id_constraint_t), (registered (pre ++ trace)).Nodup → id_agrees pre s →
    id_agrees (pre ++ trace) (trace.foldl id_step s) := by
  induction trace with
  | nil =>
    intro pre s _ h
    rw [List.append_nil]
    exact h
  | cons e rest ih =>
    intro pre s hnd h
    have happ : pre ++ e :: rest = (pre ++ [e]) ++ rest := by simp
    rw [happ] at hnd ⊢
    apply ih (pre ++ [e]) (id_step s e) hnd
    apply id_agrees_step pre s e _ h
    intro o a he
    subst he
    rw [registered_append, registered_append] at hnd
    have hnd2 := (List.nodup_append.mp (List.nodup_append.mp hnd).1)
    intro hmem
    exact hnd2.2.2 hmem (by simp [registered])

/-- The state that a trace reaches agrees with the trace. -/
theorem id_agrees_run (trace : List id_event) (hnd : (registered trace).Nodup) :
    id_agrees trace (id_run trace) := by
  have h := id_agrees_foldl trace [] id_constraint_init (by simpa using hnd)
    (fun id => ⟨[], by simp, by simp [id_constraint_init, arrivals, registered]⟩)
  simpa [id_run] using h

set_option maxRecDepth 100000 in
/-- The macros on the wait status of an exit. -/
theorem wait_status_exited : ∀ status : Nat, status < 256 →
    WIFEXITED (wait_status (.exited status)) = true ∧
    WEXITSTATUS (wait_status (.exited status)) = status := by
  decide

set_option maxRecDepth 100000 in
/-- The macros on the wait status of a termination by a signal. -/
theorem wait_status_killed : ∀ sig : Nat, ∀ core : Bool, 0 < sig → sig < 127 →
    WIFEXITED (wait_status (.killed sig core)) = false ∧
    WIFSIGNALED (wait_status (.killed sig core)) = true := by
  have h : ∀ sig : Nat, sig < 127 → ∀ core : Bool, 0 < sig →
      WIFEXITED (wait_status (.killed sig core)) = false ∧
      WIFSIGNALED (wait_status (.killed sig core)) = true := by
    decide
  intro sig core h0 h1
  exact h sig h1 core h0

theorem db_apply_fault (db : stripe_db) (stmt : stripe_stmt) :
    (db_apply db stmt).2.fault = db.fault := by
  cases stmt with
  | delete_items pk => rfl
  | delete_info pk => rfl
  | insert_info pk row =>
    by_cases hcnd : (db.STRIPE_INFO pk).isSome = true
    · rw [db_apply_insert_info_exists db pk row hcnd]
    · rw [db_apply_insert_info_new db pk row hcnd]
  | insert_items pk rows =>
    by_cases hcnd : rows.any (fun r => (db.STRIPE_ITEMS pk).any
        (fun q => q.stripe_index = r.stripe_index)) = true
    · rw [db_apply_insert_items_exists db pk rows hcnd]
    · rw [db_apply_insert_items_new db pk rows hcnd]

theorem db_exec_sql_fault (db : stripe_db) (stmt : stripe_stmt) :
    (db_exec_sql db stmt).2.fault = db.fault := by
  unfold db_exec_sql
  simp only
  cases hf : db.fault db.executed with
  | none => exact db_apply_fault _ stmt
  | some rc =>
    simp only
    by_cases hrc : rc = DB_SUCCESS
    · rw [if_pos hrc]; exact db_apply_fault _ stmt
    · rw [if_neg hrc]

/-- A statement without injected failure is applied. -/
theorem db_exec_sql_nofault (db : stripe_db) (stmt : stripe_stmt)
    (h : ∀ k, db.fault k = none) :
    db_exec_sql db stmt = db_apply { db with executed := db.executed + 1 } stmt := by
  unfold db_exec_sql
  simp only
  rw [h db.executed]

/-- After `delete_stripe_info` the rows of the id are the old ones (the first deletion
failed), the old row of `STRIPE_INFO` without items (the second failed) or none; with
no injected failure it succeeds. -/
theorem delete_stripe_info_rows (db : stripe_db) (pk : Nat) :
    (delete_stripe_info db pk).2.fault = db.fault ∧
    (stripe_rows_of (delete_stripe_info db pk).2 pk = stripe_rows_of db pk ∨
     stripe_rows_of (delete_stripe_info db pk).2 pk = (db.STRIPE_INFO pk, []) ∨
     stripe_rows_of (delete_stripe_info db pk).2 pk = (none, [])) ∧
    ((∀ k, db.fault k = none) → (delete_stripe_info db pk).1 = DB_SUCCESS) := by
  unfold delete_stripe_info
  simp only
  have hf1 := db_exec_sql_fault db (.delete_items pk)
  by_cases h1 : (db_exec_sql db (.delete_items pk)).1 = DB_SUCCESS
  · have hne1 : ¬ (db_exec_sql db (.delete_items pk)).1 ≠ DB_SUCCESS := fun h => h h1
    rw [if_neg hne1]
    have ha1 := db_exec_sql_ok db (.delete_items pk) h1
    have hitems : (db_exec_sql db (.delete_items pk)).2.STRIPE_ITEMS pk = [] := by
      rw [ha1]; simp [db_apply]
    have hinfo : (db_exec_sql db (.delete_items pk)).2.STRIPE_INFO pk = db.STRIPE_INFO pk := by
      rw [ha1]; simp [db_apply]
    have hf2 := db_exec_sql_fault (db_exec_sql db (.delete_items pk)).2 (.delete_info pk)
    by_cases h2 : (db_exec_sql (db_exec_sql db (.delete_items pk)).2 (.delete_info pk)).1
        = DB_SUCCESS
    · have hne2 : ¬ (db_exec_sql (db_exec_sql db (.delete_items pk)).2 (.delete_info pk)).1
          ≠ DB_SUCCESS := fun h => h h2
      rw [if_neg hne2]
      have ha2 := db_exec_sql_ok (db_exec_sql db (.delete_items pk)).2 (.delete_info pk) h2
      have hinfo2 : (db_exec_sql (db_exec_sql db (.delete_items pk)).2
          (.delete_info pk)).2.STRIPE_INFO pk = none := by
        rw [ha2]; simp [db_apply]
      have hitems2 : (db_exec_sql (db_exec_sql db (.delete_items pk)).2
          (.delete_info pk)).2.STRIPE_ITEMS pk = [] := by
        rw [ha2]; simpa [db_apply] using hitems
      refine ⟨hf2.trans hf1, Or.inr (Or.inr ?_), fun _ => rfl⟩
      simp [stripe_rows_of, hinfo2, hitems2]
    · rw [if_pos h2]
      obtain ⟨f1, f2⟩ := db_exec_sql_fail _ _ h2
      refine ⟨hf2.trans hf1, Or.inr (Or.inl ?_), fun hno => ?_⟩
      · simp [stripe_rows_of, f1, f2, hinfo, hitems]
      · exfalso
        apply h2
        rw [db_exec_sql_nofault _ _ (fun k => by rw [hf1]; exact hno k)]
        rfl
  · rw [if_pos h1]
    obtain ⟨f1, f2⟩ := db_exec_sql_fail _ _ h1
    refine ⟨hf1, Or.inl ?_, fun hno => ?_⟩
    · simp [stripe_rows_of, f1, f2]
    · exfalso
      apply h1
      rw [db_exec_sql_nofault _ _ hno]
      rfl

/-- What `insert_stripe_info` without `update_if_exists` leaves on a consistent state
when it fails, and when it succeeds. -/
theorem insert_stripe_info_rows (env : stripe_env) (fuel : Nat) (db : stripe_db) (pk : Nat)
    (validator : Int) (stripe : stripe_info_t) (p_items : Option (List stripe_item_t))
    (hc : stripe_consistent db pk) (rc : db_rc_t) (db2 : stripe_db)
    (hrun : insert_stripe_info env (fuel + 1) db pk validator (some stripe) p_items false
      = some (rc, db2)) :
    (rc ≠ DB_SUCCESS →
      stripe_rows_of db2 pk = stripe_rows_of db pk ∨
      stripe_rows_of db2 pk = (some { validator := validator, stripe := stripe }, [])) ∧
    ((∀ k, db.fault k = none) → db.STRIPE_INFO pk = none → request_fits env pk p_items →
      rc = DB_SUCCESS) := by
  unfold insert_stripe_info at hrun
  simp only at hrun
  unfold insert_info_loop at hrun
  simp only at hrun
  have hf1 := db_exec_sql_fault db
    (.insert_info pk { validator := validator, stripe := stripe })
  by_cases h1 : (db_exec_sql db
      (.insert_info pk { validator := validator, stripe := stripe })).1 = DB_SUCCESS
  · rw [if_pos h1] at hrun
    simp only [ne_eq, not_true_eq_false, if_false] at hrun
    have ha1 := db_exec_sql_ok db _ h1
    have hnew : ¬ (db.STRIPE_INFO pk).isSome = true := by
      intro hs
      rw [ha1, db_apply_insert_info_exists { db with executed := db.executed + 1 } pk _ hs] at h1
      simp at h1
    have habs : db.STRIPE_INFO pk = none := by
      cases hi : db.STRIPE_INFO pk with
      | none => rfl
      | some r => rw [hi] at hnew; exact absurd rfl hnew
    have hinfo : (db_exec_sql db
        (.insert_info pk { validator := validator, stripe := stripe })).2.STRIPE_INFO pk
        = some { validator := validator, stripe := stripe } := by
      rw [ha1, db_apply_insert_info_new { db with executed := db.executed + 1 } pk _ hnew]
      simp
    have hitems : (db_exec_sql db
        (.insert_info pk { validator := validator, stripe := stripe })).2.STRIPE_ITEMS pk
        = [] := by
      rw [ha1, db_apply_insert_info_new { db with executed := db.executed + 1 } pk _ hnew]
      exact hc habs
    generalize (db_exec_sql db
      (.insert_info pk { validator := validator, stripe := stripe })).2 = db1
      at hf1 hinfo hitems hrun
    have hrows1 : stripe_rows_of db1 pk
        = (some { validator := validator, stripe := stripe }, []) := by
      simp [stripe_rows_of, hinfo, hitems]
    cases p_items with
    | none =>
      simp only [Option.some.injEq, Prod.mk.injEq] at hrun
      obtain ⟨hrc, hdb⟩ := hrun
      subst hrc; subst hdb
      exact ⟨fun h => absurd rfl h, fun _ _ _ => rfl⟩
    | some items =>
      cases items with
      | nil =>
        simp only [Option.some.injEq, Prod.mk.injEq] at hrun
        obtain ⟨hrc, hdb⟩ := hrun
        subst hrc; subst hdb
        exact ⟨fun h => absurd rfl h, fun _ _ _ => rfl⟩
      | cons first next =>
        simp only at hrun
        by_cases hmem : env.MemAlloc (128 + (first :: next).length *
            (128 + 2 * env.STRIPE_DETAIL_SZ)) = true
        · have hmem2 : ¬ ¬ env.MemAlloc (128 + (first :: next).length *
              (128 + 2 * env.STRIPE_DETAIL_SZ)) = true := fun h => h hmem
          rw [if_neg hmem2] at hrun
          by_cases hlong : items_query_too_long env pk
              (128 + (first :: next).length * (128 + 2 * env.STRIPE_DETAIL_SZ)) 1 next
              (env.head_len + env.row_len pk 0 first) = true
          · rw [if_pos hlong] at hrun
            simp only [Option.some.injEq, Prod.mk.injEq] at hrun
            obtain ⟨hrc, hdb⟩ := hrun
            subst hrc; subst hdb
            refine ⟨fun _ => Or.inr hrows1, fun _ _ hfit => ?_⟩
            have := hfit.2
            rw [hlong] at this
            cases this
          · rw [if_neg hlong] at hrun
            by_cases h2 : (db_exec_sql db1
                (.insert_items pk (stripe_rows (first :: next)))).1 = DB_SUCCESS
            · have hne2 : ¬ (db_exec_sql db1
                  (.insert_items pk (stripe_rows (first :: next)))).1 ≠ DB_SUCCESS :=
                fun h => h h2
              rw [if_neg hne2] at hrun
              simp only [Option.some.injEq, Prod.mk.injEq] at hrun
              obtain ⟨hrc, hdb⟩ := hrun
              subst hrc
              exact ⟨fun h => absurd rfl h, fun _ _ _ => rfl⟩
            · rw [if_pos h2] at hrun
              simp only [Option.some.injEq, Prod.mk.injEq] at hrun
              obtain ⟨hrc, hdb⟩ := hrun
              obtain ⟨f1, f2⟩ := db_exec_sql_fail _ _ h2
              refine ⟨fun _ => Or.inr ?_, fun hno _ _ => ?_⟩
              · rw [← hdb]
                simp [stripe_rows_of, f1, f2, hinfo, hitems]
              · exfalso
                apply h2
                rw [db_exec_sql_nofault _ _ (fun k => by rw [hf1]; exact hno k)]
                have hfree : ¬ (stripe_rows (first :: next)).any
                    (fun r => (({ db1 with executed := db1.executed + 1 } :
                      stripe_db).STRIPE_ITEMS pk).any
                      (fun q => q.stripe_index = r.stripe_index)) = true := by
                  show ¬ (stripe_rows (first :: next)).any
                    (fun r => (db1.STRIPE_ITEMS pk).any
                      (fun q => q.stripe_index = r.stripe_index)) = true
                  rw [hitems]
                  simp
                rw [db_apply_insert_items_new _ pk _ hfree]
        · rw [if_pos hmem] at hrun
          simp only [Option.some.injEq, Prod.mk.injEq] at hrun
          obtain ⟨hrc, hdb⟩ := hrun
          subst hrc; subst hdb
          refine ⟨fun _ => Or.inr hrows1, fun _ _ hfit => ?_⟩
          exact absurd hfit.1 hmem
  · rw [if_neg h1] at hrun
    have hcond : ¬ ((db_exec_sql db
        (.insert_info pk { validator := validator, stripe := stripe })).1 = DB_ALREADY_EXISTS
        ∧ false = true) := fun h => absurd h.2 (by decide)
    rw [if_neg hcond] at hrun
    simp only at hrun
    rw [if_pos h1] at hrun
    simp only at hrun
    rw [if_pos h1] at hrun
    simp only [Option.some.injEq, Prod.mk.injEq] at hrun
    obtain ⟨hrc, hdb⟩ := hrun
    obtain ⟨f1, f2⟩ := db_exec_sql_fail _ _ h1
    refine ⟨fun _ => Or.inl ?_, fun hno habs _ => ?_⟩
    · rw [← hdb]
      simp [stripe_rows_of, f1, f2]
    · exfalso
      apply h1
      rw [db_exec_sql_nofault _ _ hno]
      have hnew : ¬ (({ db with executed := db.executed + 1 } : stripe_db).STRIPE_INFO
          pk).isSome = true := by
        show ¬ (db.STRIPE_INFO pk).isSome = true
        rw [habs]
        simp
      rw [db_apply_insert_info_new _ pk _ hnew]

/-- The count of `LEFT JOIN` is additive where the second part starts with a blank that
no `J` follows: no `LEFT JOIN` lies across the cut. -/
theorem occurrences_before_blank (X : CStr) (c : Char) (Y : CStr) (hc : c ≠ 'J') :
    occurrences (cs "LEFT JOIN") (X ++ ' ' :: c :: Y) =
      occurrences (cs "LEFT JOIN") X + occurrences (cs "LEFT JOIN") (' ' :: c :: Y) := by
  have e2 : cs "LEFT JOIN" = ['L', 'E', 'F', 'T', ' ', 'J', 'O', 'I', 'N'] := rfl
  have hc2 : ('J' == c) = false := by
    cases h : ('J' == c) with
    | false => rfl
    | true => exact absurd (beq_iff_eq.mp h).symm hc
  induction X with
  | nil =>
    have h0 : occurrences (cs "LEFT JOIN") [] = 0 := by decide
    rw [h0]; simp
  | cons t X ih =>
    have hsame : (cs "LEFT JOIN").isPrefixOf ((t :: X) ++ ' ' :: c :: Y) =
        (cs "LEFT JOIN").isPrefixOf (t :: X) := by
      rw [e2]
      rcases X with _ | ⟨t2, _ | ⟨t3, _ | ⟨t4, _ | ⟨t5, _ | ⟨t6, _ | ⟨t7, _ | ⟨t8, _ | ⟨t9, X⟩⟩⟩⟩⟩⟩⟩⟩ <;>
        simp [List.isPrefixOf, hc2]
    show (if (cs "LEFT JOIN").isPrefixOf ((t :: X) ++ ' ' :: c :: Y) = true then 1 else 0)
      + occurrences (cs "LEFT JOIN") (X ++ ' ' :: c :: Y) = 
      ((if (cs "LEFT JOIN").isPrefixOf (t :: X) = true then 1 else 0)
      + occurrences (cs "LEFT JOIN") X) + _
    rw [hsame, ih]
    omega

/-- The count of `LEFT JOIN` is additive where the first part ends with a blank that
no `T` comes before: no `LEFT JOIN` lies across the cut. -/
theorem occurrences_after_blank (X : CStr) (d : Char) (Y : CStr) (hd : d ≠ 'T') :
    occurrences (cs "LEFT JOIN") ((X ++ [d, ' ']) ++ Y) =
      occurrences (cs "LEFT JOIN") (X ++ [d, ' ']) + occurrences (cs "LEFT JOIN") Y := by
  have e2 : cs "LEFT JOIN" = ['L', 'E', 'F', 'T', ' ', 'J', 'O', 'I', 'N'] := rfl
  have hd2 : ('T' == d) = false := by
    cases h : ('T' == d) with
    | false => rfl
    | true => exact absurd (beq_iff_eq.mp h).symm hd
  induction X with
  | nil =>
    rw [e2]
    simp [occurrences, List.isPrefixOf]
  | cons t X ih =>
    have hsame : (cs "LEFT JOIN").isPrefixOf (((t :: X) ++ [d, ' ']) ++ Y) =
        (cs "LEFT JOIN").isPrefixOf ((t :: X) ++ [d, ' ']) := by
      rw [e2]
      rcases X with _ | ⟨t2, _ | ⟨t3, _ | ⟨t4, _ | ⟨t5, _ | ⟨t6, _ | ⟨t7, _ | ⟨t8, _ | ⟨t9, X⟩⟩⟩⟩⟩⟩⟩⟩ <;>
        simp [List.isPrefixOf, hd2]
    show (if (cs "LEFT JOIN").isPrefixOf (((t :: X) ++ [d, ' ']) ++ Y) = true then 1 else 0)
      + occurrences (cs "LEFT JOIN") ((X ++ [d, ' ']) ++ Y) = 
      ((if (cs "LEFT JOIN").isPrefixOf ((t :: X) ++ [d, ' ']) = true then 1 else 0)
      + occurrences (cs "LEFT JOIN") (X ++ [d, ' '])) + _
    rw [hsame, ih]
    omega


set_option maxRecDepth 20000 in
/-- The number of `LEFT JOIN` in a request of the form that `append_dir_req` prints
for a sort on a directory attribute: the one of the format string and those of the
texts printed into it. -/
theorem occurrences_request (M S F T : CStr) (hT : 'J' ∉ T) :
    occurrences (cs "LEFT JOIN")
      (cs "SELECT id FROM " ++ (M ++ (cs " LEFT JOIN (SELECT parent_id, " ++ (S ++
        (cs " as dirattr_sort FROM ENTRIES GROUP BY parent_id) as da ON id=da.parent_id" ++
          (cs " WHERE " ++ (F ++ (cs " ORDER BY dirattr_sort " ++ T)))))))) =
      1 + occurrences (cs "LEFT JOIN") M + occurrences (cs "LEFT JOIN") S +
        occurrences (cs "LEFT JOIN") F := by
  have a1 : cs "SELECT id FROM " = cs "SELECT id FRO" ++ ['M', ' '] := rfl
  have a2 : cs " LEFT JOIN (SELECT parent_id, " =
      cs " LEFT JOIN (SELECT parent_id" ++ [',', ' '] := rfl
  have b2 : ∀ R : CStr, cs " LEFT JOIN (SELECT parent_id, " ++ R =
      ' ' :: 'L' :: (cs "EFT JOIN (SELECT parent_id, " ++ R) := fun _ => rfl
  have a3 : ∀ R : CStr,
      cs " as dirattr_sort FROM ENTRIES GROUP BY parent_id) as da ON id=da.parent_id" ++
        (cs " WHERE " ++ R) =
      (cs " as dirattr_sort FROM ENTRIES GROUP BY parent_id) as da ON id=da.parent_id WHER"
        ++ ['E', ' ']) ++ R := by
    intro R
    rw [← List.append_assoc]
    rfl
  have b3 : ∀ R : CStr,
      (cs " as dirattr_sort FROM ENTRIES GROUP BY parent_id) as da ON id=da.parent_id WHER"
        ++ ['E', ' ']) ++ R =
      ' ' :: 'a' ::
        (cs "s dirattr_sort FROM ENTRIES GROUP BY parent_id) as da ON id=da.parent_id WHERE "
          ++ R) := fun _ => rfl
  have b5 : ∀ R : CStr, cs " ORDER BY dirattr_sort " ++ R =
      ' ' :: 'O' :: (cs "RDER BY dirattr_sort " ++ R) := fun _ => rfl
  have v1 : occurrences (cs "LEFT JOIN") (cs "SELECT id FRO" ++ ['M', ' ']) = 0 := by decide
  have v2 : occurrences (cs "LEFT JOIN")
      (cs " LEFT JOIN (SELECT parent_id" ++ [',', ' ']) = 1 := by decide
  have v3 : occurrences (cs "LEFT JOIN")
      (cs " as dirattr_sort FROM ENTRIES GROUP BY parent_id) as da ON id=da.parent_id WHER"
        ++ ['E', ' ']) = 0 := occurrences_none _ (by decide)
  have v5 : occurrences (cs "LEFT JOIN") (cs " ORDER BY dirattr_sort " ++ T) = 0 := by
    apply occurrences_none
    intro h
    rcases List.mem_append.mp h with h1 | h1
    · revert h1; decide
    · exact hT h1
  rw [a1, occurrences_after_blank _ 'M' _ (by decide), v1,
    b2, occurrences_before_blank M 'L' _ (by decide), ← b2,
    a2, occurrences_after_blank _ ',' _ (by decide), v2,
    a3, b3, occurrences_before_blank S 'a' _ (by decide), ← b3,
    occurrences_after_blank _ 'E' _ (by decide), v3,
    b5, occurrences_before_blank F 'O' _ (by decide), ← b5, v5]
  omega

/-! ## Theorems -/

/-- C1: for an entry that is not a directory and whose full path lies under the
filesystem root, `entry2backend_path` called with `FOR_NEW_COPY` returns 0 and the
path made of `<backend_root>/<relative path>` (`/<relative path>` for the root `/`),
sanitized as the specification says, followed by two underscores and the entry id: a
text without underscore which, for a fid (the id of every entry that the backend
receives, `backend_basic.c` being compiled with `_HAVE_FID`), reads back as the id of
the entry. -/
theorem C1_new_copy_path (config : backend_config_t) (global_config : global_config_t)
    (p_id : entry_id_t) (p_attrs_in : attr_set_t) (rel : CStr)
    (habs : global_config.fs_path.head? = some '/')
    (hunder : under_fs_root global_config p_attrs_in rel)
    (hnd : not_directory p_attrs_in) :
    ∃ t, entry2backend_path config global_config p_id p_attrs_in FOR_NEW_COPY =
        (0, spec_sanitize (backend_root_slash config ++ rel) ++ cs "__" ++ t) ∧
      (∀ c ∈ t, c ≠ '_') ∧
      (p_id.is_fid = true → read_fid t = some p_id) := by
  have hraw := raw_backend_path_under config global_config p_attrs_in rel habs hunder
  refine ⟨id_suffix p_id, ?_, id_suffix_clean p_id, ?_⟩
  · unfold entry2backend_path
    simp only [hraw, clean_bad_chars_eq_spec]
    unfold not_directory at hnd
    by_cases hb : p_attrs_in.attr_mask.backendpath = true
    · simp [hb]
    · by_cases ht : p_attrs_in.attr_mask.type = true
      · simp [hb, ht, hnd ht]
      · simp [hb, ht]
  · intro hfid
    cases p_id with
    | fid s o v => exact read_fid_id_suffix s o v
    | posix i d v => cases hfid

/-- C1, on the file `A/b.dat` of the filesystem `/mnt/lustre` and the backend
`/backend`: the new copy goes to `/backend/A/b.dat__0x200000400:0x1:0x0`, and the text
after the underscores reads back as the fid of the file. -/
theorem C1_new_copy_path_witness :
    entry2backend_path sample_config sample_global_config sample_fid sample_file
        FOR_NEW_COPY = (0, cs "/backend/A/b.dat__0x200000400:0x1:0x0") ∧
    read_fid (cs "0x200000400:0x1:0x0") = some sample_fid ∧
    ∃ t, entry2backend_path sample_config sample_global_config sample_fid sample_file
          FOR_NEW_COPY =
        (0, spec_sanitize (backend_root_slash sample_config ++ cs "A/b.dat") ++ cs "__" ++ t) ∧
      (∀ c ∈ t, c ≠ '_') ∧
      (sample_fid.is_fid = true → read_fid t = some sample_fid) :=
  ⟨by decide, by decide,
    C1_new_copy_path sample_config sample_global_config sample_fid sample_file
      (cs "A/b.dat") (by decide) ⟨by decide, by decide⟩ (by unfold not_directory; decide)⟩

/-- C2 as stated fails: for the directory `A` with the backend path `/backend/old`
cataloged, a lookup returns the cataloged path and a new copy gets the id suffix;
neither is the cleaned `/backend/A`. -/
theorem C2_counterexample :
    is_directory sample_dir_cataloged ∧
    under_fs_root sample_global_config sample_dir_cataloged (cs "A") ∧
    spec_sanitize (backend_root_slash sample_config ++ cs "A") = cs "/backend/A" ∧
    entry2backend_path sample_config sample_global_config sample_fid sample_dir_cataloged
        FOR_LOOKUP = (0, cs "/backend/old") ∧
    entry2backend_path sample_config sample_global_config sample_fid sample_dir_cataloged
        FOR_NEW_COPY = (0, cs "/backend/A__0x200000400:0x1:0x0") := by
  refine ⟨⟨by decide, by decide⟩, ⟨by decide, by decide⟩, by decide, by decide, by decide⟩

/-- C2 amended: for a directory entry whose full path lies under the filesystem root,
when no previous backend path is cataloged the returned path is the sanitized
`<backend_root>/<relative path>` without id suffix, for a new copy as for a lookup;
when a backend path is cataloged, a lookup returns the cataloged path. -/
theorem C2_directory_path (config : backend_config_t) (global_config : global_config_t)
    (p_id : entry_id_t) (p_attrs_in : attr_set_t) (rel : CStr)
    (habs : global_config.fs_path.head? = some '/')
    (hunder : under_fs_root global_config p_attrs_in rel)
    (hdir : is_directory p_attrs_in) :
    (p_attrs_in.attr_mask.backendpath = false →
      ∀ what_for, entry2backend_path config global_config p_id p_attrs_in what_for =
        (0, spec_sanitize (backend_root_slash config ++ rel))) ∧
    (p_attrs_in.attr_mask.backendpath = true →
      entry2backend_path config global_config p_id p_attrs_in FOR_LOOKUP =
        (0, p_attrs_in.attr_values.backendpath)) := by
  have hraw := raw_backend_path_under config global_config p_attrs_in rel habs hunder
  obtain ⟨ht, hd⟩ := hdir
  constructor
  · intro hb what_for
    unfold entry2backend_path
    simp only [hraw, clean_bad_chars_eq_spec]
    simp [hb, ht, hd]
  · intro hb
    unfold entry2backend_path
    simp [hb]

/-- C2 amended, on the directory `A`: without a cataloged backend path both calls
return `/backend/A`. -/
theorem C2_directory_path_witness :
    entry2backend_path sample_config sample_global_config sample_fid sample_dir
        FOR_NEW_COPY = (0, cs "/backend/A") ∧
    entry2backend_path sample_config sample_global_config sample_fid sample_dir
        FOR_LOOKUP = (0, cs "/backend/A") := by
  have h := (C2_directory_path sample_config sample_global_config sample_fid sample_dir
    (cs "A") (by decide) ⟨by decide, by decide⟩ ⟨by decide, by decide⟩).1 (by decide)
  rw [h FOR_NEW_COPY, h FOR_LOOKUP]
  decide

/-- C3: two non-directory entries with different entry ids (fids: `backend_basic.c`
is compiled with `_HAVE_FID`, and the entries that the backend receives are identified
by fids) get different backend paths when the paths are built from scratch, whatever
the full paths and names; the text that follows the last underscore of such a path
reads back as the entry id. -/
theorem C3_id_determined (config : backend_config_t)
    (global_config : global_config_t) (seq1 oid1 ver1 seq2 oid2 ver2 : Nat)
    (attrs1 attrs2 : attr_set_t) (what_for1 what_for2 : what_for_e)
    (h1 : builds_from_scratch attrs1 what_for1)
    (h2 : builds_from_scratch attrs2 what_for2)
    (hne : entry_id_t.fid seq1 oid1 ver1 ≠ entry_id_t.fid seq2 oid2 ver2) :
    (entry2backend_path config global_config (.fid seq1 oid1 ver1) attrs1 what_for1).2 ≠
      (entry2backend_path config global_config (.fid seq2 oid2 ver2) attrs2 what_for2).2 ∧
    read_fid (after_last_underscore
      (entry2backend_path config global_config (.fid seq1 oid1 ver1) attrs1 what_for1).2)
      = some (.fid seq1 oid1 ver1) ∧
    read_fid (after_last_underscore
      (entry2backend_path config global_config (.fid seq2 oid2 ver2) attrs2 what_for2).2)
      = some (.fid seq2 oid2 ver2) := by
  rw [entry2backend_path_scratch config global_config _ attrs1 what_for1 h1,
    entry2backend_path_scratch config global_config _ attrs2 what_for2 h2]
  simp only
  rw [after_last_underscore_append _ _ (id_suffix_clean _),
    after_last_underscore_append _ _ (id_suffix_clean _)]
  refine ⟨?_, read_fid_id_suffix seq1 oid1 ver1, read_fid_id_suffix seq2 oid2 ver2⟩
  intro heq
  exact hne (suffixed_path_injective _ _ _ _ heq)

/-- C3, on two fids that differ by their version only, for the same file `A/b.dat`:
the paths `/backend/A/b.dat__0x200000400:0x1:0x0` and
`/backend/A/b.dat__0x200000400:0x1:0x1` differ and each reads back as its fid. -/
theorem C3_id_determined_witness :
    (entry2backend_path sample_config sample_global_config (.fid 8589935616 1 0)
        sample_file FOR_NEW_COPY).2 ≠
      (entry2backend_path sample_config sample_global_config (.fid 8589935616 1 1)
        sample_file FOR_NEW_COPY).2 ∧
    read_fid (after_last_underscore
      (entry2backend_path sample_config sample_global_config (.fid 8589935616 1 0)
        sample_file FOR_NEW_COPY).2) = some (.fid 8589935616 1 0) ∧
    read_fid (after_last_underscore
      (entry2backend_path sample_config sample_global_config (.fid 8589935616 1 1)
        sample_file FOR_NEW_COPY).2) = some (.fid 8589935616 1 1) :=
  C3_id_determined sample_config sample_global_config 8589935616 1 0 8589935616 1 1
    sample_file sample_file FOR_NEW_COPY FOR_NEW_COPY
    ⟨by unfold not_directory; decide, by decide⟩
    ⟨by unfold not_directory; decide, by decide⟩ (by decide)

/-- C4: for a regular-file entry with `last_mod`, `type` and `size` supplied and no
temporary copy in flight, `rbhext_get_status` returns 0 with the status new when
nothing exists at the backend path, synchro when a regular file is there with the
supplied modification time and size, modified when a regular file is there and its
modification time or its size differs. -/
theorem C4_status_from_backend_copy (env : Env) (w : World) (p_id : entry_id_t)
    (p_attrs_in p_attrs_changed : attr_set_t)
    (hmask : p_attrs_in.attr_mask.last_mod = true ∧ p_attrs_in.attr_mask.type = true ∧
      p_attrs_in.attr_mask.size = true)
    (hfile : env.ListMgr2PolicyType p_attrs_in.attr_values.type = TYPE_FILE)
    (hnm : lstat w (xfer_path (lookup_path env p_id p_attrs_in)) = .error ENOENT) :
    (lstat w (lookup_path env p_id p_attrs_in) = .error ENOENT →
      rbhext_get_status env w p_id p_attrs_in p_attrs_changed =
        (0, p_attrs_changed.set_status STATUS_NEW, w)) ∧
    (∀ bkmd, lstat w (lookup_path env p_id p_attrs_in) = .ok bkmd →
      bkmd.st_kind = S_IFREG →
      bkmd.st_mtime = p_attrs_in.attr_values.last_mod ∧
        bkmd.st_size = p_attrs_in.attr_values.size →
      rbhext_get_status env w p_id p_attrs_in p_attrs_changed =
        (0, (p_attrs_changed.set_status STATUS_SYNCHRO).set_backendpath
              (lookup_path env p_id p_attrs_in), w)) ∧
    (∀ bkmd, lstat w (lookup_path env p_id p_attrs_in) = .ok bkmd →
      bkmd.st_kind = S_IFREG →
      bkmd.st_mtime ≠ p_attrs_in.attr_values.last_mod ∨
        bkmd.st_size ≠ p_attrs_in.attr_values.size →
      rbhext_get_status env w p_id p_attrs_in p_attrs_changed =
        (0, (p_attrs_changed.set_status STATUS_MODIFIED).set_backendpath
              (lookup_path env p_id p_attrs_in), w)) :=
  get_status_file_no_marker env w p_id p_attrs_in p_attrs_changed hmask.1 hmask.2.1 hfile hnm

/-- C4, on `A/b.dat` (modified at 5000, size 1024): the status is new with an empty
backend, synchro with a copy modified at 5000 and modified with a copy modified at
4000. -/
theorem C4_status_from_backend_copy_witness :
    (rbhext_get_status sample_env world_new sample_fid sample_file {}).2.1.attr_values.status
      = STATUS_NEW ∧
    (rbhext_get_status sample_env (world_archived 5000) sample_fid sample_file
      {}).2.1.attr_values.status = STATUS_SYNCHRO ∧
    (rbhext_get_status sample_env (world_archived 4000) sample_fid sample_file
      {}).2.1.attr_values.status = STATUS_MODIFIED := by
  have h1 := (C4_status_from_backend_copy sample_env world_new sample_fid sample_file {}
    (by decide) (by decide) (by decide)).1 (by decide)
  have h2 := (C4_status_from_backend_copy sample_env (world_archived 5000) sample_fid
    sample_file {} (by decide) (by decide) (by decide)).2.1 (sample_node 5000).st
    (by decide) (by decide) (by decide)
  have h3 := (C4_status_from_backend_copy sample_env (world_archived 4000) sample_fid
    sample_file {} (by decide) (by decide) (by decide)).2.2 (sample_node 4000).st
    (by decide) (by decide) (by decide)
  rw [h1, h2, h3]
  exact ⟨rfl, rfl, rfl⟩

/-- C5 as stated fails: a temporary copy that is exactly `copy_timeout` seconds old
(hence not less than `copy_timeout` old) is reported as a running archive, and so is
a copy of any age when `copy_timeout` is 0. -/
theorem C5_counterexample :
    xfer_path (lookup_path sample_env sample_fid sample_file) = sample_xfer ∧
    lstat (world_marker 5900) sample_xfer = .ok (sample_node 5900).st ∧
    ¬ ((world_marker 5900).now - last_activity (sample_node 5900).st
        < sample_env.config.copy_timeout) ∧
    (rbhext_get_status sample_env (world_marker 5900) sample_fid sample_file {}).1 = 0 ∧
    (rbhext_get_status sample_env (world_marker 5900) sample_fid sample_file
      {}).2.1.attr_values.status = STATUS_ARCHIVE_RUNNING ∧
    lstat (world_marker 1000) sample_xfer = .ok (sample_node 1000).st ∧
    ¬ ((world_marker 1000).now - last_activity (sample_node 1000).st
        < sample_env_no_timeout.config.copy_timeout) ∧
    (rbhext_get_status sample_env_no_timeout (world_marker 1000) sample_fid sample_file
      {}).1 = 0 ∧
    (rbhext_get_status sample_env_no_timeout (world_marker 1000) sample_fid sample_file
      {}).2.1.attr_values.status = STATUS_ARCHIVE_RUNNING := by
  refine ⟨by decide, by decide, by decide, by decide, by decide, by decide, by decide,
    by decide, by decide⟩

/-- C5 amended: for a regular-file entry with `last_mod` and `type` supplied, and a
temporary copy `<backend path>.xfer` whose last activity (the maximum of its mtime,
ctime and atime), if the copy exists, is in the range of a 32-bit `int` (between
`-2 ^ 31` and `2 ^ 31 - 1`, the type in which `entry_is_archiving` returns it),
`rbhext_get_status` reports the status archive_running if and only if the temporary
copy exists, its last activity is after the epoch, and either `copy_timeout` is 0 (no
timeout) or the last activity is at most `copy_timeout` seconds old. -/
theorem C5_archive_running_iff (env : Env) (w : World) (p_id : entry_id_t)
    (p_attrs_in p_attrs_changed : attr_set_t)
    (hmask : p_attrs_in.attr_mask.last_mod = true ∧ p_attrs_in.attr_mask.type = true)
    (hfile : env.ListMgr2PolicyType p_attrs_in.attr_values.type = TYPE_FILE)
    (hrange : ∀ md, lstat w (xfer_path (lookup_path env p_id p_attrs_in)) = .ok md →
      -2147483648 ≤ last_activity md ∧ last_activity md < 2147483648) :
    ((rbhext_get_status env w p_id p_attrs_in p_attrs_changed).1 = 0 ∧
      (rbhext_get_status env w p_id p_attrs_in p_attrs_changed).2.1.attr_values.status
        = STATUS_ARCHIVE_RUNNING) ↔
    ∃ md, lstat w (xfer_path (lookup_path env p_id p_attrs_in)) = .ok md ∧
      0 < last_activity md ∧
      (env.config.copy_timeout = 0 ∨
        w.now - last_activity md ≤ env.config.copy_timeout) := by
  have hsame : (∃ md, lstat w (xfer_path (lookup_path env p_id p_attrs_in)) = .ok md ∧
      0 < last_activity md ∧
      (env.config.copy_timeout = 0 ∨
        w.now - last_activity md ≤ env.config.copy_timeout)) ↔
      0 < (check_running_copy env.config w (lookup_path env p_id p_attrs_in)).1 := by
    rw [check_running_copy_pos_iff]
    constructor
    · rintro ⟨md, hl, h⟩
      refine ⟨md, hl, ?_⟩
      rw [to_int_eq _ (hrange md hl).1 (hrange md hl).2]
      exact h
    · rintro ⟨md, hl, h⟩
      refine ⟨md, hl, ?_⟩
      rw [to_int_eq _ (hrange md hl).1 (hrange md hl).2] at h
      exact h
  rw [hsame]
  constructor
  · rintro ⟨h0, hs⟩
    by_contra hrun
    rcases get_status_file_not_running env w p_id p_attrs_in p_attrs_changed hmask.1 hmask.2
      hfile hrun h0 with h | h | h <;> rw [h] at hs <;> cases hs
  · intro hrun
    rw [get_status_file_unfold env w p_id p_attrs_in p_attrs_changed hmask.1 hmask.2 hfile]
    have h1 : ¬ (check_running_copy env.config w (lookup_path env p_id p_attrs_in)).1 < 0 := by
      omega
    simp only [if_neg h1, gt_iff_lt, if_pos hrun]
    exact ⟨trivial, rfl⟩

/-- C5 amended, on a temporary copy that is 50 seconds old under a timeout of 100. -/
theorem C5_archive_running_iff_witness :
    (rbhext_get_status sample_env (world_marker 5950) sample_fid sample_file {}).1 = 0 ∧
    (rbhext_get_status sample_env (world_marker 5950) sample_fid sample_file
      {}).2.1.attr_values.status = STATUS_ARCHIVE_RUNNING :=
  (C5_archive_running_iff sample_env (world_marker 5950) sample_fid sample_file {}
    ⟨by decide, by decide⟩ (by decide)
    (fun md h => by
      have e : md = (sample_node 5950).st :=
        (Except.ok.inj ((show lstat (world_marker 5950)
          (xfer_path (lookup_path sample_env sample_fid sample_file)) =
            .ok (sample_node 5950).st by decide).symm.trans h)).symm
      rw [e]
      decide)).mpr
    ⟨(sample_node 5950).st, by decide, by decide, Or.inr (by decide)⟩

/-- C6 as stated fails: with a temporary copy older than `copy_timeout` and nothing
at the backend path, the status probe unlinks the temporary copy and reports new,
not modified. -/
theorem C6_counterexample :
    xfer_path (lookup_path sample_env sample_fid sample_file) = sample_xfer ∧
    lstat (world_marker 1000) sample_xfer = .ok (sample_node 1000).st ∧
    (world_marker 1000).now - last_activity (sample_node 1000).st
      > sample_env.config.copy_timeout ∧
    (rbhext_get_status sample_env (world_marker 1000) sample_fid sample_file {}).1 = 0 ∧
    (rbhext_get_status sample_env (world_marker 1000) sample_fid sample_file
      {}).2.1.attr_values.status = STATUS_NEW ∧
    lstat (rbhext_get_status sample_env (world_marker 1000) sample_fid sample_file {}).2.2
      sample_xfer = .error ENOENT := by
  refine ⟨by decide, by decide, by decide, by decide, by decide, by decide⟩

/-- C6 amended: for a regular-file entry (with `last_mod` and `type` supplied) whose
temporary copy, last active after the epoch and before `2 ^ 31` (the range of the
32-bit `int` in which `entry_is_archiving` returns the time), is older than a non-zero
`copy_timeout` and can be unlinked, the next
`rbhext_get_status` call unlinks the temporary copy and reports what the probe of the
filesystem without it reports: new when nothing exists at the backend path,
synchro when a regular file is there with the supplied modification time and size,
modified when its modification time or its size differs. -/
theorem C6_timed_out_copy (env : Env) (w w1 : World) (p_id : entry_id_t)
    (p_attrs_in p_attrs_changed : attr_set_t) (md : stat_t)
    (hmask : p_attrs_in.attr_mask.last_mod = true ∧ p_attrs_in.attr_mask.type = true)
    (hfile : env.ListMgr2PolicyType p_attrs_in.attr_values.type = TYPE_FILE)
    (hto : env.config.copy_timeout ≠ 0)
    (hmk : lstat w (xfer_path (lookup_path env p_id p_attrs_in)) = .ok md)
    (hpos : 0 < last_activity md) (hrange : last_activity md < 2147483648)
    (hold : w.now - last_activity md > env.config.copy_timeout)
    (hunl : unlink w (xfer_path (lookup_path env p_id p_attrs_in)) = .ok w1) :
    lstat w1 (xfer_path (lookup_path env p_id p_attrs_in)) = .error ENOENT ∧
    rbhext_get_status env w p_id p_attrs_in p_attrs_changed =
      rbhext_get_status env w1 p_id p_attrs_in p_attrs_changed ∧
    (lstat w (lookup_path env p_id p_attrs_in) = .error ENOENT →
      rbhext_get_status env w p_id p_attrs_in p_attrs_changed =
        (0, p_attrs_changed.set_status STATUS_NEW, w1)) ∧
    (∀ bkmd, lstat w (lookup_path env p_id p_attrs_in) = .ok bkmd →
      bkmd.st_kind = S_IFREG →
      bkmd.st_mtime = p_attrs_in.attr_values.last_mod ∧
        bkmd.st_size = p_attrs_in.attr_values.size →
      rbhext_get_status env w p_id p_attrs_in p_attrs_changed =
        (0, (p_attrs_changed.set_status STATUS_SYNCHRO).set_backendpath
              (lookup_path env p_id p_attrs_in), w1)) ∧
    (∀ bkmd, lstat w (lookup_path env p_id p_attrs_in) = .ok bkmd →
      bkmd.st_kind = S_IFREG →
      bkmd.st_mtime ≠ p_attrs_in.attr_values.last_mod ∨
        bkmd.st_size ≠ p_attrs_in.attr_values.size →
      rbhext_get_status env w p_id p_attrs_in p_attrs_changed =
        (0, (p_attrs_changed.set_status STATUS_MODIFIED).set_backendpath
              (lookup_path env p_id p_attrs_in), w1)) := by
  have hw1 := unlink_ok w w1 _ hunl
  have hwrap : to_int (last_activity md) = last_activity md :=
    to_int_eq _ (by omega) hrange
  rw [← hwrap] at hpos hold
  have hgone : lstat w1 (xfer_path (lookup_path env p_id p_attrs_in)) = .error ENOENT := by
    rw [hw1]; exact lstat_put_none w _ md hmk
  have hsame : lstat w1 (lookup_path env p_id p_attrs_in) =
      lstat w (lookup_path env p_id p_attrs_in) := by
    rw [hw1]; exact lstat_put_other w _ _ none (xfer_path_ne _)
  have heq : rbhext_get_status env w p_id p_attrs_in p_attrs_changed =
      rbhext_get_status env w1 p_id p_attrs_in p_attrs_changed := by
    rw [get_status_file_unfold env w p_id p_attrs_in p_attrs_changed hmask.1 hmask.2 hfile,
      get_status_file_unfold env w1 p_id p_attrs_in p_attrs_changed hmask.1 hmask.2 hfile,
      check_running_copy_timed_out env.config w w1 _ md hmk hpos hto hold hunl,
      check_running_copy_no_marker env.config w1 _ hgone]
  have hrest := get_status_file_no_marker env w1 p_id p_attrs_in p_attrs_changed hmask.1
    hmask.2 hfile hgone
  rw [hsame, ← heq] at hrest
  exact ⟨hgone, heq, hrest⟩

/-- C6 amended, on `A/b.dat` with a temporary copy that is 5000 seconds old: the copy
of the backend, modified at 4000, makes the status modified. -/
theorem C6_timed_out_copy_witness :
    (rbhext_get_status sample_env ((world_archived 4000).put sample_xfer
      (some (sample_node 1000))) sample_fid sample_file {}).2.1.attr_values.status
      = STATUS_MODIFIED := by
  have h := (C6_timed_out_copy sample_env
    ((world_archived 4000).put sample_xfer (some (sample_node 1000)))
    (((world_archived 4000).put sample_xfer (some (sample_node 1000))).put sample_xfer none)
    sample_fid sample_file {} (sample_node 1000).st ⟨by decide, by decide⟩ (by decide)
    (by decide) (by decide) (by decide) (by decide) (by decide) rfl).2.2.2.2
    (sample_node 4000).st
    (by decide) (by decide) (by decide)
  rw [h]
  rfl

/-- C7 as stated fails for symbolic links: the link `L`, modified at 5000, is reported
synchro with the link of the backend that has the same target but was created at
7000. -/
theorem C7_counterexample :
    lookup_path sample_env sample_fid sample_link = sample_link_bkpath ∧
    (rbhext_get_status sample_env (world_link (cs "/tmp/x")) sample_fid sample_link
      {}).1 = 0 ∧
    (rbhext_get_status sample_env (world_link (cs "/tmp/x")) sample_fid sample_link
      {}).2.1.attr_values.status = STATUS_SYNCHRO ∧
    lstat (rbhext_get_status sample_env (world_link (cs "/tmp/x")) sample_fid sample_link
      {}).2.2 sample_link_bkpath = .ok (sample_symlink (cs "/tmp/x") 7000).st ∧
    (sample_symlink (cs "/tmp/x") 7000).st.st_mtime ≠ sample_link.attr_values.last_mod := by
  refine ⟨by decide, by decide, by decide, by decide, by decide⟩

/-- C7 amended: whenever `rbhext_get_status` returns 0 with the status synchro, the
changed attributes carry `backendpath`, equal to the path looked up; for a file the
object at that path is a regular file whose mtime equals the supplied `last_mod` and
whose size equals the supplied size; for a symbolic link the object at that path is a
link with the same target as the link of the filesystem (times and sizes are not
compared). -/
theorem C7_synchro_matches_backend (env : Env) (w : World) (p_id : entry_id_t)
    (p_attrs_in p_attrs_changed : attr_set_t)
    (h0 : (rbhext_get_status env w p_id p_attrs_in p_attrs_changed).1 = 0)
    (hs : (rbhext_get_status env w p_id p_attrs_in p_attrs_changed).2.1.attr_values.status
      = STATUS_SYNCHRO) :
    (rbhext_get_status env w p_id p_attrs_in p_attrs_changed).2.1.attr_mask.backendpath
      = true ∧
    (rbhext_get_status env w p_id p_attrs_in p_attrs_changed).2.1.attr_values.backendpath
      = lookup_path env p_id p_attrs_in ∧
    ((env.ListMgr2PolicyType p_attrs_in.attr_values.type = TYPE_FILE ∧
        ∃ bkmd, lstat (rbhext_get_status env w p_id p_attrs_in p_attrs_changed).2.2
            (lookup_path env p_id p_attrs_in) = .ok bkmd ∧
          bkmd.st_kind = S_IFREG ∧ bkmd.st_mtime = p_attrs_in.attr_values.last_mod ∧
          bkmd.st_size = p_attrs_in.attr_values.size) ∨
     (env.ListMgr2PolicyType p_attrs_in.attr_values.type = TYPE_LINK ∧
        ∃ fspath lnk, entry_fspath env p_id p_attrs_in = .ok fspath ∧
          readlink (rbhext_get_status env w p_id p_attrs_in p_attrs_changed).2.2
            (lookup_path env p_id p_attrs_in) = .ok lnk ∧
          readlink (rbhext_get_status env w p_id p_attrs_in p_attrs_changed).2.2 fspath
            = .ok lnk)) :=
  get_status_synchro env w p_id p_attrs_in p_attrs_changed h0 hs

/-- C7 amended, on `A/b.dat` archived with its modification time. -/
theorem C7_synchro_matches_backend_witness :
    (rbhext_get_status sample_env (world_archived 5000) sample_fid sample_file
      {}).2.1.attr_values.backendpath = sample_bkpath :=
  (C7_synchro_matches_backend sample_env (world_archived 5000) sample_fid sample_file {}
    (by decide) (by decide)).2.1.trans (by decide)

/-- C8 as stated fails for the status new: with a running copy of `A/b.dat` in the
backend, `rbhext_archive` does not return `-EALREADY`; it runs the archive command
and returns 0, the copy being then in place in the backend. -/
theorem C8_counterexample :
    (sample_file_status STATUS_NEW).attr_values.status = STATUS_NEW ∧
    new_copy_path sample_env sample_fid (sample_file_status STATUS_NEW) = sample_bkpath ∧
    (check_running_copy sample_env.config (world_marker 5950) sample_bkpath).1 = 1 ∧
    (rbhext_archive sample_env (world_marker 5950) RBHEXT_SYNC sample_fid
      (sample_file_status STATUS_NEW) none).1 = 0 ∧
    lstat (world_marker 5950) sample_bkpath = .error ENOENT ∧
    lstat (rbhext_archive sample_env (world_marker 5950) RBHEXT_SYNC sample_fid
      (sample_file_status STATUS_NEW) none).2.2 sample_bkpath
      = .ok { (sample_node 6000).st with st_atime := 6000, st_mtime := 5000 } := by
  refine ⟨by decide, by decide, by decide, by decide, by decide, by decide⟩

/-- C8 amended: for the statuses modified and archive_running (supplied, with the type
of a file or of a link), `rbhext_archive` fails with `-EALREADY` whenever
`check_running_copy` reports a running copy for the target backend path, and does so
without invoking the archive command: whatever the command would do, the attributes
and the filesystem are unchanged.  For the status new the running copy is not
checked. -/
theorem C8_already_in_progress (env : Env) (w : World) (p_id : entry_id_t)
    (p_attrs : attr_set_t) (hints : Option CStr)
    (hst : p_attrs.attr_mask.status = true) (hty : p_attrs.attr_mask.type = true)
    (htype : env.ListMgr2PolicyType p_attrs.attr_values.type = TYPE_FILE ∨
      env.ListMgr2PolicyType p_attrs.attr_values.type = TYPE_LINK)
    (hstatus : p_attrs.attr_values.status = STATUS_MODIFIED ∨
      p_attrs.attr_values.status = STATUS_ARCHIVE_RUNNING)
    (hrun : 0 < (check_running_copy env.config w (new_copy_path env p_id p_attrs)).1) :
    ∀ command : CStr → World → Int × World,
      rbhext_archive { env with system := command } w RBHEXT_SYNC p_id p_attrs hints =
        (-EALREADY, p_attrs, w) := by
  intro command
  unfold rbhext_archive
  rw [archive_prepare_running { env with system := command } w p_id p_attrs hst hty htype
    hstatus hrun]

/-- C8 amended, on `A/b.dat` with the status modified and a running copy: the call
fails with `-EALREADY`. -/
theorem C8_already_in_progress_witness :
    (rbhext_archive sample_env (world_marker 5950) RBHEXT_SYNC sample_fid
      (sample_file_status STATUS_MODIFIED) none).1 = -EALREADY := by
  have h := C8_already_in_progress sample_env (world_marker 5950) sample_fid
    (sample_file_status STATUS_MODIFIED) none (by decide) (by decide) (Or.inl (by decide))
    (Or.inl (by decide)) (by decide) sample_env.system
  exact congrArg Prod.fst h

/-- C9, the code at the failing input: `A/b.dat` has the status modified and a
directory stands at its backend path, so the archive command succeeds and the
rename of the temporary copy fails.  `rbhext_archive` returns `-EISDIR` and sets the
status to modified, but the temporary copy, absent before the call, is left in the
backend.  When the command itself fails (exit status 1), the temporary copy is
removed. -/
theorem C9_xfer_left_when_rename_fails :
    new_copy_path sample_env sample_fid (sample_file_status STATUS_MODIFIED)
      = sample_bkpath ∧
    xfer_path sample_bkpath = sample_xfer ∧
    lstat world_blocked sample_xfer = .error ENOENT ∧
    (rbhext_archive sample_env world_blocked RBHEXT_SYNC sample_fid
      (sample_file_status STATUS_MODIFIED) none).1 = -EISDIR ∧
    (rbhext_archive sample_env world_blocked RBHEXT_SYNC sample_fid
      (sample_file_status STATUS_MODIFIED) none).2.1.attr_values.status = STATUS_MODIFIED ∧
    lstat (rbhext_archive sample_env world_blocked RBHEXT_SYNC sample_fid
      (sample_file_status STATUS_MODIFIED) none).2.2 sample_xfer
      = .ok { (sample_node 6000).st with st_atime := 6000, st_mtime := 5000 } ∧
    (rbhext_archive sample_env_failing world_new RBHEXT_SYNC sample_fid
      (sample_file_status STATUS_MODIFIED) none).1 = -1 ∧
    (rbhext_archive sample_env_failing world_new RBHEXT_SYNC sample_fid
      (sample_file_status STATUS_MODIFIED) none).2.1.attr_values.status = STATUS_MODIFIED ∧
    lstat (rbhext_archive sample_env_failing world_new RBHEXT_SYNC sample_fid
      (sample_file_status STATUS_MODIFIED) none).2.2 sample_xfer = .error ENOENT := by
  refine ⟨by decide, by decide, by decide, by decide, by decide, by decide, by decide,
    by decide, by decide⟩

/-- C10: for a regular file archived successfully, with `info` the result of the
final `lstat` of the source, `rbhext_archive` returns 0 with `backendpath` set to the
new backend path, and the status is modified when `info` shows an mtime or a size
different from the `last_mod` and the size the entry had at the call, synchro when
both are equal. -/
theorem C10_status_after_archive (env : Env) (w : World) (p_id : entry_id_t)
    (p_attrs : attr_set_t) (hints : Option CStr) (c : archive_ctx) (info : stat_t)
    (hok : archived_successfully env w p_id p_attrs hints c)
    (hl : lstat (rbhext_archive env w RBHEXT_SYNC p_id p_attrs hints).2.2 c.fspath
      = .ok info) :
    (rbhext_archive env w RBHEXT_SYNC p_id p_attrs hints).1 = 0 ∧
    (rbhext_archive env w RBHEXT_SYNC p_id p_attrs hints).2.1.attr_mask.backendpath = true ∧
    (rbhext_archive env w RBHEXT_SYNC p_id p_attrs hints).2.1.attr_values.backendpath
      = new_copy_path env p_id c.p_attrs ∧
    (info.st_mtime ≠ p_attrs.attr_values.last_mod ∨
        info.st_size ≠ p_attrs.attr_values.size →
      (rbhext_archive env w RBHEXT_SYNC p_id p_attrs hints).2.1.attr_values.status
        = STATUS_MODIFIED) ∧
    (info.st_mtime = p_attrs.attr_values.last_mod ∧
        info.st_size = p_attrs.attr_values.size →
      (rbhext_archive env w RBHEXT_SYNC p_id p_attrs hints).2.1.attr_values.status
        = STATUS_SYNCHRO) := by
  obtain ⟨hbk, _, hlm, hsz, _⟩ := archive_prepare_ok env w RBHEXT_SYNC p_id p_attrs c hok.1
  obtain ⟨w3, heq⟩ := archive_success_eq env w p_id p_attrs hints c hok
  rw [heq] at hl ⊢
  have h := archive_file_commit_result env c w3 info hl
  rw [hlm, hsz, hbk] at h
  exact h

/-- C10, on `A/b.dat` cataloged with the modification time 5000: archived while the
file of the filesystem shows the modification time 5060, it ends with the status
modified. -/
theorem C10_status_after_archive_witness :
    (rbhext_archive sample_env (world_source (sample_node 5060)) RBHEXT_SYNC sample_fid
      (sample_file_status STATUS_NEW) none).2.1.attr_values.status = STATUS_MODIFIED :=
  (C10_status_after_archive sample_env (world_source (sample_node 5060)) sample_fid
    (sample_file_status STATUS_NEW) none (sample_ctx (world_source (sample_node 5060)))
    (sample_node 5060).st
    ⟨by rfl, by rfl,
      (sample_system [] (sample_ctx (world_source (sample_node 5060))).w).2,
      ((archive_stamp (sample_ctx (world_source (sample_node 5060)))
        (sample_system [] (sample_ctx (world_source (sample_node 5060))).w).2).put
          sample_bkpath (some { (sample_node 6000) with
            st := { (sample_node 6000).st with st_atime := 6000, st_mtime := 5000 } })).put
          sample_xfer none,
      by rfl, by rfl⟩
    (by decide)).2.2.2.1 (Or.inl (by decide))

/-- C14: when `last_mod` or `type` is absent from the input mask, `rbhext_get_status`
returns `-EINVAL`, leaves the changed attributes as they were given and leaves the
filesystem (hence the backend) untouched. -/
theorem C14_missing_mandatory_attribute (env : Env) (w : World) (p_id : entry_id_t)
    (p_attrs_in p_attrs_changed : attr_set_t)
    (h : p_attrs_in.attr_mask.last_mod = false ∨ p_attrs_in.attr_mask.type = false) :
    rbhext_get_status env w p_id p_attrs_in p_attrs_changed =
      (-EINVAL, p_attrs_changed, w) := by
  unfold rbhext_get_status
  have hm : ¬ p_attrs_in.attr_mask.last_mod = true ∨ ¬ p_attrs_in.attr_mask.type = true := by
    rcases h with h | h
    · left; rw [h]; decide
    · right; rw [h]; decide
  rw [if_pos hm]

/-- C14, on `A/b.dat` cataloged without its modification time and archived in the
backend. -/
theorem C14_missing_mandatory_attribute_witness :
    (rbhext_get_status sample_env (world_archived 5000) sample_fid sample_file_no_mtime
      {}).1 = -EINVAL :=
  congrArg Prod.fst (C14_missing_mandatory_attribute sample_env (world_archived 5000)
    sample_fid sample_file_no_mtime {} (Or.inl (by decide)))

/-- C18 as stated fails for a root of one character other than the separator: with
the root `a`, `relative_path` accepts the path `abc`, which does not begin with `a/`,
and returns `bc`. -/
theorem C18_counterexample :
    relative_path (cs "abc") (cs "a") = (0, cs "bc") ∧
    ¬ (∃ rel, cs "abc" = with_trailing_slash (cs "a") ++ rel) := by
  refine ⟨by decide, ?_⟩
  rintro ⟨rel, h⟩
  have h2 : (cs "abc").take 2 = cs "a/" := by
    rw [h]; rfl
  exact absurd h2 (by decide)

/-- C18 amended: for every root that is `/` or has more than one character, and every
full path, `relative_path` succeeds exactly when the full path begins with the root
followed by one separator (the root taken as is when it already ends with one); the
root with its separator followed by the returned relative path is then the full path;
in every other case it returns `-EINVAL`. -/
theorem C18_relative_path (fullpath root : CStr)
    (hroot : root = cs "/" ∨ 1 < root.length) :
    ((relative_path fullpath root).1 = 0 ↔
      ∃ rel, fullpath = with_trailing_slash root ++ rel) ∧
    ((relative_path fullpath root).1 = 0 →
      with_trailing_slash root ++ (relative_path fullpath root).2 = fullpath) ∧
    ((relative_path fullpath root).1 ≠ 0 → (relative_path fullpath root).1 = -EINVAL) := by
  have hcopy : (if root.length > 1 ∧ root.getLast? ≠ some '/' then root ++ ['/'] else root)
      = with_trailing_slash root := by
    unfold with_trailing_slash
    by_cases hl : root.getLast? = some '/'
    · simp [hl]
    · have hlen : root.length > 1 := by
        rcases hroot with h | h
        · rw [h] at hl; exact absurd (by decide) hl
        · exact h
      simp [hl, hlen]
  unfold relative_path
  simp only [hcopy]
  by_cases hp : strncmp_eq (with_trailing_slash root) fullpath = true
  · have hp2 : fullpath.take (with_trailing_slash root).length = with_trailing_slash root := by
      simpa [strncmp_eq] using hp
    have hsplit : with_trailing_slash root ++ fullpath.drop (with_trailing_slash root).length
        = fullpath := by
      have := List.take_append_drop (with_trailing_slash root).length fullpath
      rw [hp2] at this
      exact this
    simp only [hp, if_true]
    refine ⟨⟨fun _ => ⟨_, hsplit.symm⟩, fun _ => trivial⟩, fun _ => hsplit, fun h => absurd rfl h⟩
  · simp only [hp]
    refine ⟨⟨fun h => ?_, fun h => ?_⟩, fun h => ?_, fun _ => rfl⟩
    · simp [EINVAL] at h
    · exfalso
      obtain ⟨rel, hrel⟩ := h
      apply hp
      rw [hrel]
      simp [strncmp_eq]
    · simp [EINVAL] at h

/-- C18 amended, on the root `/mnt/lustre/` and the path `/mnt/lustre/A/b`: exactly one
separator is stripped. -/
theorem C18_relative_path_witness :
    with_trailing_slash (cs "/mnt/lustre/") ++
      (relative_path (cs "/mnt/lustre/A/b") (cs "/mnt/lustre/")).2 = cs "/mnt/lustre/A/b" :=
  (C18_relative_path (cs "/mnt/lustre/A/b") (cs "/mnt/lustre/") (Or.inr (by decide))).2.1
    (by decide)

/-- C13 as stated fails while a copy is in flight: for the file `A/b.dat`, whose
backend path holds a directory, with a temporary copy 50 seconds old,
`rbhext_get_status` reports archive_running and the directory stays at the backend
path. -/
theorem C13_counterexample :
    lookup_path sample_env sample_fid sample_file = sample_bkpath ∧
    (lstat (world_blocked_marker 5950) sample_bkpath).toOption.map (fun md => md.st_kind)
      = some S_IFDIR ∧
    (rbhext_get_status sample_env (world_blocked_marker 5950) sample_fid sample_file
      {}).1 = 0 ∧
    (rbhext_get_status sample_env (world_blocked_marker 5950) sample_fid sample_file
      {}).2.1.attr_values.status = STATUS_ARCHIVE_RUNNING ∧
    (lstat (rbhext_get_status sample_env (world_blocked_marker 5950) sample_fid sample_file
      {}).2.2 sample_bkpath).toOption.map (fun md => md.st_kind) = some S_IFDIR := by
  refine ⟨by decide, by decide, by decide, by decide, by decide⟩

/-- C13 amended: for a file or symbolic link entry, with `last_mod` and `type`
supplied, whose backend path holds an object of another type (a non-regular object for
a file, a non-symlink for a symbolic link).  When no temporary copy `.xfer` exists (a
symbolic link has none) and the move to the orphan directory succeeds,
`rbhext_get_status` reports the status new, the object is then at
`<backend_root>/.orphans/<basename of the backend path>` and nothing remains at the
backend path (taken outside the orphan directory); when the move fails it returns the
negative error code of the move, sets no status and the object stays at the backend
path.  For a file with a temporary copy in flight (last active after the epoch and
before `2 ^ 31`, with `copy_timeout` 0 or not exceeded) it reports archive_running and
leaves the filesystem as it is. -/
theorem C13_orphan_moved (env : Env) (w : World) (p_id : entry_id_t)
    (p_attrs_in p_attrs_changed : attr_set_t) (bkmd : stat_t)
    (hmask : p_attrs_in.attr_mask.last_mod = true ∧ p_attrs_in.attr_mask.type = true)
    (htype :
      (env.ListMgr2PolicyType p_attrs_in.attr_values.type = TYPE_FILE ∧
        bkmd.st_kind ≠ S_IFREG) ∨
      (env.ListMgr2PolicyType p_attrs_in.attr_values.type = TYPE_LINK ∧
        bkmd.st_kind ≠ S_IFLNK))
    (hl : lstat w (lookup_path env p_id p_attrs_in) = .ok bkmd) :
    ((env.ListMgr2PolicyType p_attrs_in.attr_values.type = TYPE_FILE →
        lstat w (xfer_path (lookup_path env p_id p_attrs_in)) = .error ENOENT) →
      (∀ w2, move_orphan env.config w (lookup_path env p_id p_attrs_in) = (0, w2) →
        rbhext_get_status env w p_id p_attrs_in p_attrs_changed =
          (0, p_attrs_changed.set_status STATUS_NEW, w2) ∧
        (∃ n, w.files (lookup_path env p_id p_attrs_in) = some n ∧ n.st = bkmd ∧
          w2.files (orphan_path env.config (lookup_path env p_id p_attrs_in)) = some n) ∧
        (orphan_path env.config (lookup_path env p_id p_attrs_in)
            ≠ lookup_path env p_id p_attrs_in →
          lstat w2 (lookup_path env p_id p_attrs_in) = .error ENOENT)) ∧
      (∀ rc w2, move_orphan env.config w (lookup_path env p_id p_attrs_in) = (rc, w2) →
        rc ≠ 0 →
        rbhext_get_status env w p_id p_attrs_in p_attrs_changed =
          (rc, p_attrs_changed, w2) ∧
        rc < 0 ∧ lstat w2 (lookup_path env p_id p_attrs_in) = .ok bkmd)) ∧
    (env.ListMgr2PolicyType p_attrs_in.attr_values.type = TYPE_FILE →
      ∀ md, lstat w (xfer_path (lookup_path env p_id p_attrs_in)) = .ok md →
      0 < last_activity md → last_activity md < 2147483648 →
      (env.config.copy_timeout = 0 ∨
        w.now - last_activity md ≤ env.config.copy_timeout) →
      rbhext_get_status env w p_id p_attrs_in p_attrs_changed =
        (0, p_attrs_changed.set_status STATUS_ARCHIVE_RUNNING, w)) := by
  obtain ⟨hf, n, hn, hst⟩ := lstat_ok w _ bkmd hl
  have hprobe : (env.ListMgr2PolicyType p_attrs_in.attr_values.type = TYPE_FILE →
        lstat w (xfer_path (lookup_path env p_id p_attrs_in)) = .error ENOENT) →
      rbhext_get_status env w p_id p_attrs_in p_attrs_changed =
        (if (move_orphan env.config w (lookup_path env p_id p_attrs_in)).1 ≠ 0 then
          ((move_orphan env.config w (lookup_path env p_id p_attrs_in)).1, p_attrs_changed,
            (move_orphan env.config w (lookup_path env p_id p_attrs_in)).2)
        else (0, p_attrs_changed.set_status STATUS_NEW,
            (move_orphan env.config w (lookup_path env p_id p_attrs_in)).2)) := by
    intro hnm
    rcases htype with ⟨hfile, hk⟩ | ⟨hlink, hk⟩
    · rw [get_status_file_unfold env w p_id p_attrs_in p_attrs_changed hmask.1 hmask.2 hfile,
        check_running_copy_no_marker env.config w _ (hnm hfile)]
      simp [hl, hk]
    · rw [get_status_link_unfold env w p_id p_attrs_in p_attrs_changed hmask.1 hmask.2 hlink]
      simp only [hl]
      unfold get_status_link
      simp [hk]
  refine ⟨fun hnm => ⟨?_, ?_⟩, ?_⟩
  · intro w2 hmv
    obtain ⟨hdest, hgone, hfault⟩ := move_orphan_ok env.config w w2 _ n hn hmv
    refine ⟨?_, ⟨n, hn, hst, hdest⟩, ?_⟩
    · rw [hprobe hnm, hmv]
      simp
    · intro hne
      unfold lstat
      rw [hfault, hf, hgone hne]
  · intro rc w2 hmv hrc
    obtain ⟨hneg, hkeep, hfault⟩ := move_orphan_fail env.config w w2 _ n rc hn hmv hrc
    refine ⟨?_, hneg, ?_⟩
    · rw [hprobe hnm, hmv]
      simp [hrc]
    · unfold lstat
      rw [hfault, hf, hkeep]
      simp only [hst]
  · intro hfile md hmk hpos hrange hyoung
    have hwrap : to_int (last_activity md) = last_activity md :=
      to_int_eq _ (by omega) hrange
    rw [← hwrap] at hpos hyoung
    rw [get_status_file_unfold env w p_id p_attrs_in p_attrs_changed hmask.1 hmask.2 hfile,
      check_running_copy_running env.config w _ md hmk hpos hyoung]
    simp

/-- C13 amended, on `A/b.dat` whose backend path holds a directory.  Alone, the
directory goes to `/backend/.orphans/b.dat__0x200000400:0x1:0x0` and the status is new;
when a regular file has that name already the move fails with `-ENOTDIR`, no status is
set and the directory stays; with a temporary copy 50 seconds old the status is
archive_running and the directory stays. -/
theorem C13_orphan_moved_witness :
    ((rbhext_get_status sample_env world_blocked sample_fid sample_file
        {}).2.1.attr_values.status = STATUS_NEW ∧
      orphan_path sample_env.config (lookup_path sample_env sample_fid sample_file)
        = cs "/backend/.orphans/b.dat__0x200000400:0x1:0x0" ∧
      lstat (rbhext_get_status sample_env world_blocked sample_fid sample_file {}).2.2
        sample_bkpath = .error ENOENT) ∧
    ((rbhext_get_status sample_env world_blocked_orphan sample_fid sample_file {}).1
        = -ENOTDIR ∧
      (rbhext_get_status sample_env world_blocked_orphan sample_fid sample_file
        {}).2.1.attr_mask.status = false ∧
      (lstat (rbhext_get_status sample_env world_blocked_orphan sample_fid sample_file
        {}).2.2 sample_bkpath).toOption.map (fun md => md.st_kind) = some S_IFDIR) ∧
    ((rbhext_get_status sample_env (world_blocked_marker 5950) sample_fid sample_file
        {}).2.1.attr_values.status = STATUS_ARCHIVE_RUNNING ∧
      (lstat (rbhext_get_status sample_env (world_blocked_marker 5950) sample_fid
        sample_file {}).2.2 sample_bkpath).toOption.map (fun md => md.st_kind)
        = some S_IFDIR) := by
  have h1 := ((C13_orphan_moved sample_env world_blocked sample_fid sample_file {}
    { st_kind := S_IFDIR, st_perm := 488 } ⟨by decide, by decide⟩
    (Or.inl ⟨by decide, by decide⟩) (by decide)).1 (fun _ => by decide)).1
    (move_orphan sample_env.config world_blocked sample_bkpath).2 (by rfl)
  have h2 := ((C13_orphan_moved sample_env world_blocked_orphan sample_fid sample_file {}
    { st_kind := S_IFDIR, st_perm := 488 } ⟨by decide, by decide⟩
    (Or.inl ⟨by decide, by decide⟩) (by decide)).1 (fun _ => by decide)).2
    (-ENOTDIR) (move_orphan sample_env.config world_blocked_orphan sample_bkpath).2
    (by rfl) (by decide)
  have h3 := (C13_orphan_moved sample_env (world_blocked_marker 5950) sample_fid
    sample_file {} { st_kind := S_IFDIR, st_perm := 488 } ⟨by decide, by decide⟩
    (Or.inl ⟨by decide, by decide⟩) (by decide)).2 (by decide) (sample_node 5950).st
    (by decide) (by decide) (by decide) (Or.inr (by decide))
  refine ⟨⟨?_, by decide, ?_⟩, ⟨?_, ?_, ?_⟩, ⟨?_, ?_⟩⟩
  · rw [h1.1]; rfl
  · rw [h1.1]; exact h1.2.2 (by decide)
  · rw [h2.1]
  · rw [h2.1]
  · rw [h2.1]
    have h4 : lstat (move_orphan sample_env.config world_blocked_orphan sample_bkpath).2
        sample_bkpath = .ok { st_kind := S_IFDIR, st_perm := 488 } := h2.2.2
    rw [h4]
    rfl
  · rw [h3]; rfl
  · rw [h3]; decide

/-- C12, the code at the failing input: the link `L`, archived when it pointed to
`/tmp/x`, now points to `/tmp/y`.  The status probe reports modified with the backend
path of the link; `rbhext_archive` then calls `symlink` on this path, where the
previous link stands, and returns `-EEXIST`: the link of the backend still points to
`/tmp/x` and the status stays modified. -/
theorem C12_symlink_not_replaced :
    (rbhext_get_status sample_env world_retargeted sample_fid sample_link sample_link).1 = 0 ∧
    sample_link_probed.attr_values.status = STATUS_MODIFIED ∧
    sample_link_probed.attr_values.backendpath = sample_link_bkpath ∧
    new_copy_path sample_env sample_fid sample_link_probed = sample_link_bkpath ∧
    readlink world_retargeted sample_fidpath = .ok (cs "/tmp/y") ∧
    (rbhext_archive sample_env world_retargeted RBHEXT_SYNC sample_fid sample_link_probed
      none).1 = -EEXIST ∧
    (rbhext_archive sample_env world_retargeted RBHEXT_SYNC sample_fid sample_link_probed
      none).2.1.attr_values.status = STATUS_MODIFIED ∧
    readlink (rbhext_archive sample_env world_retargeted RBHEXT_SYNC sample_fid
      sample_link_probed none).2.2 sample_link_bkpath = .ok (cs "/tmp/x") := by
  refine ⟨by decide, by decide, by decide, by decide, by decide, by decide, by decide,
    by decide⟩

/-- C16, the code at the failing input: `rbh_scrub` is given 51 directories, of which
the first 50 hold 51 directories.  In the first turn the directory 51 is the only
pending id, in an array of 64 cells, when the 51 children are added.  The array has to
grow: `add_id_list` returns 0 but copies the pending id one cell too far
(`dir_array_new[count+1]`), so the pending sequence is the 51 children followed by an
id that was never added, where the new ids followed by the previous ones end with
the directory 51.  The walk asks the catalog for the children of that id and never
for those of the directory 51. -/
theorem C16_grow_shifts_pending :
    pending sample_array = [dir_id 51] ∧
    sample_array.array_len = 64 ∧ sample_array.array_first = 50 ∧
    (add_id_list sample_MemAlloc sample_array sample_children).1 = 0 ∧
    (add_id_list sample_MemAlloc sample_array sample_children).2.array_len = 128 ∧
    pending (add_id_list sample_MemAlloc sample_array sample_children).2
      = sample_children ++ [.posix 0 0 0] ∧
    pending (add_id_list sample_MemAlloc sample_array sample_children).2
      ≠ sample_children ++ pending sample_array ∧
    (rbh_scrub sample_tree_env 3 {} 0 sample_roots).map (fun r => (r.1, r.2.calls)) =
      some (0, [.get_child (sample_roots.take 50), .callback sample_children,
                .get_child (sample_children.take 50), .callback [],
                .get_child [dir_id 151, .posix 0 0 0], .callback []]) := by
  refine ⟨by decide, by decide, by decide, by decide, by decide, by decide, by decide,
    by decide⟩

/-- C17: called with an empty id list on an empty scrubbing array, `rbh_scrub` returns
0 at once, whatever the fuel: it calls neither `ListMgr_GetChild` nor the callback and
leaves the outer state as it was. -/
theorem C17_empty_scrub {σ : Type} (e : scrub_env σ) (fuel : Nat) (arr : scrub_array)
    (db : σ) (hempty : arr.array_first = arr.array_next) :
    ∃ r, rbh_scrub e fuel arr db [] = some (0, r) ∧ r.calls = [] ∧ r.db = db ∧
      array_used r.arr = 0 := by
  have hadd : add_id_list e.MemAlloc arr [] =
      (0, { arr with
            dir_array := arr.dir_array.map (fun a => memcpy_list a (arr.array_first - 0) []),
            array_first := arr.array_first - 0 }) := by
    unfold add_id_list
    simp
  have hused : array_used { arr with
      dir_array := arr.dir_array.map (fun a => memcpy_list a (arr.array_first - 0) []),
      array_first := arr.array_first - 0 } = 0 := by
    simp [array_used, hempty]
  have hnot : ¬ array_used { arr with
      dir_array := arr.dir_array.map (fun a => memcpy_list a (arr.array_first - 0) []),
      array_first := arr.array_first - 0 } > 0 := by
    rw [hused]; decide
  unfold rbh_scrub
  rw [hadd]
  simp only [ne_eq, not_true_eq_false, if_false]
  cases fuel with
  | zero =>
    unfold scrub_loop
    rw [if_neg hnot]
    exact ⟨_, rfl, rfl, rfl, hused⟩
  | succ n =>
    unfold scrub_loop
    rw [if_neg hnot]
    exact ⟨_, rfl, rfl, rfl, hused⟩

/-- C17, on the array of a fresh process and a catalog that counts its calls. -/
theorem C17_empty_scrub_witness :
    ∃ r, rbh_scrub sample_scrub_env 0 {} 0 [] = some (0, r) ∧ r.calls = [] ∧ r.db = 0 ∧
      array_used r.arr = 0 :=
  C17_empty_scrub sample_scrub_env 0 {} 0 rfl

/-- C15: when `rbhext_recover` restores a regular file (the `lstat` of the restored
entry gives a regular file) whose size and modification time are cataloged, and
`ListMgr_MergeAttrSets` leaves unchanged the attributes that are already set, a call
that does not end in `RS_ERROR` returns `RS_DELTA` when the restored size differs from
the cataloged size or the restored mtime differs from the cataloged `last_mod`, and
`RS_OK` when both are equal. -/
theorem C15_recover_delta (env : Env) (renv : recover_env) (w : World)
    (p_old_id : entry_id_t) (p_attrs_old : attr_set_t) (p_new_id : entry_id_t)
    (p_attrs_new : attr_set_t) (bkinfo : Option stat_t) (st_dest : stat_t)
    (hmerge : merge_keeps_set renv.ListMgr_MergeAttrSets)
    (hsize : p_attrs_old.attr_mask.size = true)
    (hmod : p_attrs_old.attr_mask.last_mod = true)
    (hstat : restored_stat env renv w p_old_id p_attrs_old bkinfo = some st_dest)
    (hreg : st_dest.st_kind = S_IFREG)
    (hdone : (rbhext_recover env renv w p_old_id p_attrs_old p_new_id p_attrs_new bkinfo).1
      ≠ RS_ERROR) :
    (rbhext_recover env renv w p_old_id p_attrs_old p_new_id p_attrs_new bkinfo).1 =
      (if st_dest.st_size ≠ p_attrs_old.attr_values.size ∨
          st_dest.st_mtime ≠ p_attrs_old.attr_values.last_mod then RS_DELTA else RS_OK) := by
  unfold restored_stat at hstat
  unfold rbhext_recover at hdone ⊢
  cases hr : recover_restore env renv w p_old_id p_attrs_old bkinfo with
  | error r => rw [hr] at hstat; cases hstat
  | ok c =>
    rw [hr] at hstat hdone
    simp only at hstat hdone ⊢
    cases hl : lstat c.w c.fspath with
    | error e => rw [hl] at hstat; cases hstat
    | ok st =>
      rw [hl] at hstat
      cases hstat
      obtain ⟨h1, h2, h3, h4⟩ :=
        recover_restore_attrs env renv w p_old_id p_attrs_old bkinfo c hmerge hsize hmod hr
      have hdelta : recover_delta c.attrs_old st_dest =
          decide (st_dest.st_size ≠ p_attrs_old.attr_values.size ∨
            st_dest.st_mtime ≠ p_attrs_old.attr_values.last_mod) := by
        unfold recover_delta
        simp [hreg, h1, h2, h3, h4]
      rcases recover_finish_status env renv c p_old_id p_new_id p_attrs_new st_dest hl with
        hf | hf
      · exact absurd hf hdone
      · rw [hf, hdelta]
        by_cases hne : st_dest.st_size ≠ p_attrs_old.attr_values.size ∨
            st_dest.st_mtime ≠ p_attrs_old.attr_values.last_mod
        · simp [hne]
        · simp [hne]

/-- C15, on the backend copy of `A/b.dat` (1024 bytes) whose modification time 4000
is not the cataloged one (5000): the file is restored with the mtime 4000 and the
result is `RS_DELTA`. -/
theorem C15_recover_delta_witness :
    (rbhext_recover sample_env_restore sample_recover_env (world_lost 4000) sample_fid
        sample_file sample_fid {} none).1 =
      (if (1024 : Nat) ≠ sample_file.attr_values.size ∨
          (4000 : Int) ≠ sample_file.attr_values.last_mod then RS_DELTA else RS_OK) :=
  C15_recover_delta sample_env_restore sample_recover_env (world_lost 4000) sample_fid
    sample_file sample_fid {} none sample_restored_stat
    sample_merge_keeps (by decide) (by decide) (by decide) (by decide) (by decide)

set_option maxRecDepth 20000 in
/-- C19 as stated fails: the filter on the name `a LEFT JOIN b` falls on the main table
only and the sort is on `dircount`, and the request holds `LEFT JOIN` twice, once
from the format string of `append_dir_req` and once in the predicate of the filter. -/
theorem C19_counterexample :
    sorts_on_dirattr sample_listmgr_env { attr_index := 1, order := SORT_ASC } ∧
    filters_main_only sample_listmgr_env sample_filter_join ∧
    iterator_query sample_listmgr_env (some sample_filter_join)
        (some { attr_index := 1, order := SORT_ASC }) none =
      some (cs ("SELECT id FROM ENTRIES LEFT JOIN (SELECT parent_id, COUNT(*) as " ++
        "dirattr_sort FROM ENTRIES GROUP BY parent_id) as da ON id=da.parent_id " ++
        "WHERE ENTRIES.name='a LEFT JOIN b' ORDER BY dirattr_sort ASC")) ∧
    (iterator_query sample_listmgr_env (some sample_filter_join)
        (some { attr_index := 1, order := SORT_ASC }) none).map
      (occurrences (cs "LEFT JOIN")) = some 2 := by
  refine ⟨by unfold sorts_on_dirattr; decide, by unfold filters_main_only; decide, by rfl,
    by rfl⟩

/-- C19 amended: for a filter whose predicates fall on the main table only, with no
filter on a directory attribute, and a sort on a directory attribute such as
`dircount`, the request built by `ListMgr_Iterator` selects from the main table alone,
joined to the subquery that groups `ENTRIES` by `parent_id`, and is ordered by
`dirattr_sort`.  The code writes one `LEFT JOIN` into it: the request holds one
`LEFT JOIN` more than the texts that come from outside (the name of the main table, the
expression of the attribute, the predicate of the filter) hold together, hence exactly
one when none of them holds `LEFT JOIN`. -/
theorem C19_one_left_join {φ : Type} (e : listmgr_env φ) (flt : φ)
    (s : lmgr_sort_type_t) (p_opt : Option lmgr_iter_opt_t)
    (hsort : sorts_on_dirattr e s) (hmain : filters_main_only e flt) :
    iterator_query e (some flt) (some s) p_opt =
      some (dirattr_sorted_request e.MAIN_TABLE (e.dirattr2str s.attr_index)
        (iterator_locate_filters e flt).filter_str_main s.order p_opt) ∧
    occurrences (cs "LEFT JOIN")
      (dirattr_sorted_request e.MAIN_TABLE (e.dirattr2str s.attr_index)
        (iterator_locate_filters e flt).filter_str_main s.order p_opt) =
      1 + occurrences (cs "LEFT JOIN") e.MAIN_TABLE
        + occurrences (cs "LEFT JOIN") (e.dirattr2str s.attr_index)
        + occurrences (cs "LEFT JOIN") (iterator_locate_filters e flt).filter_str_main ∧
    (occurrences (cs "LEFT JOIN") e.MAIN_TABLE = 0 →
      occurrences (cs "LEFT JOIN") (e.dirattr2str s.attr_index) = 0 →
      occurrences (cs "LEFT JOIN") (iterator_locate_filters e flt).filter_str_main = 0 →
      occurrences (cs "LEFT JOIN")
        (dirattr_sorted_request e.MAIN_TABLE (e.dirattr2str s.attr_index)
          (iterator_locate_filters e flt).filter_str_main s.order p_opt) = 1) := by
  have hcount : occurrences (cs "LEFT JOIN")
      (dirattr_sorted_request e.MAIN_TABLE (e.dirattr2str s.attr_index)
        (iterator_locate_filters e flt).filter_str_main s.order p_opt) =
      1 + occurrences (cs "LEFT JOIN") e.MAIN_TABLE
        + occurrences (cs "LEFT JOIN") (e.dirattr2str s.attr_index)
        + occurrences (cs "LEFT JOIN") (iterator_locate_filters e flt).filter_str_main := by
    have htail : 'J' ∉ (if s.order = SORT_ASC then cs "ASC" else cs "DESC")
        ++ iterator_limit p_opt := by
      have hl := iterator_limit_no_J p_opt
      have hord : 'J' ∉ (if s.order = SORT_ASC then cs "ASC" else cs "DESC") := by
        split <;> decide
      intro h
      rcases List.mem_append.mp h with h1 | h1
      · exact hord h1
      · exact hl h1
    unfold dirattr_sorted_request
    simp only [List.append_assoc]
    exact occurrences_request _ _ _ _ htail
  refine ⟨iterator_query_main_dirattr e flt s p_opt hsort hmain, hcount, ?_⟩
  intro h1 h2 h3
  rw [hcount, h1, h2, h3]

/-- C19 amended, on the filter `type=file` sorted by `dircount`, with at most 10
entries: the request holds one `LEFT JOIN`. -/
theorem C19_one_left_join_witness :
    iterator_query sample_listmgr_env (some sample_filter_file)
        (some { attr_index := 1, order := SORT_ASC }) (some { list_count_max := 10 }) =
      some (dirattr_sorted_request (cs "ENTRIES") (cs "COUNT(*)") (cs "ENTRIES.type='file'")
        SORT_ASC (some { list_count_max := 10 })) ∧
    occurrences (cs "LEFT JOIN")
      (dirattr_sorted_request (cs "ENTRIES") (cs "COUNT(*)") (cs "ENTRIES.type='file'")
        SORT_ASC (some { list_count_max := 10 })) = 1 :=
  ⟨(C19_one_left_join sample_listmgr_env sample_filter_file
      { attr_index := 1, order := SORT_ASC } (some { list_count_max := 10 })
      (by unfold sorts_on_dirattr; decide) (by unfold filters_main_only; decide)).1,
   (C19_one_left_join sample_listmgr_env sample_filter_file
      { attr_index := 1, order := SORT_ASC } (some { list_count_max := 10 })
      (by unfold sorts_on_dirattr; decide) (by unfold filters_main_only; decide)).2.2
      (by decide) (by decide) (by decide)⟩

/-- C23, counterexample: a command killed by the signal 2 (wait status 2) and a
command that exits with the status 4 (wait status 1024) both give the result `-4`
(`-EINTR`). -/
theorem C23_counterexample :
    wait_status (.killed 2 false) = 2 ∧ wait_status (.exited 4) = 1024 ∧
    WIFSIGNALED 2 = true ∧ WIFEXITED 2 = false ∧
    WIFEXITED 1024 = true ∧ WEXITSTATUS 1024 = 4 ∧
    (execute_shell_command (system_status (wait_status (.killed 2 false))) world_new
      (cs "cmd") []).1 = -4 ∧
    (execute_shell_command (system_status (wait_status (.exited 4))) world_new
      (cs "cmd") []).1 = -4 := by
  decide

/-- C23 as amended: whatever way the call of `system` ends, `execute_shell_command`
returns `-s` when the command exited with the status `s` (hence 0 exactly when the
command exited with the status 0, and a non-zero value for every other exit status),
`-EINTR`, that is `-4`, the result of the exit status 4, when the command was killed
by a signal, and the `-1` of `system`, the result of the exit status 1, when no
command could be run. -/
theorem C23_shell_command_result (system : CStr → World → Int × World) (w : World)
    (cmd : CStr) (args : List CStr) (e : command_end) (hvalid : e.valid)
    (hsys : (system (shell_cmdline cmd args) w).1 = wait_status e) :
    (∀ status, e = .exited status →
      (execute_shell_command system w cmd args).1 = -(status : Int)) ∧
    (∀ sig core, e = .killed sig core →
      (execute_shell_command system w cmd args).1 = -EINTR) ∧
    (e = .not_run → (execute_shell_command system w cmd args).1 = -1) ∧
    ((execute_shell_command system w cmd args).1 = 0 ↔ e = .exited 0) ∧
    -EINTR = -4 ∧
    (execute_shell_command system w cmd args).2 = (system (shell_cmdline cmd args) w).2 := by
  unfold execute_shell_command
  cases hs : system (shell_cmdline cmd args) w with
  | mk rc w1 =>
    rw [hs] at hsys
    simp only at hsys
    subst hsys
    cases e with
    | exited status =>
      obtain ⟨h1, h2⟩ := wait_status_exited status hvalid
      simp only [h1, h2, if_true]
      by_cases h0 : status = 0
      · subst h0
        simp [EINTR]
      · have h3 : ¬ ((status : Int) = 0) := by omega
        simp [h3, h0, EINTR]
    | killed sig core =>
      obtain ⟨h1, h2⟩ := wait_status_killed sig core hvalid.1 hvalid.2
      simp [h1, h2, EINTR]
    | not_run =>
      have h1 : WIFEXITED (-1) = false := by decide
      have h2 : WIFSIGNALED (-1) = false := by decide
      simp [h1, h2, wait_status, EINTR]

/-- C23 as amended, on a command that exits with the status 0, one that exits with
the status 3, one killed by the signal 9 and a call of `system` that fails. -/
theorem C23_shell_command_result_witness :
    (execute_shell_command (system_status 0) world_new (cs "cmd") []).1 = 0 ∧
    (execute_shell_command (system_status 768) world_new (cs "cmd") []).1 = -3 ∧
    (execute_shell_command (system_status 9) world_new (cs "cmd") []).1 = -4 ∧
    (execute_shell_command (system_status (-1)) world_new (cs "cmd") []).1 = -1 :=
  ⟨(C23_shell_command_result (system_status 0) world_new (cs "cmd") [] (.exited 0)
      (show 0 < 256 by decide) (by decide)).2.2.2.1.mpr rfl,
   (C23_shell_command_result (system_status 768) world_new (cs "cmd") [] (.exited 3)
      (show 3 < 256 by decide) (by decide)).1 3 rfl,
   (C23_shell_command_result (system_status 9) world_new (cs "cmd") [] (.killed 9 false)
      (show 0 < 9 ∧ 9 < 127 from ⟨by decide, by decide⟩) (by decide)).2.1 9 false rfl,
   (C23_shell_command_result (system_status (-1)) world_new (cs "cmd") [] .not_run
      trivial (by decide)).2.2.1 rfl⟩

/-- C28, the code at the failing input: `rbh_scrub` is given one directory and the
request for its children fails with the code 5.  The walk stops after this call, and
`rbh_scrub` returns 0. -/
theorem C28_getchild_error_lost :
    (rbh_scrub sample_failing_catalog 1 {} 0 [dir_id 1]).map (fun r => (r.1, r.2.calls)) =
      some (0, [.get_child [dir_id 1]]) := by
  decide

/-- C25, the code at the failing input: `gcd(131072, 65536)`.  The product of the two
values is `2 ^ 33`, which is 0 for `unsigned int`, so the loop is not entered and the
function returns 131072, where the greatest common divisor is 65536. -/
theorem C25_gcd_overflow :
    (131072 * 65536) % 2 ^ 32 = 0 ∧
    gcd 131072 65536 = some 131072 ∧
    Nat.gcd 131072 65536 = 65536 := by
  refine ⟨by norm_num, ?_, by norm_num⟩
  unfold gcd gcd_loop
  norm_num

/-- C26, the code at the failing input: with the backend root `/`, the path that
`entry2backend_path` builds for a new copy of `A/b.dat` is `/A/b.dat__<id>`, which
does not begin with the root followed by a separator; `mkdir_recurse` refuses its
parent directory `/A` with `-EINVAL`, and so does `rbhext_archive`.  With a backend
root that holds a space, `/back end`, the path begins with `/back_end`, and the
archive is refused as well. -/
theorem C26_root_not_prefix :
    entry2backend_path (sample_env_root (cs "/")).config sample_global_config sample_fid
        sample_file FOR_NEW_COPY = (0, cs "/A/b.dat__0x200000400:0x1:0x0") ∧
    ¬ (cs "/" ++ cs "/") <+: cs "/A/b.dat__0x200000400:0x1:0x0" ∧
    (mkdir_recurse (sample_env_root (cs "/")) world_new
        (dirname (cs "/A/b.dat__0x200000400:0x1:0x0")) 488 TO_BACKEND).1 = -EINVAL ∧
    (rbhext_archive (sample_env_root (cs "/")) world_new RBHEXT_SYNC sample_fid
        (sample_file_status STATUS_NEW) none).1 = -EINVAL ∧
    entry2backend_path (sample_env_root (cs "/back end")).config sample_global_config
        sample_fid sample_file FOR_NEW_COPY
      = (0, cs "/back_end/A/b.dat__0x200000400:0x1:0x0") ∧
    ¬ (cs "/back end" ++ cs "/") <+: cs "/back_end/A/b.dat__0x200000400:0x1:0x0" ∧
    (rbhext_archive (sample_env_root (cs "/back end")) world_new RBHEXT_SYNC sample_fid
        (sample_file_status STATUS_NEW) none).1 = -EINVAL := by
  refine ⟨by decide, by decide, by decide, by decide, by decide, by decide, by decide⟩

/-- C27, the code at the failing input: two attribute sets of `A/b.dat` with the same
mask (full path, type and modification time, not the size) and the same values for
these three attributes, which differ only by the value left in the field of the size
(1024 or 0).  With the same backend, which holds a copy of 1024 bytes modified at the
time 5000, `rbhext_get_status` reports synchro for the first and modified for the
second. -/
theorem C27_absent_size_read :
    (sample_file_unsized 1024).attr_mask = (sample_file_unsized 0).attr_mask ∧
    (sample_file_unsized 1024).attr_mask.size = false ∧
    (sample_file_unsized 1024).attr_values.fullpath = (sample_file_unsized 0).attr_values.fullpath ∧
    (sample_file_unsized 1024).attr_values.type = (sample_file_unsized 0).attr_values.type ∧
    (sample_file_unsized 1024).attr_values.last_mod = (sample_file_unsized 0).attr_values.last_mod ∧
    (rbhext_get_status sample_env (world_archived 5000) sample_fid (sample_file_unsized 1024)
      {}).1 = 0 ∧
    (rbhext_get_status sample_env (world_archived 5000) sample_fid (sample_file_unsized 0)
      {}).1 = 0 ∧
    (rbhext_get_status sample_env (world_archived 5000) sample_fid (sample_file_unsized 1024)
      {}).2.1.attr_values.status = STATUS_SYNCHRO ∧
    (rbhext_get_status sample_env (world_archived 5000) sample_fid (sample_file_unsized 0)
      {}).2.1.attr_values.status = STATUS_MODIFIED := by
  refine ⟨by decide, by decide, by decide, by decide, by decide, by decide, by decide,
    by decide, by decide⟩

/-- C30, the code at the failing input: the argument `a\"b` (a backslash before a
double quote).  The output of `escape_shell_arg` is `"a\\"b"`: the double quote at the
place 4, strictly inside, is preceded by two backslashes, an even number, so it closes
the quoted string. -/
theorem C30_backslash_not_escaped :
    escape_shell_arg ['a', '\\', '"', 'b'] = ['"', 'a', '\\', '\\', '"', 'b', '"'] ∧
    (escape_shell_arg ['a', '\\', '"', 'b']).get? 4 = some '"' ∧
    4 < (escape_shell_arg ['a', '\\', '"', 'b']).length - 1 ∧
    backslashes_before (escape_shell_arg ['a', '\\', '"', 'b']) 4 = 2 := by
  refine ⟨by decide, by decide, by decide, by decide⟩

set_option maxRecDepth 20000 in
/-- C29, the code at the failing input: a filter with one predicate on `STRIPE_INFO`
and one on `STRIPE_ITEMS`, and no sort.  The flag of the leading `AND` is computed for
`STRIPE_INFO` first (not set) and then for `STRIPE_ITEMS` (set), but the branch for
several tables prints the text of `STRIPE_ITEMS` first: the text after `WHERE` starts
with ` AND` and the predicate on `STRIPE_INFO` follows the other one with nothing in
between. -/
theorem C29_leading_and_misplaced :
    (iterator_locate_filters sample_tables_env sample_filter_stripes).filter_str_stripe_info
      = cs "STRIPE_INFO.pool_name='fast'" ∧
    (iterator_locate_filters sample_tables_env sample_filter_stripes).filter_str_stripe_items
      = cs " AND STRIPE_ITEMS.ostidx=3" ∧
    iterator_query sample_tables_env (some sample_filter_stripes) none none =
      some (cs ("SELECT STRIPE_ITEMS.id AS id FROM STRIPE_ITEMS,STRIPE_INFO WHERE" ++
        "  AND STRIPE_ITEMS.ostidx=3STRIPE_INFO.pool_name='fast'" ++
        " AND STRIPE_ITEMS.id=STRIPE_INFO.id")) := by
  refine ⟨by rfl, by rfl, by rfl⟩

/-- C21, counterexample: the id 7 has a row in `STRIPE_INFO` and two rows in
`STRIPE_ITEMS`, and the third statement of `update_stripe_info`, the insertion into
`STRIPE_INFO`, fails.  The call returns the error and the id has no row left: the
rows are neither the new ones nor what they were before the call.  When the last
statement fails instead, the id keeps the new row of `STRIPE_INFO` without its
items. -/
theorem C21_counterexample :
    (update_stripe_info sample_stripe_env 1 (sample_stripe_db (some 2)) 7 2
        (some sample_new_stripe) (some sample_new_items) false).map
      (fun r => (r.1, stripe_rows_of r.2 7)) = some (DB_REQUEST_FAILED, (none, [])) ∧
    stripe_rows_of (sample_stripe_db (some 2)) 7 ≠ (none, []) ∧
    (update_stripe_info sample_stripe_env 1 (sample_stripe_db (some 3)) 7 2
        (some sample_new_stripe) (some sample_new_items) false).map
      (fun r => (r.1, stripe_rows_of r.2 7))
      = some (DB_REQUEST_FAILED, (some { validator := 2, stripe := sample_new_stripe }, [])) := by
  refine ⟨by decide, by decide, by decide⟩

/-- C21 as amended: on a state where the items of the id come with a row of
`STRIPE_INFO`, `update_stripe_info` returns and never changes the rows of another id.
When it succeeds, the rows of the id in `STRIPE_INFO` and `STRIPE_ITEMS` are exactly
the new ones, and it does succeed when no statement fails and the request of the items
can be built.  When it returns an error, the rows of the id are the old rows, the old
row of `STRIPE_INFO` without its items, no row at all, or the new row of `STRIPE_INFO`
without its items. -/
theorem C21_update_rows (env : stripe_env) (fuel : Nat) (db : stripe_db) (pk : Nat)
    (validator : Int) (stripe : stripe_info_t) (p_items : Option (List stripe_item_t))
    (insert_if_absent : Bool) (hc : stripe_consistent db pk) :
    ∃ rc db2,
      update_stripe_info env (fuel + 1) db pk validator (some stripe) p_items insert_if_absent
        = some (rc, db2) ∧
      same_elsewhere db db2 pk ∧
      (rc = DB_SUCCESS → stripe_rows_of db2 pk = new_stripe_rows validator stripe p_items) ∧
      ((∀ k, db.fault k = none) → request_fits env pk p_items → rc = DB_SUCCESS) ∧
      (rc ≠ DB_SUCCESS →
        stripe_rows_of db2 pk = stripe_rows_of db pk ∨
        stripe_rows_of db2 pk = (db.STRIPE_INFO pk, []) ∨
        stripe_rows_of db2 pk = (none, []) ∨
        stripe_rows_of db2 pk = (some { validator := validator, stripe := stripe }, [])) := by
  unfold update_stripe_info
  simp only
  obtain ⟨hd1, hd2, hd3⟩ := delete_stripe_info_spec db pk
  obtain ⟨hdf, hdrows, hdok⟩ := delete_stripe_info_rows db pk
  by_cases hret : (delete_stripe_info db pk).1 ≠ DB_SUCCESS ∧ insert_if_absent = false
  · rw [if_pos hret]
    refine ⟨_, _, rfl, hd1, fun h => absurd h hret.1, fun hno _ => absurd (hdok hno) hret.1,
      fun _ => ?_⟩
    rcases hdrows with h | h | h
    · exact Or.inl h
    · exact Or.inr (Or.inl h)
    · exact Or.inr (Or.inr (Or.inl h))
  · rw [if_neg hret]
    obtain ⟨rc, db2, hrun, hsame, hnew⟩ := insert_stripe_info_spec env fuel
      (delete_stripe_info db pk).2 pk validator stripe p_items (hd2 hc)
    obtain ⟨hfail, hok⟩ := insert_stripe_info_rows env fuel (delete_stripe_info db pk).2 pk
      validator stripe p_items (hd2 hc) rc db2 hrun
    refine ⟨rc, db2, hrun, same_elsewhere_trans _ _ _ pk hd1 hsame, hnew, ?_, ?_⟩
    · intro hno hfit
      exact hok (fun k => by rw [hdf]; exact hno k) (hd3 (hdok hno)).1 hfit
    · intro hrc
      rcases hfail hrc with h | h
      · rw [h]
        rcases hdrows with h2 | h2 | h2
        · exact Or.inl h2
        · exact Or.inr (Or.inl h2)
        · exact Or.inr (Or.inr (Or.inl h2))
      · exact Or.inr (Or.inr (Or.inr h))

/-- C21, on the id 7 of the sample tables, when no statement fails: the call succeeds
and the id has the new rows, a row of `STRIPE_INFO` and one item on the storage unit
3. -/
theorem C21_update_rows_witness :
    (update_stripe_info sample_stripe_env 1 (sample_stripe_db none) 7 2
        (some sample_new_stripe) (some sample_new_items) false).map
      (fun r => (r.1, stripe_rows_of r.2 7))
      = some (DB_SUCCESS, (some { validator := 2, stripe := sample_new_stripe },
          [{ stripe_index := 0, item := { ost_idx := 3 } }])) := by
  obtain ⟨rc, db2, hrun, _, hnew, hok, _⟩ := C21_update_rows sample_stripe_env 0
    (sample_stripe_db none) 7 2 sample_new_stripe (some sample_new_items) false
    (by unfold stripe_consistent; decide)
  have hrc : rc = DB_SUCCESS :=
    hok (fun k => by simp [sample_stripe_db]) (show sample_stripe_env.MemAlloc _ = true ∧ items_query_too_long sample_stripe_env 7 _ 1 []
      _ = false from ⟨rfl, rfl⟩)
  rw [hrun]
  simp only [Option.map_some', hrc, hnew hrc]
  rfl

/-- C24: in every state that the calls of a trace reach from the initial state, no
operation being registered twice, an operation `o` that `id_constraint_get_first_op`
hands out for an id comes after no operation of the queue: every operation `o2` that
was registered for the same id before `o` has been unregistered. -/
theorem C24_arrival_order (trace : List id_event) (executing : Nat → Bool)
    (id : entry_id_t) (o o2 : entry_proc_op_t) (l1 l2 : List entry_proc_op_t)
    (hnd : (registered trace).Nodup)
    (hout : id_constraint_get_first_op (id_run trace) executing id = some o)
    (hbefore : arrivals trace id = l1 ++ o2 :: l2) (ho : o ∈ l2) :
    id_event.unregister o2 ∈ trace ∧ o2 ∉ (id_run trace).queue id := by
  obtain ⟨removed, hrem, hq⟩ := id_agrees_run trace hnd id
  have hand : (arrivals trace id).Nodup := by
    unfold arrivals
    exact List.Nodup.filter _ hnd
  rw [hbefore] at hand hq
  -- the operation handed out is the head of the queue
  have hhead : ∃ rest, (id_run trace).queue id = o :: rest := by
    unfold id_constraint_get_first_op at hout
    cases hqueue : (id_run trace).queue id with
    | nil => rw [hqueue] at hout; cases hout
    | cons first rest =>
      rw [hqueue] at hout
      simp only at hout
      split at hout
      · cases hout
      · cases hout
        exact ⟨rest, rfl⟩
  obtain ⟨rest, hrest⟩ := hhead
  have hnd1 := List.nodup_append.mp hand
  have ho1 : o ∉ l1 := fun h => hnd1.2.2 h (List.mem_cons_of_mem _ ho)
  have hne : o ≠ o2 := by
    intro h
    subst h
    exact (List.nodup_cons.mp hnd1.2.1).1 ho
  have hfl1 : l1.filter (fun x => decide (x ∉ removed)) = [] := by
    cases hf : l1.filter (fun x => decide (x ∉ removed)) with
    | nil => rfl
    | cons a t =>
      exfalso
      rw [hrest, List.filter_append, hf] at hq
      have : o = a := by simpa using congrArg List.head? hq
      apply ho1
      rw [this]
      exact (List.mem_filter.mp (hf ▸ List.mem_cons_self a t)).1
  have ho2 : o2 ∈ removed := by
    by_contra hnot
    rw [hrest, List.filter_append, hfl1, List.nil_append, List.filter_cons] at hq
    simp only [hnot, not_false_eq_true, decide_True, if_true] at hq
    exact hne (List.cons.inj hq).1
  refine ⟨(hrem o2 ho2).2, ?_⟩
  rw [hrest] at hq
  intro hmem
  rw [hrest, hq] at hmem
  have := (List.mem_filter.mp hmem).2
  simp [ho2] at this

/-- C24, on three operations of one entry, of which the first one was unregistered:
the second one is handed out, and the first one is out of the queue. -/
theorem C24_arrival_order_witness :
    id_event.unregister (sample_op 1) ∈ sample_trace ∧
    sample_op 1 ∉ (id_run sample_trace).queue sample_fid :=
  C24_arrival_order sample_trace (fun _ => false) sample_fid (sample_op 2) (sample_op 1)
    [] [sample_op 2, sample_op 3] (by decide) (by decide) (by decide) (by decide)

end Robinhood
